import Mathlib

/-!
# Automap overlay of devilutionX (`Source/automap.cpp`)

A shallow embedding of the automap module: the tile classification lookup
(`GetAutomapType`, `HasAutomapType`), the exploration grid update
(`SetAutomapView`), the zoom / pan control state and the tile glyph renderer
(`DrawAutomapTile`), followed by theorems about them.

Conventions of the embedding.

* C++ `int` is modelled by `Int`; `/` on `int` is truncating division
  (`Int.tdiv`) and `%` is `Int.tmod`. Signed overflow is undefined behaviour in
  C++ and is not modelled: all arithmetic is exact.
* `AutomapTypes` (a `uint16_t` bit field) is modelled by `Nat` with the bitwise
  operators `&&&` and `|||`.
* The two dimensional arrays `dungeon` and `AutomapView` are modelled by total
  functions of two `Int` indices; a cell is addressed by its coordinate pair.
* `DMAXX`, `DMAXY` (gendung.h) and the palette constants (palette.h) are not
  part of the module; they are taken as parameters.
* The drawing surface is modelled by the list of primitive calls issued on it,
  in program order.
-/

set_option autoImplicit false

namespace devilution

/-! ## Data model -/

/-- A pair of `int` coordinates (`engine/point.hpp`). -/
structure Point where
  x : Int
  y : Int
deriving DecidableEq, Repr

/-- A pair of `int` deltas (`engine/displacement.hpp`). -/
structure Displacement where
  deltaX : Int
  deltaY : Int
deriving DecidableEq, Repr

/-- Mask selecting the base shape, `constexpr uint16_t MapTypes = 0x000F`. -/
def MapTypes : Nat := 0x000F

def AutomapTypeNone : Nat := 0
def AutomapTypeDiamond : Nat := 1
def AutomapTypeVertical : Nat := 2
def AutomapTypeHorizontal : Nat := 3
def AutomapTypeCross : Nat := 4
def AutomapTypeFenceVertical : Nat := 5
def AutomapTypeFenceHorizontal : Nat := 6
def AutomapTypeCorner : Nat := 7
def AutomapTypeCaveHorizontalCross : Nat := 8
def AutomapTypeCaveVerticalCross : Nat := 9
def AutomapTypeCaveHorizontal : Nat := 10
def AutomapTypeCaveVertical : Nat := 11
def AutomapTypeCaveCross : Nat := 12

def AutomapTypeVerticalDoor : Nat := 1 <<< 8
def AutomapTypeHorizontalDoor : Nat := 1 <<< 9
def AutomapTypeVerticalArch : Nat := 1 <<< 10
def AutomapTypeHorizontalArch : Nat := 1 <<< 11
def AutomapTypeVerticalGrate : Nat := 1 <<< 12
def AutomapTypeHorizontalGrate : Nat := 1 <<< 13
def AutomapTypeDirt : Nat := 1 <<< 14
def AutomapTypeStairs : Nat := 1 <<< 15

/-- The level data the automap reads but does not own: the grid dimensions
`DMAXX`, `DMAXY` and the tile ids `dungeon[x][y]` (all declared in gendung.h,
outside this module). -/
structure Level where
  DMAXX : Int
  DMAXY : Int
  dungeon : Int → Int → Nat

/-- The mutable globals of automap.cpp: the classification table
`AutomapTypeData`, `AutomapActive`, the exploration grid `AutomapView`,
`AutoMapScale`, `AutomapOffset` and the five derived line lengths. -/
structure AutomapState where
  AutomapTypeData : Nat → Nat
  AutomapActive : Bool
  AutomapView : Int → Int → Bool
  AutoMapScale : Int
  AutomapOffset : Displacement
  AmLine64 : Int
  AmLine32 : Int
  AmLine16 : Int
  AmLine8 : Int
  AmLine4 : Int

/-! ## Classification lookup -/

mutual

/-- `AutomapTypes GetAutomapType(Point map)`: the automap shape at the given
coordinate. Both range checks compare against `DMAXX`, as in the source. -/
def GetAutomapType (lv : Level) (AutomapTypeData : Nat → Nat) (map : Point) : Nat :=
  if hx : map.x < 0 ∨ map.x ≥ lv.DMAXX then
    AutomapTypeNone
  else if hy : map.y < 0 ∨ map.y ≥ lv.DMAXX then
    AutomapTypeNone
  else
    let rv := AutomapTypeData (lv.dungeon map.x map.y)
    if rv = AutomapTypeCorner then
      if HasAutomapType lv AutomapTypeData ⟨map.x - 1, map.y⟩ AutomapTypeHorizontalArch then
        if HasAutomapType lv AutomapTypeData ⟨map.x, map.y - 1⟩ AutomapTypeVerticalArch then
          AutomapTypeDiamond
        else rv
      else rv
    else rv
termination_by 2 * ((map.x + 1).toNat + (map.y + 1).toNat)
decreasing_by
  all_goals simp_wf
  all_goals omega

/-- `bool HasAutomapType(Point map, AutomapTypes type)`: whether the tile has
the given flag. -/
def HasAutomapType (lv : Level) (AutomapTypeData : Nat → Nat) (map : Point)
    (type : Nat) : Bool :=
  (GetAutomapType lv AutomapTypeData map &&& type) != 0
termination_by 2 * ((map.x + 1).toNat + (map.y + 1).toNat) + 1
decreasing_by
  all_goals simp_wf

end

/-- One read of the two arrays the lookup consults: `dungeon[x][y]` or
`AutomapTypeData[id]`. -/
inductive MemRead where
  | dungeon (x y : Int)
  | AutomapTypeData (id : Nat)
deriving DecidableEq, Repr

mutual

/-- `AutomapTypes GetAutomapType(Point map)` with its reads: the value returned,
and the reads of `dungeon` and `AutomapTypeData` the call performs, in program
order, those of the nested calls of `HasAutomapType` included. -/
def GetAutomapTypeReads (lv : Level) (AutomapTypeData : Nat → Nat) (map : Point) :
    Nat × List MemRead :=
  if map.x < 0 ∨ map.x ≥ lv.DMAXX then
    (AutomapTypeNone, [])
  else if map.y < 0 ∨ map.y ≥ lv.DMAXX then
    (AutomapTypeNone, [])
  else
    let rv := AutomapTypeData (lv.dungeon map.x map.y)
    let reads :=
      [MemRead.dungeon map.x map.y, MemRead.AutomapTypeData (lv.dungeon map.x map.y)]
    if rv = AutomapTypeCorner then
      if (HasAutomapTypeReads lv AutomapTypeData ⟨map.x - 1, map.y⟩
          AutomapTypeHorizontalArch).1 then
        if (HasAutomapTypeReads lv AutomapTypeData ⟨map.x, map.y - 1⟩
            AutomapTypeVerticalArch).1 then
          (AutomapTypeDiamond,
            reads
            ++ (HasAutomapTypeReads lv AutomapTypeData ⟨map.x - 1, map.y⟩
                AutomapTypeHorizontalArch).2
            ++ (HasAutomapTypeReads lv AutomapTypeData ⟨map.x, map.y - 1⟩
                AutomapTypeVerticalArch).2)
        else
          (rv,
            reads
            ++ (HasAutomapTypeReads lv AutomapTypeData ⟨map.x - 1, map.y⟩
                AutomapTypeHorizontalArch).2
            ++ (HasAutomapTypeReads lv AutomapTypeData ⟨map.x, map.y - 1⟩
                AutomapTypeVerticalArch).2)
      else
        (rv,
          reads
          ++ (HasAutomapTypeReads lv AutomapTypeData ⟨map.x - 1, map.y⟩
              AutomapTypeHorizontalArch).2)
    else (rv, reads)
termination_by 2 * ((map.x + 1).toNat + (map.y + 1).toNat)
decreasing_by
  all_goals simp_wf
  all_goals omega

/-- `bool HasAutomapType(Point map, AutomapTypes type)` with its reads. -/
def HasAutomapTypeReads (lv : Level) (AutomapTypeData : Nat → Nat) (map : Point)
    (type : Nat) : Bool × List MemRead :=
  (((GetAutomapTypeReads lv AutomapTypeData map).1 &&& type) != 0,
    (GetAutomapTypeReads lv AutomapTypeData map).2)
termination_by 2 * ((map.x + 1).toNat + (map.y + 1).toNat) + 1
decreasing_by
  all_goals simp_wf

end

/-! ## Exploration grid -/

/-- The assignment `AutomapView[x][y] = true`. -/
def reveal (s : AutomapState) (x y : Int) : AutomapState :=
  { s with AutomapView := fun i j => if i = x ∧ j = y then true else s.AutomapView i j }

/-- `void SetAutomapView(Point tile)`: marks the macro-tile under the dungeon
tile explored and propagates to neighbours depending on its shape. The
`switch (mapType & MapTypes)` is rendered as a chain of comparisons against
the (distinct) case labels. -/
def SetAutomapView (lv : Level) (tile : Point) (s : AutomapState) : AutomapState :=
  let map : Point := ⟨Int.tdiv (tile.x - 16) 2, Int.tdiv (tile.y - 16) 2⟩
  if map.x < 0 ∨ map.x ≥ lv.DMAXX ∨ map.y < 0 ∨ map.y ≥ lv.DMAXY then
    s
  else
    let s := reveal s map.x map.y
    let mapType := GetAutomapType lv s.AutomapTypeData map
    let solid : Bool := (mapType &&& AutomapTypeDirt) != 0
    if mapType &&& MapTypes = AutomapTypeVertical then
      if solid then
        if GetAutomapType lv s.AutomapTypeData ⟨map.x, map.y + 1⟩
            = (AutomapTypeDirt ||| AutomapTypeCorner) then
          reveal s map.x (map.y + 1)
        else s
      else if HasAutomapType lv s.AutomapTypeData ⟨map.x - 1, map.y⟩ AutomapTypeDirt then
        reveal s (map.x - 1) map.y
      else s
    else if mapType &&& MapTypes = AutomapTypeHorizontal then
      if solid then
        if GetAutomapType lv s.AutomapTypeData ⟨map.x + 1, map.y⟩
            = (AutomapTypeDirt ||| AutomapTypeCorner) then
          reveal s (map.x + 1) map.y
        else s
      else if HasAutomapType lv s.AutomapTypeData ⟨map.x, map.y - 1⟩ AutomapTypeDirt then
        reveal s map.x (map.y - 1)
      else s
    else if mapType &&& MapTypes = AutomapTypeCross then
      if solid then
        let s :=
          if GetAutomapType lv s.AutomapTypeData ⟨map.x, map.y + 1⟩
              = (AutomapTypeDirt ||| AutomapTypeCorner) then
            reveal s map.x (map.y + 1)
          else s
        let s :=
          if GetAutomapType lv s.AutomapTypeData ⟨map.x + 1, map.y⟩
              = (AutomapTypeDirt ||| AutomapTypeCorner) then
            reveal s (map.x + 1) map.y
          else s
        s
      else
        let s :=
          if HasAutomapType lv s.AutomapTypeData ⟨map.x - 1, map.y⟩ AutomapTypeDirt then
            reveal s (map.x - 1) map.y
          else s
        let s :=
          if HasAutomapType lv s.AutomapTypeData ⟨map.x, map.y - 1⟩ AutomapTypeDirt then
            reveal s map.x (map.y - 1)
          else s
        let s :=
          if HasAutomapType lv s.AutomapTypeData ⟨map.x - 1, map.y - 1⟩ AutomapTypeDirt then
            reveal s (map.x - 1) (map.y - 1)
          else s
        s
    else if mapType &&& MapTypes = AutomapTypeFenceVertical then
      if solid then
        let s :=
          if HasAutomapType lv s.AutomapTypeData ⟨map.x, map.y - 1⟩ AutomapTypeDirt then
            reveal s map.x (map.y - 1)
          else s
        let s :=
          if GetAutomapType lv s.AutomapTypeData ⟨map.x, map.y + 1⟩
              = (AutomapTypeDirt ||| AutomapTypeCorner) then
            reveal s map.x (map.y + 1)
          else s
        s
      else if HasAutomapType lv s.AutomapTypeData ⟨map.x - 1, map.y⟩ AutomapTypeDirt then
        reveal s (map.x - 1) map.y
      else s
    else if mapType &&& MapTypes = AutomapTypeFenceHorizontal then
      if solid then
        let s :=
          if HasAutomapType lv s.AutomapTypeData ⟨map.x - 1, map.y⟩ AutomapTypeDirt then
            reveal s (map.x - 1) map.y
          else s
        let s :=
          if GetAutomapType lv s.AutomapTypeData ⟨map.x + 1, map.y⟩
              = (AutomapTypeDirt ||| AutomapTypeCorner) then
            reveal s (map.x + 1) map.y
          else s
        s
      else if HasAutomapType lv s.AutomapTypeData ⟨map.x, map.y - 1⟩ AutomapTypeDirt then
        reveal s map.x (map.y - 1)
      else s
    else s

/-! ## Zoom and pan control state -/

/-- `void InitAutomapOnce()`. -/
def InitAutomapOnce (s : AutomapState) : AutomapState :=
  { s with
    AutomapActive := false
    AutoMapScale := 50
    AmLine64 := 32
    AmLine32 := 16
    AmLine16 := 8
    AmLine8 := 4
    AmLine4 := 2 }

/-- `void StartAutomap()`. -/
def StartAutomap (s : AutomapState) : AutomapState :=
  { s with AutomapOffset := ⟨0, 0⟩, AutomapActive := true }

/-- `void AutomapUp()`. -/
def AutomapUp (s : AutomapState) : AutomapState :=
  { s with AutomapOffset := ⟨s.AutomapOffset.deltaX - 1, s.AutomapOffset.deltaY - 1⟩ }

/-- `void AutomapDown()`. -/
def AutomapDown (s : AutomapState) : AutomapState :=
  { s with AutomapOffset := ⟨s.AutomapOffset.deltaX + 1, s.AutomapOffset.deltaY + 1⟩ }

/-- `void AutomapLeft()`. -/
def AutomapLeft (s : AutomapState) : AutomapState :=
  { s with AutomapOffset := ⟨s.AutomapOffset.deltaX - 1, s.AutomapOffset.deltaY + 1⟩ }

/-- `void AutomapRight()`. -/
def AutomapRight (s : AutomapState) : AutomapState :=
  { s with AutomapOffset := ⟨s.AutomapOffset.deltaX + 1, s.AutomapOffset.deltaY - 1⟩ }

/-- The five assignments shared by the zoom functions:
`AmLine64 = (AutoMapScale * 64) / 100; AmLine32 = AmLine64 / 2; ...`. -/
def setAmLines (s : AutomapState) : AutomapState :=
  let s := { s with AmLine64 := Int.tdiv (s.AutoMapScale * 64) 100 }
  let s := { s with AmLine32 := Int.tdiv s.AmLine64 2 }
  let s := { s with AmLine16 := Int.tdiv s.AmLine32 2 }
  let s := { s with AmLine8 := Int.tdiv s.AmLine16 2 }
  let s := { s with AmLine4 := Int.tdiv s.AmLine8 2 }
  s

/-- `void AutomapZoomIn()`. -/
def AutomapZoomIn (s : AutomapState) : AutomapState :=
  if s.AutoMapScale ≥ 200 then
    s
  else
    let s := { s with AutoMapScale := s.AutoMapScale + 5 }
    setAmLines s

/-- `void AutomapZoomOut()`. -/
def AutomapZoomOut (s : AutomapState) : AutomapState :=
  if s.AutoMapScale ≤ 50 then
    s
  else
    let s := { s with AutoMapScale := s.AutoMapScale - 5 }
    setAmLines s

/-- `void AutomapZoomReset()`. -/
def AutomapZoomReset (s : AutomapState) : AutomapState :=
  let s := { s with AutomapOffset := ⟨0, 0⟩ }
  setAmLines s

/-! ## Tile glyph renderer -/

/-- The palette indices of palette.h the map colours are derived from. -/
structure Palette where
  PAL8_ORANGE : Nat
  PAL8_YELLOW : Nat
  PAL16_YELLOW : Nat
  PAL8_BLUE : Nat

/-- Colour used to draw the player arrow. -/
def MapColorsPlayer (pal : Palette) : Nat := pal.PAL8_ORANGE + 1
/-- Colour for bright map lines (doors, stairs etc.). -/
def MapColorsBright (pal : Palette) : Nat := pal.PAL8_YELLOW
/-- Colour for dim map lines and dots. -/
def MapColorsDim (pal : Palette) : Nat := pal.PAL16_YELLOW + 8
/-- Colour for items on the automap. -/
def MapColorsItem (pal : Palette) : Nat := pal.PAL8_BLUE + 1

/-- One call on the drawing surface (`engine/render/automap_render.hpp` and
`Surface::SetPixel`): the primitive, its start point, its length and its
palette index. -/
inductive DrawOp where
  | SetPixel (position : Point) (color : Nat)
  | DrawMapLineNE (start : Point) (height : Int) (color : Nat)
  | DrawMapLineSE (start : Point) (height : Int) (color : Nat)
  | DrawMapLineNW (start : Point) (height : Int) (color : Nat)
  | DrawMapLineSW (start : Point) (height : Int) (color : Nat)
  | DrawMapLineSteepNE (start : Point) (width : Int) (color : Nat)
  | DrawMapLineSteepSE (start : Point) (width : Int) (color : Nat)
  | DrawMapLineSteepNW (start : Point) (width : Int) (color : Nat)
  | DrawMapLineSteepSW (start : Point) (width : Int) (color : Nat)
  | DrawHorizontalLine (start : Point) (width : Int) (color : Nat)
  | DrawVerticalLine (start : Point) (height : Int) (color : Nat)
deriving DecidableEq, Repr

/-- `void DrawDiamond(const Surface &out, Point center, uint8_t color)`. -/
def DrawDiamond (s : AutomapState) (center : Point) (color : Nat) : List DrawOp :=
  let left : Point := ⟨center.x - s.AmLine16, center.y⟩
  let top : Point := ⟨center.x, center.y - s.AmLine8⟩
  let bottom : Point := ⟨center.x, center.y + s.AmLine8⟩
  [ DrawOp.DrawMapLineNE left s.AmLine8 color,
    DrawOp.DrawMapLineSE left s.AmLine8 color,
    DrawOp.DrawMapLineSE top s.AmLine8 color,
    DrawOp.DrawMapLineNE bottom s.AmLine8 color ]

/-- `void DrawMapVerticalDoor(const Surface &out, Point center)`. -/
def DrawMapVerticalDoor (pal : Palette) (s : AutomapState) (center : Point) : List DrawOp :=
  [ DrawOp.DrawMapLineNE ⟨center.x + s.AmLine8, center.y - s.AmLine4⟩ s.AmLine4 (MapColorsDim pal),
    DrawOp.DrawMapLineNE ⟨center.x - s.AmLine16, center.y + s.AmLine8⟩ s.AmLine4 (MapColorsDim pal) ]
  ++ DrawDiamond s center (MapColorsBright pal)

/-- `void DrawMapHorizontalDoor(const Surface &out, Point center)`. -/
def DrawMapHorizontalDoor (pal : Palette) (s : AutomapState) (center : Point) : List DrawOp :=
  [ DrawOp.DrawMapLineSE ⟨center.x - s.AmLine16, center.y - s.AmLine8⟩ s.AmLine4 (MapColorsDim pal),
    DrawOp.DrawMapLineSE ⟨center.x + s.AmLine8, center.y + s.AmLine4⟩ s.AmLine4 (MapColorsDim pal) ]
  ++ DrawDiamond s center (MapColorsBright pal)

/-- The loop `for (int i = 0; i < NumStairSteps; ++i)` of `DrawAutomapTile`,
with `n` iterations left and the running point `p`. -/
def drawStairSteps (pal : Palette) (s : AutomapState) : Nat → Point → List DrawOp
  | 0, _ => []
  | n + 1, p =>
    DrawOp.DrawMapLineSE p s.AmLine16 (MapColorsBright pal)
      :: drawStairSteps pal s n ⟨p.x + -s.AmLine8, p.y + s.AmLine4⟩

/-- `void DrawAutomapTile(const Surface &out, Point center, AutomapTypes automapType)`:
the primitives issued for one tile, in program order. The local `automapType`
is reassigned inside the grate branches; `automapType1` and `automapType2` are
its values after the right-facing and the left-facing block. -/
def DrawAutomapTile (pal : Palette) (s : AutomapState) (center : Point)
    (automapType : Nat) : List DrawOp :=
  if automapType = AutomapTypeNone then
    []
  else
    let dirt : List DrawOp :=
      if (automapType &&& AutomapTypeDirt) ≠ 0 then
        [ DrawOp.SetPixel center (MapColorsDim pal),
          DrawOp.SetPixel ⟨center.x - s.AmLine8, center.y - s.AmLine4⟩ (MapColorsDim pal),
          DrawOp.SetPixel ⟨center.x - s.AmLine8, center.y + s.AmLine4⟩ (MapColorsDim pal),
          DrawOp.SetPixel ⟨center.x + s.AmLine8, center.y - s.AmLine4⟩ (MapColorsDim pal),
          DrawOp.SetPixel ⟨center.x + s.AmLine8, center.y + s.AmLine4⟩ (MapColorsDim pal),
          DrawOp.SetPixel ⟨center.x - s.AmLine16, center.y⟩ (MapColorsDim pal),
          DrawOp.SetPixel ⟨center.x + s.AmLine16, center.y⟩ (MapColorsDim pal),
          DrawOp.SetPixel ⟨center.x, center.y - s.AmLine8⟩ (MapColorsDim pal),
          DrawOp.SetPixel ⟨center.x, center.y + s.AmLine8⟩ (MapColorsDim pal),
          DrawOp.SetPixel ⟨center.x + s.AmLine8 - s.AmLine32, center.y + s.AmLine4⟩ (MapColorsDim pal),
          DrawOp.SetPixel ⟨center.x - s.AmLine8 + s.AmLine32, center.y + s.AmLine4⟩ (MapColorsDim pal),
          DrawOp.SetPixel ⟨center.x - s.AmLine16, center.y + s.AmLine8⟩ (MapColorsDim pal),
          DrawOp.SetPixel ⟨center.x + s.AmLine16, center.y + s.AmLine8⟩ (MapColorsDim pal),
          DrawOp.SetPixel ⟨center.x - s.AmLine8, center.y + s.AmLine16 - s.AmLine4⟩ (MapColorsDim pal),
          DrawOp.SetPixel ⟨center.x + s.AmLine8, center.y + s.AmLine16 - s.AmLine4⟩ (MapColorsDim pal),
          DrawOp.SetPixel ⟨center.x, center.y + s.AmLine16⟩ (MapColorsDim pal) ]
      else []
    let stairs : List DrawOp :=
      if (automapType &&& AutomapTypeStairs) ≠ 0 then
        drawStairSteps pal s 4 ⟨center.x - s.AmLine8, center.y - s.AmLine8 - s.AmLine4⟩
      else []
    let shape := automapType &&& MapTypes
    let diamond : List DrawOp :=
      if shape = AutomapTypeDiamond then
        DrawDiamond s ⟨center.x, center.y - s.AmLine8⟩ (MapColorsDim pal)
      else []
    let drawVertical : Bool :=
      shape = AutomapTypeVertical ∨ shape = AutomapTypeFenceVertical
        ∨ shape = AutomapTypeCross ∨ shape = AutomapTypeCaveHorizontalCross
    let drawHorizontal : Bool :=
      shape = AutomapTypeHorizontal ∨ shape = AutomapTypeFenceHorizontal
        ∨ shape = AutomapTypeCross ∨ shape = AutomapTypeCaveVerticalCross
    let drawCaveHorizontal : Bool :=
      shape = AutomapTypeCaveHorizontalCross ∨ shape = AutomapTypeCaveHorizontal
        ∨ shape = AutomapTypeCaveCross
    let drawCaveVertical : Bool :=
      shape = AutomapTypeCaveVerticalCross ∨ shape = AutomapTypeCaveVertical
        ∨ shape = AutomapTypeCaveCross
    -- right-facing obstacle
    let automapType1 : Nat :=
      if drawVertical ∧ (automapType &&& AutomapTypeVerticalGrate) ≠ 0 then
        automapType ||| AutomapTypeVerticalArch
      else automapType
    let vertical : List DrawOp :=
      if drawVertical then
        (if (automapType &&& AutomapTypeVerticalDoor) ≠ 0 then
          DrawMapVerticalDoor pal s ⟨center.x - s.AmLine16, center.y - s.AmLine8⟩
        else [])
        ++ (if (automapType &&& AutomapTypeVerticalGrate) ≠ 0 then
          [DrawOp.DrawMapLineNE ⟨center.x - s.AmLine32, center.y⟩ s.AmLine8 (MapColorsDim pal)]
        else [])
        ++ (if (automapType1 &&& AutomapTypeVerticalArch) ≠ 0 then
          DrawDiamond s ⟨center.x, center.y - s.AmLine8⟩ (MapColorsDim pal)
        else [])
        ++ (if (automapType1 &&& (AutomapTypeVerticalDoor ||| AutomapTypeVerticalGrate
              ||| AutomapTypeVerticalArch)) = 0 then
          [DrawOp.DrawMapLineNE ⟨center.x - s.AmLine32, center.y⟩ s.AmLine16 (MapColorsDim pal)]
        else [])
      else []
    -- left-facing obstacle
    let automapType2 : Nat :=
      if drawHorizontal ∧ (automapType1 &&& AutomapTypeHorizontalGrate) ≠ 0 then
        automapType1 ||| AutomapTypeHorizontalArch
      else automapType1
    let horizontal : List DrawOp :=
      if drawHorizontal then
        (if (automapType1 &&& AutomapTypeHorizontalDoor) ≠ 0 then
          DrawMapHorizontalDoor pal s ⟨center.x + s.AmLine16, center.y - s.AmLine8⟩
        else [])
        ++ (if (automapType1 &&& AutomapTypeHorizontalGrate) ≠ 0 then
          [DrawOp.DrawMapLineSE ⟨center.x + s.AmLine16, center.y - s.AmLine8⟩ s.AmLine8
            (MapColorsDim pal)]
        else [])
        ++ (if (automapType2 &&& AutomapTypeHorizontalArch) ≠ 0 then
          DrawDiamond s ⟨center.x, center.y - s.AmLine8⟩ (MapColorsDim pal)
        else [])
        ++ (if (automapType2 &&& (AutomapTypeHorizontalDoor ||| AutomapTypeHorizontalGrate
              ||| AutomapTypeHorizontalArch)) = 0 then
          [DrawOp.DrawMapLineSE ⟨center.x, center.y - s.AmLine16⟩ s.AmLine16 (MapColorsDim pal)]
        else [])
      else []
    -- for caves the horizontal / vertical flags are swapped
    let caveHorizontal : List DrawOp :=
      if drawCaveHorizontal then
        if (automapType2 &&& AutomapTypeVerticalDoor) ≠ 0 then
          DrawMapHorizontalDoor pal s ⟨center.x - s.AmLine16, center.y + s.AmLine8⟩
        else
          [DrawOp.DrawMapLineSE ⟨center.x - s.AmLine32, center.y⟩ s.AmLine16 (MapColorsDim pal)]
      else []
    let caveVertical : List DrawOp :=
      if drawCaveVertical then
        if (automapType2 &&& AutomapTypeHorizontalDoor) ≠ 0 then
          DrawMapVerticalDoor pal s ⟨center.x + s.AmLine16, center.y + s.AmLine8⟩
        else
          [DrawOp.DrawMapLineNE ⟨center.x, center.y + s.AmLine16⟩ s.AmLine16 (MapColorsDim pal)]
      else []
    dirt ++ stairs ++ diamond ++ vertical ++ horizontal ++ caveHorizontal ++ caveVertical

/-- The local `int playerColor = MapColorsPlayer + (8 * playerId) % 128;` of
`DrawAutomapPlr`. -/
def playerColor (pal : Palette) (playerId : Int) : Int :=
  (MapColorsPlayer pal : Int) + Int.tmod (8 * playerId) 128

/-! ## Gated lookup -/

/-- `AutomapTypes GetAutomapTypeView(Point map)`: the shape drawn at the given
coordinate, gated by the exploration grid. The bounds are those of the source:
the `y == -1` branch compares `x` with `DMAXY`, the last range check compares
`y` with `DMAXX`. -/
def GetAutomapTypeView (lv : Level) (s : AutomapState) (map : Point) : Nat :=
  if map.x = -1 ∧ map.y ≥ 0 ∧ map.y < lv.DMAXY ∧ s.AutomapView 0 map.y = true then
    if HasAutomapType lv s.AutomapTypeData ⟨0, map.y⟩ AutomapTypeDirt then
      AutomapTypeNone
    else
      AutomapTypeDirt
  else if map.y = -1 ∧ map.x ≥ 0 ∧ map.x < lv.DMAXY ∧ s.AutomapView map.x 0 = true then
    if HasAutomapType lv s.AutomapTypeData ⟨map.x, 0⟩ AutomapTypeDirt then
      AutomapTypeNone
    else
      AutomapTypeDirt
  else if map.x < 0 ∨ map.x ≥ lv.DMAXX then
    AutomapTypeNone
  else if map.y < 0 ∨ map.y ≥ lv.DMAXX then
    AutomapTypeNone
  else if ¬ (s.AutomapView map.x map.y = true) then
    AutomapTypeNone
  else
    GetAutomapType lv s.AutomapTypeData map

/-! ## Level load -/

/-- Modelled from the spec: the level kinds (`dungeon_type` of gendung.h, not
part of the module). The four kinds with automap data are the labels of the
`switch` in `LoadAutomapData`; town is the kind without automap data, and
`DTYPE_NONE` stands for any other value. -/
inductive dungeon_type where
  | DTYPE_TOWN
  | DTYPE_CATHEDRAL
  | DTYPE_CATACOMBS
  | DTYPE_CAVES
  | DTYPE_HELL
  | DTYPE_NONE
deriving DecidableEq, Repr

/-- `std::unique_ptr<AutomapTypes[]> LoadAutomapData(size_t &tileCount)`: the
shape codes of the resource for the level, or `none` for the null pointer.
The file system is the parameter `LoadFileInMem`, from path to file content;
`tileCount` is the length of the list. -/
def LoadAutomapData (LoadFileInMem : String → List Nat) (leveltype : dungeon_type)
    (currlevel : Nat) : Option (List Nat) :=
  match leveltype with
  | dungeon_type.DTYPE_CATHEDRAL =>
    if currlevel < 21 then some (LoadFileInMem "Levels\\L1Data\\L1.AMP")
    else some (LoadFileInMem "NLevels\\L5Data\\L5.AMP")
  | dungeon_type.DTYPE_CATACOMBS => some (LoadFileInMem "Levels\\L2Data\\L2.AMP")
  | dungeon_type.DTYPE_CAVES =>
    if currlevel < 17 then some (LoadFileInMem "Levels\\L3Data\\L3.AMP")
    else some (LoadFileInMem "NLevels\\L6Data\\L6.AMP")
  | dungeon_type.DTYPE_HELL => some (LoadFileInMem "Levels\\L4Data\\L4.AMP")
  | _ => none

/-- The loop `for (unsigned i = 0; i < tileCount; i++) AutomapTypeData[i + 1] = tileTypes[i];`
of `InitAutomap`, one assignment per element of `tileTypes`, starting at index
`i`. -/
def copyTileTypes (table : Nat → Nat) : Nat → List Nat → Nat → Nat
  | _, [] => table
  | i, t :: rest =>
    copyTileTypes (fun id => if id = i + 1 then t else table id) (i + 1) rest

/-- `void InitAutomap()`: copies the loaded shape codes into the table from
index 1 on and clears the exploration grid (`memset`). With a null pointer
`tileCount` stays 0 and the loop body never runs. The `BFLAG_EXPLORED` bits of
`dFlags` belong to another module and are not part of the state. -/
def InitAutomap (LoadFileInMem : String → List Nat) (leveltype : dungeon_type)
    (currlevel : Nat) (s : AutomapState) : AutomapState :=
  let tileTypes : List Nat :=
    match LoadAutomapData LoadFileInMem leveltype currlevel with
    | some data => data
    | none => []
  let s := { s with AutomapTypeData := copyTileTypes s.AutomapTypeData 0 tileTypes }
  { s with AutomapView := fun _ _ => false }

/-! ## Camera anchor -/

/-- The loops `while (Automap.x + AutomapOffset.deltaX < 0) AutomapOffset.deltaX++;`
and its `y` twin of `DrawAutomap`: the offset coordinate when the loop exits. -/
def nudgeUp (anchor delta : Int) : Int :=
  if anchor + delta < 0 then nudgeUp anchor (delta + 1) else delta
termination_by (-(anchor + delta)).toNat
decreasing_by
  simp_wf
  omega

/-- The loops `while (Automap.x + AutomapOffset.deltaX >= DMAXX) AutomapOffset.deltaX--;`
and its `y` twin of `DrawAutomap`: the offset coordinate when the loop exits. -/
def nudgeDown (bound anchor delta : Int) : Int :=
  if anchor + delta ≥ bound then nudgeDown bound anchor (delta - 1) else delta
termination_by (anchor + delta - bound + 1).toNat
decreasing_by
  simp_wf
  omega

/-- Lines 585-596 of `DrawAutomap` (reached when the level is not town): the
anchor `Automap` is computed from `ViewX`, `ViewY`, the four loops nudge
`AutomapOffset`, and the offset is added to the anchor. Returns the state with
the new offset and the final `Automap`. -/
def DrawAutomapAnchor (lv : Level) (ViewX ViewY : Int) (s : AutomapState) :
    AutomapState × Point :=
  let Automap : Point := ⟨Int.tdiv (ViewX - 16) 2, Int.tdiv (ViewY - 16) 2⟩
  let deltaX := nudgeUp Automap.x s.AutomapOffset.deltaX
  let deltaX := nudgeDown lv.DMAXX Automap.x deltaX
  let deltaY := nudgeUp Automap.y s.AutomapOffset.deltaY
  let deltaY := nudgeDown lv.DMAXY Automap.y deltaY
  let s := { s with AutomapOffset := ⟨deltaX, deltaY⟩ }
  (s, ⟨Automap.x + s.AutomapOffset.deltaX, Automap.y + s.AutomapOffset.deltaY⟩)

/-! ## Item markers -/

/-- Modelled from the spec: `clamp` of utils/stdcompat/algorithm.hpp is not
part of the module; it is `std::clamp`, which clamps `v` to the bounds: `lo`
when `v < lo`, `hi` when `hi < v`, else `v`. -/
def clamp (v lo hi : Int) : Int :=
  if v < lo then lo else if hi < v then hi else v

/-- The values `i` of a loop `for (int i = first; i < last; i++)`, in order. -/
def forRange (first last : Int) : List Int :=
  (List.range (last - first).toNat).map (fun (k : Nat) => first + (k : Int))

/-- What `SearchAutomapItem` and its screen arithmetic read from outside the
module: the dimensions `MAXDUNX`, `MAXDUNY` and the item grid `dItem`
(gendung.h), the view tile, the screen size and the panel flags. -/
structure ItemView where
  MAXDUNX : Int
  MAXDUNY : Int
  dItem : Int → Int → Int
  ViewX : Int
  ViewY : Int
  gnScreenWidth : Int
  gnScreenHeight : Int
  PANEL_HEIGHT : Int
  CanPanelsCoverView : Bool
  invflag : Bool
  sbookflag : Bool
  chrflag : Bool
  QuestLogIsOpen : Bool

/-- The fields of the local player `SearchAutomapItem` reads: `position.tile`,
`position.future`, whether `_pmode == PM_WALK3` and whether `_pdir == DIR_W`. -/
structure PlayerView where
  tile : Point
  future : Point
  isWalk3 : Bool
  facesWest : Bool

/-- The tile the item scan is centred on: the first lines of
`SearchAutomapItem`. -/
def itemScanCenter (myPlayer : PlayerView) : Point :=
  if myPlayer.isWalk3 then
    if myPlayer.facesWest then ⟨myPlayer.future.x + 1, myPlayer.future.y⟩
    else ⟨myPlayer.future.x, myPlayer.future.y + 1⟩
  else myPlayer.tile

/-- The indices `(i, j)` at which the two nested loops of `SearchAutomapItem`
read `dItem[i][j]`, in program order. -/
def itemScanReads (v : ItemView) (myPlayer : PlayerView) : List (Int × Int) :=
  let tile := itemScanCenter myPlayer
  let startX := clamp (tile.x - 8) 0 v.MAXDUNX
  let startY := clamp (tile.y - 8) 0 v.MAXDUNY
  let endX := clamp (tile.x + 8) 0 v.MAXDUNX
  let endY := clamp (tile.y + 8) 0 v.MAXDUNY
  (forRange startX endX).flatMap (fun i => (forRange startY endY).map (fun j => (i, j)))

/-- The tiles for which the loop body of `SearchAutomapItem` goes past
`if (dItem[i][j] == 0) continue;`, in program order. -/
def itemScanMarked (v : ItemView) (myPlayer : PlayerView) : List (Int × Int) :=
  (itemScanReads v myPlayer).filter (fun t => v.dItem t.1 t.2 ≠ 0)

/-- The body of the loops of `SearchAutomapItem` for a tile `(i, j)` with an
item: the projected screen point and the item diamond drawn there. -/
def drawItemMarker (pal : Palette) (v : ItemView) (myPlayerOffset : Displacement)
    (s : AutomapState) (i j : Int) : List DrawOp :=
  let px := i - 2 * s.AutomapOffset.deltaX - v.ViewX
  let py := j - 2 * s.AutomapOffset.deltaY - v.ViewY
  let screen : Point :=
    ⟨Int.tdiv (Int.tdiv (myPlayerOffset.deltaX * s.AutoMapScale) 100) 2
        + (px - py) * s.AmLine16 + Int.tdiv v.gnScreenWidth 2,
      Int.tdiv (Int.tdiv (myPlayerOffset.deltaY * s.AutoMapScale) 100) 2
        + (px + py) * s.AmLine8 + Int.tdiv (v.gnScreenHeight - v.PANEL_HEIGHT) 2⟩
  let screen : Point :=
    if v.CanPanelsCoverView then
      let screen : Point := if v.invflag ∨ v.sbookflag then ⟨screen.x - 160, screen.y⟩ else screen
      let screen : Point :=
        if v.chrflag ∨ v.QuestLogIsOpen then ⟨screen.x + 160, screen.y⟩ else screen
      screen
    else screen
  let screen : Point := ⟨screen.x, screen.y - s.AmLine8⟩
  DrawDiamond s screen (MapColorsItem pal)

/-- `void SearchAutomapItem(const Surface &out, const Displacement &myPlayerOffset)`:
the primitives issued, one item diamond per tile with an item in the scanned
window. -/
def SearchAutomapItem (pal : Palette) (v : ItemView) (myPlayer : PlayerView)
    (myPlayerOffset : Displacement) (s : AutomapState) : List DrawOp :=
  (itemScanMarked v myPlayer).flatMap
    (fun t => drawItemMarker pal v myPlayerOffset s t.1 t.2)

/-! ## Blocks of the tile renderer

The consecutive blocks of `DrawAutomapTile`, each as a function of the shape
code the block sees on entry. They are used to state what precedes and what
follows a given block in the list of primitives. -/

/-- Whether the primitive is a `SetPixel` call. -/
def DrawOp.isSetPixel : DrawOp → Bool
  | DrawOp.SetPixel _ _ => true
  | _ => false

/-- The `SetPixel` calls of lines 107-122 of `DrawAutomapTile`, in order. -/
def dirtPattern (pal : Palette) (s : AutomapState) (center : Point) : List DrawOp :=
  [ DrawOp.SetPixel center (MapColorsDim pal),
    DrawOp.SetPixel ⟨center.x - s.AmLine8, center.y - s.AmLine4⟩ (MapColorsDim pal),
    DrawOp.SetPixel ⟨center.x - s.AmLine8, center.y + s.AmLine4⟩ (MapColorsDim pal),
    DrawOp.SetPixel ⟨center.x + s.AmLine8, center.y - s.AmLine4⟩ (MapColorsDim pal),
    DrawOp.SetPixel ⟨center.x + s.AmLine8, center.y + s.AmLine4⟩ (MapColorsDim pal),
    DrawOp.SetPixel ⟨center.x - s.AmLine16, center.y⟩ (MapColorsDim pal),
    DrawOp.SetPixel ⟨center.x + s.AmLine16, center.y⟩ (MapColorsDim pal),
    DrawOp.SetPixel ⟨center.x, center.y - s.AmLine8⟩ (MapColorsDim pal),
    DrawOp.SetPixel ⟨center.x, center.y + s.AmLine8⟩ (MapColorsDim pal),
    DrawOp.SetPixel ⟨center.x + s.AmLine8 - s.AmLine32, center.y + s.AmLine4⟩ (MapColorsDim pal),
    DrawOp.SetPixel ⟨center.x - s.AmLine8 + s.AmLine32, center.y + s.AmLine4⟩ (MapColorsDim pal),
    DrawOp.SetPixel ⟨center.x - s.AmLine16, center.y + s.AmLine8⟩ (MapColorsDim pal),
    DrawOp.SetPixel ⟨center.x + s.AmLine16, center.y + s.AmLine8⟩ (MapColorsDim pal),
    DrawOp.SetPixel ⟨center.x - s.AmLine8, center.y + s.AmLine16 - s.AmLine4⟩ (MapColorsDim pal),
    DrawOp.SetPixel ⟨center.x + s.AmLine8, center.y + s.AmLine16 - s.AmLine4⟩ (MapColorsDim pal),
    DrawOp.SetPixel ⟨center.x, center.y + s.AmLine16⟩ (MapColorsDim pal) ]

/-- The stairs block of `DrawAutomapTile` (lines 125-133). -/
def stairsBlock (pal : Palette) (s : AutomapState) (center : Point) (automapType : Nat) :
    List DrawOp :=
  if (automapType &&& AutomapTypeStairs) ≠ 0 then
    drawStairSteps pal s 4 ⟨center.x - s.AmLine8, center.y - s.AmLine8 - s.AmLine4⟩
  else []

/-- The body of `if (drawVertical)` of `DrawAutomapTile` (lines 176-188). -/
def rightFacingBlock (pal : Palette) (s : AutomapState) (center : Point) (automapType : Nat) :
    List DrawOp :=
  let automapType1 : Nat :=
    if (automapType &&& AutomapTypeVerticalGrate) ≠ 0 then
      automapType ||| AutomapTypeVerticalArch
    else automapType
  (if (automapType &&& AutomapTypeVerticalDoor) ≠ 0 then
    DrawMapVerticalDoor pal s ⟨center.x - s.AmLine16, center.y - s.AmLine8⟩
  else [])
  ++ (if (automapType &&& AutomapTypeVerticalGrate) ≠ 0 then
    [DrawOp.DrawMapLineNE ⟨center.x - s.AmLine32, center.y⟩ s.AmLine8 (MapColorsDim pal)]
  else [])
  ++ (if (automapType1 &&& AutomapTypeVerticalArch) ≠ 0 then
    DrawDiamond s ⟨center.x, center.y - s.AmLine8⟩ (MapColorsDim pal)
  else [])
  ++ (if (automapType1 &&& (AutomapTypeVerticalDoor ||| AutomapTypeVerticalGrate
        ||| AutomapTypeVerticalArch)) = 0 then
    [DrawOp.DrawMapLineNE ⟨center.x - s.AmLine32, center.y⟩ s.AmLine16 (MapColorsDim pal)]
  else [])

/-- The body of `if (drawHorizontal)` of `DrawAutomapTile` (lines 192-204). -/
def leftFacingBlock (pal : Palette) (s : AutomapState) (center : Point) (automapType : Nat) :
    List DrawOp :=
  let automapType1 : Nat :=
    if (automapType &&& AutomapTypeHorizontalGrate) ≠ 0 then
      automapType ||| AutomapTypeHorizontalArch
    else automapType
  (if (automapType &&& AutomapTypeHorizontalDoor) ≠ 0 then
    DrawMapHorizontalDoor pal s ⟨center.x + s.AmLine16, center.y - s.AmLine8⟩
  else [])
  ++ (if (automapType &&& AutomapTypeHorizontalGrate) ≠ 0 then
    [DrawOp.DrawMapLineSE ⟨center.x + s.AmLine16, center.y - s.AmLine8⟩ s.AmLine8
      (MapColorsDim pal)]
  else [])
  ++ (if (automapType1 &&& AutomapTypeHorizontalArch) ≠ 0 then
    DrawDiamond s ⟨center.x, center.y - s.AmLine8⟩ (MapColorsDim pal)
  else [])
  ++ (if (automapType1 &&& (AutomapTypeHorizontalDoor ||| AutomapTypeHorizontalGrate
        ||| AutomapTypeHorizontalArch)) = 0 then
    [DrawOp.DrawMapLineSE ⟨center.x, center.y - s.AmLine16⟩ s.AmLine16 (MapColorsDim pal)]
  else [])

/-- The body of `if (drawCaveHorizontal)` of `DrawAutomapTile` (lines 209-213). -/
def caveHorizontalBlock (pal : Palette) (s : AutomapState) (center : Point)
    (automapType : Nat) : List DrawOp :=
  if (automapType &&& AutomapTypeVerticalDoor) ≠ 0 then
    DrawMapHorizontalDoor pal s ⟨center.x - s.AmLine16, center.y + s.AmLine8⟩
  else
    [DrawOp.DrawMapLineSE ⟨center.x - s.AmLine32, center.y⟩ s.AmLine16 (MapColorsDim pal)]

/-- The body of `if (drawCaveVertical)` of `DrawAutomapTile` (lines 217-221). -/
def caveVerticalBlock (pal : Palette) (s : AutomapState) (center : Point)
    (automapType : Nat) : List DrawOp :=
  if (automapType &&& AutomapTypeHorizontalDoor) ≠ 0 then
    DrawMapVerticalDoor pal s ⟨center.x + s.AmLine16, center.y + s.AmLine8⟩
  else
    [DrawOp.DrawMapLineNE ⟨center.x, center.y + s.AmLine16⟩ s.AmLine16 (MapColorsDim pal)]

/-- Everything `DrawAutomapTile` issues after the dirt block: stairs, the
stand-alone diamond and the four obstacle blocks, each behind the shape test of
the `switch`. -/
def afterDirt (pal : Palette) (s : AutomapState) (center : Point) (automapType : Nat) :
    List DrawOp :=
  let shape := automapType &&& MapTypes
  stairsBlock pal s center automapType
  ++ (if shape = AutomapTypeDiamond then
      DrawDiamond s ⟨center.x, center.y - s.AmLine8⟩ (MapColorsDim pal) else [])
  ++ (if shape = AutomapTypeVertical ∨ shape = AutomapTypeFenceVertical
        ∨ shape = AutomapTypeCross ∨ shape = AutomapTypeCaveHorizontalCross then
      rightFacingBlock pal s center automapType else [])
  ++ (if shape = AutomapTypeHorizontal ∨ shape = AutomapTypeFenceHorizontal
        ∨ shape = AutomapTypeCross ∨ shape = AutomapTypeCaveVerticalCross then
      leftFacingBlock pal s center automapType else [])
  ++ (if shape = AutomapTypeCaveHorizontalCross ∨ shape = AutomapTypeCaveHorizontal
        ∨ shape = AutomapTypeCaveCross then
      caveHorizontalBlock pal s center automapType else [])
  ++ (if shape = AutomapTypeCaveVerticalCross ∨ shape = AutomapTypeCaveVertical
        ∨ shape = AutomapTypeCaveCross then
      caveVerticalBlock pal s center automapType else [])

/-! ## Visible window -/

/-- Lines 603-610 of `DrawAutomap`: the number `cells` of tiles per row of the
visible window, from the screen width and the walking offset of the local
player. -/
def DrawAutomapCells (gnScreenWidth : Int) (myPlayerOffset : Displacement)
    (s : AutomapState) : Int :=
  let d := Int.tdiv (s.AutoMapScale * 64) 100
  let cells := 2 * Int.tdiv (Int.tdiv gnScreenWidth 2) d + 1
  let cells := if Int.tmod (Int.tdiv gnScreenWidth 2) d ≠ 0 then cells + 1 else cells
  let cells :=
    if Int.tmod (Int.tdiv gnScreenWidth 2) d ≥ Int.tdiv (s.AutoMapScale * 32) 100 then
      cells + 1
    else cells
  let cells :=
    if myPlayerOffset.deltaX + myPlayerOffset.deltaY ≠ 0 then cells + 1 else cells
  cells

/-! ## Non-recursive description of the lookup -/

/-- The description of `GetAutomapType` in the words of its specification, for
comparison with the code: the raw table entry of the tile, unless that entry
is exactly `Corner`, the raw entry of `(x-1, y)` (if inside the grid) has
`HorizontalArch` and the raw entry of `(x, y-1)` (if inside the grid) has
`VerticalArch`, in which case `Diamond`. -/
def GetAutomapTypeNonRecursive (lv : Level) (AutomapTypeData : Nat → Nat) (map : Point) : Nat :=
  let raw := AutomapTypeData (lv.dungeon map.x map.y)
  if raw = AutomapTypeCorner
      ∧ ((0 ≤ map.x - 1 ∧ map.x - 1 < lv.DMAXX ∧ 0 ≤ map.y ∧ map.y < lv.DMAXY)
        ∧ AutomapTypeData (lv.dungeon (map.x - 1) map.y) &&& AutomapTypeHorizontalArch ≠ 0)
      ∧ ((0 ≤ map.x ∧ map.x < lv.DMAXX ∧ 0 ≤ map.y - 1 ∧ map.y - 1 < lv.DMAXY)
        ∧ AutomapTypeData (lv.dungeon map.x (map.y - 1)) &&& AutomapTypeVerticalArch ≠ 0) then
    AutomapTypeDiamond
  else raw

/-! ## Text rendering (`engine/render/text_render.cpp`) -/

/-- `int AdjustSpacingToFitHorizontally(int &lineWidth, int maxSpacing, int charactersInLine, int availableWidth)`:
the returned spacing and the value left in `lineWidth`. -/
def AdjustSpacingToFitHorizontally (lineWidth maxSpacing charactersInLine availableWidth : Int) :
    Int × Int :=
  if lineWidth ≤ availableWidth ∨ charactersInLine < 2 then
    (maxSpacing, lineWidth)
  else
    let overhang := lineWidth - availableWidth
    let spacingRedux := Int.tdiv (overhang + charactersInLine - 2) (charactersInLine - 1)
    let lineWidth := lineWidth - spacingRedux * (charactersInLine - 1)
    (maxSpacing - spacingRedux, lineWidth)

/-- The number of values of `size_t`, taken as 64 bits wide. -/
def SIZE_MODULUS : Nat := 2 ^ 64

/-- The number of values of `unsigned`, taken as 32 bits wide. -/
def UINT_MODULUS : Nat := 2 ^ 32

/-- How a run of a loop of `WordWrapGameString` ends: with a value, with an
access to `text[index]` outside the string and its terminator, or with the
budget of loop steps used up. -/
inductive WrapResult (α : Type) where
  | done (value : α)
  | outOfBounds (index : Nat)
  | outOfFuel
deriving DecidableEq, Repr

/-- A read of `text[j]`: a byte of the string, the terminating zero at index
`strlen(text)`, and no value at any other index. -/
def readText (text : List Nat) (j : Nat) : Option Nat :=
  if j = text.length then some 0 else text[j]?

/-- The backtracking loop `for (j = i; j >= lineStart; j--)` of
`WordWrapGameString`, entered with the given `j`: the value of `j` when the
loop is left. `j` is a `size_t`, so `j--` is taken modulo `SIZE_MODULUS`. The
first argument bounds the number of tests of the loop condition. -/
def backtrackToSpace (text : List Nat) (lineStart : Nat) : Nat → Nat → WrapResult Nat
  | 0, _ => WrapResult.outOfFuel
  | fuel + 1, j =>
    if j ≥ lineStart then
      match readText text j with
      | none => WrapResult.outOfBounds j
      | some c =>
        if c = 32 then WrapResult.done j
        else backtrackToSpace text lineStart fuel ((j + (SIZE_MODULUS - 1)) % SIZE_MODULUS)
    else WrapResult.done j

/-- The loop `for (unsigned i = 0; i < textLength; i++)` of
`WordWrapGameString`, entered with the given text, `i`, `lineStart` and
`lineWidth`: the text when the loop is left. The first argument bounds the
number of tests of the loop condition. Bytes are numbers below 256 (10 is the
line feed, 32 the space); `i` is an `unsigned`, `lineStart` and `lineWidth`
are `size_t`, and the `int` operands are converted to `size_t` as C++ does. -/
def wordWrapLoop (FontWidth : Nat → Nat) (width : Nat) (spacing : Int) (textLength : Nat) :
    Nat → List Nat → Nat → Nat → Nat → WrapResult (List Nat)
  | 0, _, _, _, _ => WrapResult.outOfFuel
  | fuel + 1, text, i, lineStart, lineWidth =>
    if i < textLength then
      match readText text i with
      | none => WrapResult.outOfBounds i
      | some c =>
        if c = 10 then
          wordWrapLoop FontWidth width spacing textLength fuel text ((i + 1) % UINT_MODULUS)
            ((i + 1) % UINT_MODULUS) 0
        else
          let frame := c % 256
          let lineWidth := (((lineWidth : Int) + ((FontWidth frame : Int) + spacing))
            % (SIZE_MODULUS : Int)).toNat
          if (((lineWidth : Int) - spacing) % (SIZE_MODULUS : Int)).toNat ≤ width then
            wordWrapLoop FontWidth width spacing textLength fuel text ((i + 1) % UINT_MODULUS)
              lineStart lineWidth
          else
            match backtrackToSpace text lineStart fuel i with
            | WrapResult.outOfFuel => WrapResult.outOfFuel
            | WrapResult.outOfBounds k => WrapResult.outOfBounds k
            | WrapResult.done j =>
              if j = lineStart ∧ i = textLength then WrapResult.done text
              else
                let j := if j = lineStart then i else j
                let i := j % UINT_MODULUS
                if i < text.length then
                  wordWrapLoop FontWidth width spacing textLength fuel (text.set i 10)
                    ((i + 1) % UINT_MODULUS) ((i + 1) % UINT_MODULUS) 0
                else WrapResult.outOfBounds i
    else WrapResult.done text

/-- `void WordWrapGameString(char *text, size_t width, GameFontTables size, int spacing)`:
the text after the call. The global table `FontWidth` is a parameter; the
parameter `size` is not read by the function. -/
def WordWrapGameString (FontWidth : Nat → Nat) (fuel : Nat) (text : List Nat) (width : Nat)
    (spacing : Int) : WrapResult (List Nat) :=
  wordWrapLoop FontWidth width spacing text.length fuel text 0 0 0

/-! ## Quest log (`questbook.cpp`) -/

/-- Modelled from the spec: the quest states (`quest_state` of quests.h, not
part of the module). The three states named are the ones that
`selectQuestsToDislay` tests; `QUEST_NOTAVAIL` stands for any other value. -/
inductive quest_state where
  | QUEST_NOTAVAIL
  | QUEST_ACTIVE
  | QUEST_DONE
  | QUEST_HIVE_DONE
deriving DecidableEq, Repr

/-- The fields of a quest record (`QuestStruct` of quests.h) that the quest
log reads. -/
structure Quest where
  _qactive : quest_state
  _qlog : Bool
  _qidx : Int
deriving DecidableEq, Repr

/-- A width and a height (`Size` of engine/size.hpp). -/
structure Size where
  width : Int
  height : Int
deriving DecidableEq, Repr

/-- A position and a size (`Rectangle` of engine/rectangle.hpp). -/
structure Rectangle where
  position : Point
  size : Size
deriving DecidableEq, Repr

/-- The data members of `QuestBook::QuestBookPimpl`, and the global
`QuestLogIsOpen` that `setOpen` writes. The array `qlist` is the list of the
entries written by the last `selectQuestsToDislay`: its first `qlistCnt`
entries. -/
structure QuestBookPimpl where
  QuestLogIsOpen : Bool
  opened : Bool
  topY : Int
  lineSpacing : Int
  act2finSpacing : Int
  closeY : Int
  qlist : List Int
  qlistCnt : Int
  firstFinishedEntry : Int
  selectedEntry : Int

def QuestBookPimpl.panelInnerRect : Rectangle := ⟨⟨32, 40⟩, ⟨280, 290⟩⟩

def QuestBookPimpl.lineHeight : Int := 12

def QuestBookPimpl.maxSpacing : Int := QuestBookPimpl.lineHeight * 2

def QuestBookPimpl.defaultTop : Int := 12

def QuestBookPimpl.defaultCloseY : Int :=
  QuestBookPimpl.panelInnerRect.size.height - QuestBookPimpl.lineHeight - 7

/-- The comparison `sortQuestIdx` of `selectQuestsToDislay`; the column
`questBookOrder` of the table `QuestData` (quests.h) is a parameter. -/
def QuestBookPimpl.sortQuestIdx (questBookOrder : Int → Int) (a b : Int) : Bool :=
  questBookOrder a < questBookOrder b

/-- Modelled from the spec: `std::sort` of the standard library, which
returns the entries ordered by the comparison and leaves the order of entries
of equal key unspecified. The model is insertion sort. -/
def QuestBookPimpl.sort (less : Int → Int → Bool) (l : List Int) : List Int :=
  l.insertionSort (fun a b => less b a = false)

/-- `void QuestBookPimpl::selectQuestsToDislay()`. The array `Quests`
(quests.h) is a parameter. -/
def QuestBookPimpl.selectQuestsToDislay (questBookOrder : Int → Int) (Quests : List Quest)
    (q : QuestBookPimpl) : QuestBookPimpl :=
  let active := (Quests.filter
    (fun quest => quest._qactive = quest_state.QUEST_ACTIVE ∧ quest._qlog = true)).map
      Quest._qidx
  let finished := (Quests.filter
    (fun quest => quest._qactive = quest_state.QUEST_DONE
      ∨ quest._qactive = quest_state.QUEST_HIVE_DONE)).map Quest._qidx
  { q with
    qlist := QuestBookPimpl.sort (QuestBookPimpl.sortQuestIdx questBookOrder) active
      ++ QuestBookPimpl.sort (QuestBookPimpl.sortQuestIdx questBookOrder) finished
    qlistCnt := (active.length : Int) + (finished.length : Int)
    firstFinishedEntry := (active.length : Int) }

/-- `void QuestBookPimpl::calculateLayout()`. -/
def QuestBookPimpl.calculateLayout (q : QuestBookPimpl) : QuestBookPimpl :=
  let closeY := QuestBookPimpl.defaultCloseY
  let topY := QuestBookPimpl.defaultTop
  let act2finSpacing := Int.tdiv QuestBookPimpl.lineHeight 2
  let overallMinHeight := q.qlistCnt * QuestBookPimpl.lineHeight + act2finSpacing
  let space := closeY - topY - QuestBookPimpl.lineHeight
  if q.qlistCnt > 0 then
    if q.qlistCnt < 21 then
      let additionalSpace := space - overallMinHeight
      let addLineSpacing := Int.tdiv additionalSpace q.qlistCnt
      let addSepSpacint := additionalSpace - addLineSpacing * q.qlistCnt
      let lineSpacing := min QuestBookPimpl.maxSpacing (QuestBookPimpl.lineHeight + addLineSpacing)
      let act2finSpacing := act2finSpacing + addSepSpacint
      let overallHeight := q.qlistCnt * lineSpacing + act2finSpacing
      let topY := topY + Int.tdiv (space - overallHeight) 3
      { q with closeY := closeY, topY := topY, act2finSpacing := act2finSpacing,
               lineSpacing := lineSpacing }
    else
      let lineSpacing := QuestBookPimpl.lineHeight - 1
      let act2finSpacing := 4
      if q.qlistCnt = 23 then
        { q with closeY := closeY, topY := Int.tdiv topY 2, act2finSpacing := act2finSpacing,
                 lineSpacing := lineSpacing }
      else if q.qlistCnt = 24 then
        { q with closeY := closeY, topY := Int.tdiv topY 4,
                 act2finSpacing := Int.tdiv act2finSpacing 2, lineSpacing := lineSpacing }
      else
        { q with closeY := closeY, topY := topY, act2finSpacing := act2finSpacing,
                 lineSpacing := lineSpacing }
  else
    { q with closeY := closeY, topY := topY, act2finSpacing := act2finSpacing }

/-- `void QuestBookPimpl::setOpen(bool v)`. -/
def QuestBookPimpl.setOpen (v : Bool) (q : QuestBookPimpl) : QuestBookPimpl :=
  { q with QuestLogIsOpen := v, opened := v }

/-- `void QuestBookPimpl::open()`. -/
def QuestBookPimpl.open_ (questBookOrder : Int → Int) (Quests : List Quest)
    (q : QuestBookPimpl) : QuestBookPimpl :=
  let q := QuestBookPimpl.selectQuestsToDislay questBookOrder Quests q
  let q := QuestBookPimpl.calculateLayout q
  let q := { q with selectedEntry := if q.firstFinishedEntry = 0 then q.qlistCnt else 0 }
  QuestBookPimpl.setOpen true q

/-- `void QuestBookPimpl::close()`. -/
def QuestBookPimpl.close (q : QuestBookPimpl) : QuestBookPimpl :=
  QuestBookPimpl.setOpen false q

/-- `void QuestBookPimpl::selectionUp()`; the sound effect is not modelled. -/
def QuestBookPimpl.selectionUp (q : QuestBookPimpl) : QuestBookPimpl :=
  if q.qlistCnt ≠ 0 then
    if q.selectedEntry = 0 ∨ q.firstFinishedEntry = 0 then
      { q with selectedEntry := q.qlistCnt }
    else if q.selectedEntry ≥ q.firstFinishedEntry then
      { q with selectedEntry := q.firstFinishedEntry - 1 }
    else
      { q with selectedEntry := q.selectedEntry - 1 }
  else q

/-- `void QuestBookPimpl::selectionDown()`; the sound effect is not modelled. -/
def QuestBookPimpl.selectionDown (q : QuestBookPimpl) : QuestBookPimpl :=
  if q.qlistCnt ≠ 0 then
    let q :=
      if q.selectedEntry = q.qlistCnt then { q with selectedEntry := 0 }
      else { q with selectedEntry := q.selectedEntry + 1 }
    if q.selectedEntry ≥ q.firstFinishedEntry then { q with selectedEntry := q.qlistCnt }
    else q
  else q

/-- `void QuestBookPimpl::playEntry()`: the index at which `qlist` is read for
the call of `InitQTextMsg`, or `none` when the call is not made, and the state
after `close()`. The sound effect is not modelled. -/
def QuestBookPimpl.playEntry (q : QuestBookPimpl) : Option Int × QuestBookPimpl :=
  (if q.qlistCnt ≠ 0 ∧ q.selectedEntry < q.firstFinishedEntry then some q.selectedEntry
    else none,
   QuestBookPimpl.close q)

/-- The two selection keys of the quest log. -/
inductive QuestLogKey where
  | Up
  | Down
deriving DecidableEq, Repr

/-- The member function a selection key calls. -/
def QuestLogKey.step : QuestLogKey → QuestBookPimpl → QuestBookPimpl
  | QuestLogKey.Up => QuestBookPimpl.selectionUp
  | QuestLogKey.Down => QuestBookPimpl.selectionDown

/-- The state after `open()` followed by the given selection keys, first key
first. -/
def runQuestLog (questBookOrder : Int → Int) (Quests : List Quest) (q : QuestBookPimpl)
    (keys : List QuestLogKey) : QuestBookPimpl :=
  keys.foldl (fun st k => k.step st) (QuestBookPimpl.open_ questBookOrder Quests q)

/-! ## Control sequences -/

/-- The control operations of the input layer that act on the zoom / pan
state. -/
inductive Control where
  | ZoomIn
  | ZoomOut
  | ZoomReset
  | Start
  | Up
  | Down
  | Left
  | Right
deriving DecidableEq, Repr

/-- The function of automap.cpp a control operation calls. -/
def Control.step : Control → AutomapState → AutomapState
  | Control.ZoomIn => AutomapZoomIn
  | Control.ZoomOut => AutomapZoomOut
  | Control.ZoomReset => AutomapZoomReset
  | Control.Start => StartAutomap
  | Control.Up => AutomapUp
  | Control.Down => AutomapDown
  | Control.Left => AutomapLeft
  | Control.Right => AutomapRight

/-- The state after `InitAutomapOnce` followed by the given control
operations, first operation first. -/
def runControls (s : AutomapState) (ops : List Control) : AutomapState :=
  ops.foldl (fun st op => op.step st) (InitAutomapOnce s)

/-! ## Proof devices and sample data -/

/-- Proof device: the state `s` with every cell of the mask `M` revealed. -/
def addMask (s : AutomapState) (M : Int → Int → Bool) : AutomapState :=
  { s with AutomapView := fun i j => M i j || s.AutomapView i j }

/-- Proof device: the invariant of the zoom state. The scale is a multiple of
5 in `[50, 200]` and each line length is the floor of `scale * k / 100`
(`/` on `Int` rounds down for a positive divisor). -/
def ZoomInvariant (s : AutomapState) : Prop :=
  (50 ≤ s.AutoMapScale ∧ s.AutoMapScale ≤ 200 ∧ s.AutoMapScale % 5 = 0)
  ∧ s.AmLine64 = s.AutoMapScale * 64 / 100
  ∧ s.AmLine32 = s.AutoMapScale * 32 / 100
  ∧ s.AmLine16 = s.AutoMapScale * 16 / 100
  ∧ s.AmLine8 = s.AutoMapScale * 8 / 100
  ∧ s.AmLine4 = s.AutoMapScale * 4 / 100

/-- A 40 × 40 level (the dimensions of gendung.h) with a cross wall at macro
tile (1,1), corners at (1,2) and (2,1), and an arch / column / arch group at
(4,5), (5,5), (5,4). -/
def sampleLevel : Level where
  DMAXX := 40
  DMAXY := 40
  dungeon := fun x y =>
    if x = 1 ∧ y = 1 then 1
    else if (x = 1 ∧ y = 2) ∨ (x = 2 ∧ y = 1) then 2
    else if x = 5 ∧ y = 5 then 3
    else if x = 4 ∧ y = 5 then 4
    else if x = 5 ∧ y = 4 then 5
    else 0

/-- A classification table for `sampleLevel`: tile 1 is a solid cross, tile 2
a solid corner, tile 3 a plain corner, tile 4 a horizontal wall with an arch,
tile 5 a vertical wall with an arch. -/
def sampleTable : Nat → Nat := fun id =>
  if id = 1 then AutomapTypeDirt ||| AutomapTypeCross
  else if id = 2 then AutomapTypeDirt ||| AutomapTypeCorner
  else if id = 3 then AutomapTypeCorner
  else if id = 4 then AutomapTypeHorizontalArch ||| AutomapTypeHorizontal
  else if id = 5 then AutomapTypeVerticalArch ||| AutomapTypeVertical
  else AutomapTypeNone

/-- A state with `sampleTable` loaded, nothing explored, and zoom at its
start value. -/
def sampleState : AutomapState where
  AutomapTypeData := sampleTable
  AutomapActive := false
  AutomapView := fun _ _ => false
  AutoMapScale := 50
  AutomapOffset := ⟨0, 0⟩
  AmLine64 := 32
  AmLine32 := 16
  AmLine16 := 8
  AmLine8 := 4
  AmLine4 := 2

/-- The sample state zoomed all the way in. -/
def sampleStateZoomed : AutomapState :=
  { sampleState with
    AutoMapScale := 200
    AmLine64 := 128
    AmLine32 := 64
    AmLine16 := 32
    AmLine8 := 16
    AmLine4 := 8 }

/-- A palette with the values of palette.h. -/
def samplePalette : Palette where
  PAL8_ORANGE := 152
  PAL8_YELLOW := 144
  PAL16_YELLOW := 192
  PAL8_BLUE := 128

/-- A 112 × 112 item grid (the dimensions of gendung.h) with a single item at
tile (28,20), seen on a 640 × 480 screen with no panel open. -/
def sampleItemView : ItemView where
  MAXDUNX := 112
  MAXDUNY := 112
  dItem := fun i j => if i = 28 ∧ j = 20 then 1 else 0
  ViewX := 20
  ViewY := 20
  gnScreenWidth := 640
  gnScreenHeight := 480
  PANEL_HEIGHT := 128
  CanPanelsCoverView := true
  invflag := false
  sbookflag := false
  chrflag := false
  QuestLogIsOpen := false

/-- A player standing at tile (20,20). -/
def samplePlayer : PlayerView where
  tile := ⟨20, 20⟩
  future := ⟨20, 20⟩
  isWalk3 := false
  facesWest := false

/-- A player standing one tile further east, at tile (21,20). -/
def samplePlayerEast : PlayerView where
  tile := ⟨21, 20⟩
  future := ⟨21, 20⟩
  isWalk3 := false
  facesWest := false

/-- Proof device: `s` has the table of `s0`, and every explored cell of `s` is
explored in `s0` or lies inside the grid. -/
def RevealedInGrid (lv : Level) (s0 s : AutomapState) : Prop :=
  s.AutomapTypeData = s0.AutomapTypeData
  ∧ ∀ i j : Int, s.AutomapView i j = true →
      s0.AutomapView i j = true ∨ ((0 ≤ i ∧ i < lv.DMAXX) ∧ (0 ≤ j ∧ j < lv.DMAXY))

/-- Proof device: the quest list is a block of active logged quests of
`Quests` followed by a block of other entries, the two counters are the length
of the list and of its first block, and the selection is an index of the first
block or the index `qlistCnt` of the closing line. -/
def QuestLogInvariant (Quests : List Quest) (q : QuestBookPimpl) : Prop :=
  (∃ active finished : List Int,
    (∀ a ∈ active, ∃ quest ∈ Quests, quest._qactive = quest_state.QUEST_ACTIVE
      ∧ quest._qlog = true ∧ quest._qidx = a)
    ∧ q.qlist = active ++ finished
    ∧ q.qlistCnt = (active.length : Int) + (finished.length : Int)
    ∧ q.firstFinishedEntry = (active.length : Int))
  ∧ ((0 ≤ q.selectedEntry ∧ q.selectedEntry < q.firstFinishedEntry)
    ∨ q.selectedEntry = q.qlistCnt)

/-- A 40 × 40 level whose tile (5,5) is a solid corner (tile id 2 of
`sampleTable`), with an arch to its west at (4,5) and to its north at (5,4). -/
def sampleLevelSolidCorner : Level where
  DMAXX := 40
  DMAXY := 40
  dungeon := fun x y =>
    if x = 5 ∧ y = 5 then 2
    else if x = 4 ∧ y = 5 then 4
    else if x = 5 ∧ y = 4 then 5
    else 0

/-- A font in which every glyph is 10 pixels wide. -/
def sampleFontWidth : Nat → Nat := fun _ => 10

/-- The bytes of the text "Tristram". -/
def textTristram : List Nat := [84, 114, 105, 115, 116, 114, 97, 109]

/-- The bytes of the text "to Tristram". -/
def textToTristram : List Nat := [116, 111, 32, 84, 114, 105, 115, 116, 114, 97, 109]

/-- The bytes of the text "to be or it". -/
def textToBe : List Nat := [116, 111, 32, 98, 101, 32, 111, 114, 32, 105, 116]

/-- Four quests: quest 3 is active and logged, quest 7 is done, quest 5 is
active and logged, quest 9 is active but not logged. -/
def sampleQuests : List Quest :=
  [ ⟨quest_state.QUEST_ACTIVE, true, 3⟩,
    ⟨quest_state.QUEST_DONE, true, 7⟩,
    ⟨quest_state.QUEST_ACTIVE, true, 5⟩,
    ⟨quest_state.QUEST_ACTIVE, false, 9⟩ ]

/-- A quest book order that lists the quests by descending index. -/
def sampleQuestBookOrder : Int → Int := fun a => 100 - a

/-- The quest book as constructed: closed, with the default member
initialisers, an empty list and selection 0. -/
def sampleQuestBook : QuestBookPimpl where
  QuestLogIsOpen := false
  opened := false
  topY := QuestBookPimpl.defaultTop
  lineSpacing := QuestBookPimpl.lineHeight
  act2finSpacing := QuestBookPimpl.lineHeight
  closeY := QuestBookPimpl.defaultCloseY
  qlist := []
  qlistCnt := 0
  firstFinishedEntry := 0
  selectedEntry := 0

/-! ## Lemmas on the classification lookup -/

/-- A tile with a non-empty shape lies inside the window `GetAutomapType`
accepts. -/
theorem GetAutomapType_ne_none_range (lv : Level) (tbl : Nat → Nat) (map : Point)
    (h : GetAutomapType lv tbl map ≠ AutomapTypeNone) :
    (0 ≤ map.x ∧ map.x < lv.DMAXX) ∧ (0 ≤ map.y ∧ map.y < lv.DMAXX) := by
  rw [GetAutomapType] at h
  by_cases hx : map.x < 0 ∨ map.x ≥ lv.DMAXX
  · simp [hx] at h
  · by_cases hy : map.y < 0 ∨ map.y ≥ lv.DMAXX
    · simp [hy] at h
    · omega

/-- The bound `GetAutomapType` puts on `y` is `DMAXX`, not `DMAXY`: on a level
with `DMAXX = 2` and `DMAXY = 1` the coordinate (0,1), which is outside the
grid, is still looked up in the dungeon and the table. -/
theorem GetAutomapType_y_bound_is_DMAXX :
    GetAutomapType ⟨2, 1, fun _ _ => 1⟩ (fun _ => AutomapTypeVertical) ⟨0, 1⟩
      = AutomapTypeVertical := by
  rw [GetAutomapType]; decide

/-- A tile that has some flag has a non-empty shape. -/
theorem HasAutomapType_ne_none (lv : Level) (tbl : Nat → Nat) (map : Point) (type : Nat)
    (h : HasAutomapType lv tbl map type = true) :
    GetAutomapType lv tbl map ≠ AutomapTypeNone := by
  rw [HasAutomapType] at h
  intro h0
  rw [h0] at h
  simp [AutomapTypeNone] at h

/-! ## Lemmas on the exploration grid -/

theorem addMask_AutomapTypeData (s : AutomapState) (M : Int → Int → Bool) :
    (addMask s M).AutomapTypeData = s.AutomapTypeData := rfl

theorem reveal_eq_addMask (s : AutomapState) (x y : Int) :
    reveal s x y = addMask s (fun i j => decide (i = x ∧ j = y)) := by
  unfold reveal addMask
  congr 1
  funext i j
  by_cases h : i = x ∧ j = y <;> simp [h]

theorem addMask_addMask (s : AutomapState) (M N : Int → Int → Bool) :
    addMask (addMask s M) N = addMask s (fun i j => N i j || M i j) := by
  unfold addMask
  congr 1
  funext i j
  simp [Bool.or_assoc]

theorem ite_addMask (c : Prop) [Decidable c] (s : AutomapState) (M N : Int → Int → Bool) :
    (if c then addMask s M else addMask s N) = addMask s (if c then M else N) := by
  split_ifs <;> rfl

theorem addMask_empty (s : AutomapState) : addMask s (fun _ _ => false) = s := by
  unfold addMask
  simp

theorem addMask_blank_view (s : AutomapState) (M : Int → Int → Bool) :
    (addMask { s with AutomapView := fun _ _ => false } M).AutomapView = M := by
  funext i j
  simp [addMask]

theorem addMask_with_view (s : AutomapState) (M F : Int → Int → Bool) :
    { addMask s M with AutomapView := F } = { s with AutomapView := F } := rfl

/-- `SetAutomapView` only adds cells, and which cells it adds does not depend
on the grid it starts from. -/
theorem SetAutomapView_eq_addMask (lv : Level) (t : Point) (s : AutomapState) :
    SetAutomapView lv t s = addMask s
      (SetAutomapView lv t { s with AutomapView := fun _ _ => false }).AutomapView := by
  unfold SetAutomapView
  by_cases hr : (t.x - 16).tdiv 2 < 0 ∨ (t.x - 16).tdiv 2 ≥ lv.DMAXX
      ∨ (t.y - 16).tdiv 2 < 0 ∨ (t.y - 16).tdiv 2 ≥ lv.DMAXY
  · simp only [hr, if_true, addMask_empty]
  · simp only [hr, if_false, reveal_eq_addMask, addMask_addMask, ite_addMask,
      addMask_AutomapTypeData, addMask_blank_view]

/-! ## Lemmas on the zoom state -/

theorem AutomapZoomIn_scale (s : AutomapState) :
    (AutomapZoomIn s).AutoMapScale
      = if s.AutoMapScale ≥ 200 then s.AutoMapScale else s.AutoMapScale + 5 := by
  unfold AutomapZoomIn setAmLines
  split_ifs <;> rfl

theorem AutomapZoomOut_scale (s : AutomapState) :
    (AutomapZoomOut s).AutoMapScale
      = if s.AutoMapScale ≤ 50 then s.AutoMapScale else s.AutoMapScale - 5 := by
  unfold AutomapZoomOut setAmLines
  split_ifs <;> rfl

theorem AutomapZoomIn_at_max (s : AutomapState) (h : s.AutoMapScale ≥ 200) :
    AutomapZoomIn s = s := by
  unfold AutomapZoomIn
  simp only [h, if_true]

theorem AutomapZoomOut_at_min (s : AutomapState) (h : s.AutoMapScale ≤ 50) :
    AutomapZoomOut s = s := by
  unfold AutomapZoomOut
  simp only [h, if_true]

theorem iterate_AutomapZoomIn_scale (s : AutomapState) (n : Nat) (h : s.AutoMapScale = 50) :
    (AutomapZoomIn^[n] s).AutoMapScale = min (50 + 5 * (n : Int)) 200 := by
  induction n with
  | zero => simp [h]
  | succ k ih =>
    rw [Function.iterate_succ_apply', AutomapZoomIn_scale, ih]
    split_ifs <;> omega

theorem iterate_AutomapZoomOut_scale (s : AutomapState) (n : Nat) (h : s.AutoMapScale = 200) :
    (AutomapZoomOut^[n] s).AutoMapScale = max (200 - 5 * (n : Int)) 50 := by
  induction n with
  | zero => simp [h]
  | succ k ih =>
    rw [Function.iterate_succ_apply', AutomapZoomOut_scale, ih]
    split_ifs <;> omega

theorem tdiv_two_of_nonneg (a : Int) (h : 0 ≤ a) : Int.tdiv a 2 = a / 2 :=
  Int.tdiv_eq_ediv h (by decide)

/-- For a non-negative scale the repeated halving of `setAmLines` agrees with
dividing `scale * k` by 100 directly. -/
theorem setAmLines_floor (s : AutomapState) (h : 0 ≤ s.AutoMapScale) :
    (setAmLines s).AutoMapScale = s.AutoMapScale
    ∧ (setAmLines s).AmLine64 = s.AutoMapScale * 64 / 100
    ∧ (setAmLines s).AmLine32 = s.AutoMapScale * 32 / 100
    ∧ (setAmLines s).AmLine16 = s.AutoMapScale * 16 / 100
    ∧ (setAmLines s).AmLine8 = s.AutoMapScale * 8 / 100
    ∧ (setAmLines s).AmLine4 = s.AutoMapScale * 4 / 100 := by
  have h64 : Int.tdiv (s.AutoMapScale * 64) 100 = s.AutoMapScale * 64 / 100 :=
    Int.tdiv_eq_ediv (by omega) (by decide)
  have e64 : (setAmLines s).AmLine64 = s.AutoMapScale * 64 / 100 := h64
  have e32 : (setAmLines s).AmLine32 = s.AutoMapScale * 32 / 100 := by
    show Int.tdiv (setAmLines s).AmLine64 2 = _
    rw [e64, tdiv_two_of_nonneg _ (by omega)]; omega
  have e16 : (setAmLines s).AmLine16 = s.AutoMapScale * 16 / 100 := by
    show Int.tdiv (setAmLines s).AmLine32 2 = _
    rw [e32, tdiv_two_of_nonneg _ (by omega)]; omega
  have e8 : (setAmLines s).AmLine8 = s.AutoMapScale * 8 / 100 := by
    show Int.tdiv (setAmLines s).AmLine16 2 = _
    rw [e16, tdiv_two_of_nonneg _ (by omega)]; omega
  have e4 : (setAmLines s).AmLine4 = s.AutoMapScale * 4 / 100 := by
    show Int.tdiv (setAmLines s).AmLine8 2 = _
    rw [e8, tdiv_two_of_nonneg _ (by omega)]; omega
  exact ⟨rfl, e64, e32, e16, e8, e4⟩

theorem ZoomInvariant_init (s : AutomapState) : ZoomInvariant (InitAutomapOnce s) := by
  unfold ZoomInvariant InitAutomapOnce
  dsimp only
  decide

theorem ZoomInvariant_setAmLines (s : AutomapState)
    (h : 50 ≤ s.AutoMapScale ∧ s.AutoMapScale ≤ 200 ∧ s.AutoMapScale % 5 = 0) :
    ZoomInvariant (setAmLines s) := by
  obtain ⟨e, e64, e32, e16, e8, e4⟩ := setAmLines_floor s (by omega)
  unfold ZoomInvariant
  rw [e, e64, e32, e16, e8, e4]
  exact ⟨h, rfl, rfl, rfl, rfl, rfl⟩

theorem ZoomInvariant_step (op : Control) (s : AutomapState) (h : ZoomInvariant s) :
    ZoomInvariant (op.step s) := by
  cases op
  · show ZoomInvariant (AutomapZoomIn s)
    unfold AutomapZoomIn
    split_ifs with hc
    · exact h
    · apply ZoomInvariant_setAmLines
      have := h.1
      simp only
      omega
  · show ZoomInvariant (AutomapZoomOut s)
    unfold AutomapZoomOut
    split_ifs with hc
    · exact h
    · apply ZoomInvariant_setAmLines
      have := h.1
      simp only
      omega
  · show ZoomInvariant (AutomapZoomReset s)
    unfold AutomapZoomReset
    apply ZoomInvariant_setAmLines
    exact h.1
  all_goals exact h

theorem ZoomInvariant_foldl (ops : List Control) :
    ∀ s : AutomapState, ZoomInvariant s →
      ZoomInvariant (ops.foldl (fun st op => op.step st) s) := by
  induction ops with
  | nil => intro s h; exact h
  | cons op rest ih => intro s h; exact ih _ (ZoomInvariant_step op s h)

/-! ## Lemmas on the renderer -/

theorem lor_VerticalArch_land (t : Nat) :
    (t ||| AutomapTypeVerticalArch) &&& AutomapTypeVerticalArch ≠ 0 := by
  intro h
  have hb : ((t ||| AutomapTypeVerticalArch) &&& AutomapTypeVerticalArch).testBit 10 = true := by
    rw [Nat.testBit_land, Nat.testBit_lor]
    have : AutomapTypeVerticalArch.testBit 10 = true := by decide
    simp [this]
  rw [h] at hb
  simp at hb

theorem lor_VerticalArch_land_any (t : Nat) :
    (t ||| AutomapTypeVerticalArch) &&& (AutomapTypeVerticalDoor ||| AutomapTypeVerticalGrate
      ||| AutomapTypeVerticalArch) ≠ 0 := by
  intro h
  have hb : ((t ||| AutomapTypeVerticalArch) &&& (AutomapTypeVerticalDoor
      ||| AutomapTypeVerticalGrate ||| AutomapTypeVerticalArch)).testBit 10 = true := by
    rw [Nat.testBit_land, Nat.testBit_lor]
    have h1 : AutomapTypeVerticalArch.testBit 10 = true := by decide
    have h2 : (AutomapTypeVerticalDoor ||| AutomapTypeVerticalGrate
      ||| AutomapTypeVerticalArch).testBit 10 = true := by decide
    simp [h1, h2]
  rw [h] at hb
  simp at hb

theorem mid_append_right {α : Type} (M L X : List α)
    (h : ∃ p q : List α, L = p ++ M ++ q) : ∃ p q : List α, L ++ X = p ++ M ++ q := by
  obtain ⟨p, q, rfl⟩ := h
  exact ⟨p, q ++ X, by simp [List.append_assoc]⟩

theorem mid_append_left {α : Type} (M L X : List α)
    (h : ∃ p q : List α, L = p ++ M ++ q) : ∃ p q : List α, X ++ L = p ++ M ++ q := by
  obtain ⟨p, q, rfl⟩ := h
  exact ⟨X ++ p, q, by simp [List.append_assoc]⟩

theorem mid_base {α : Type} (D R : List α) (c : α) :
    ∃ p q : List α, D ++ [c] ++ R ++ [] = p ++ (c :: R) ++ q :=
  ⟨D, [], by simp [List.append_assoc]⟩

theorem playerColor_nonneg (pal : Palette) (i : Int) (hi : 0 ≤ i) :
    playerColor pal i = (MapColorsPlayer pal : Int) + (8 * i) % 128 := by
  unfold playerColor
  rw [Int.tmod_eq_emod (by omega) (by decide)]

/-! ## Values of the sample level -/

theorem sample_cross : GetAutomapType sampleLevel sampleTable ⟨1, 1⟩ = 16388 := by
  rw [GetAutomapType]; decide

theorem sample_south : GetAutomapType sampleLevel sampleTable ⟨1, 2⟩ = 16391 := by
  rw [GetAutomapType]; decide

theorem sample_east : GetAutomapType sampleLevel sampleTable ⟨2, 1⟩ = 16391 := by
  rw [GetAutomapType]; decide

theorem sample_west_arch :
    HasAutomapType sampleLevel sampleTable ⟨4, 5⟩ AutomapTypeHorizontalArch = true := by
  rw [HasAutomapType, GetAutomapType]; decide

theorem sample_north_arch :
    HasAutomapType sampleLevel sampleTable ⟨5, 4⟩ AutomapTypeVerticalArch = true := by
  rw [HasAutomapType, GetAutomapType]; decide

/-! ## Theorems -/

/-- C1. `SetAutomapView` is idempotent: for every level (dimensions and dungeon
grid), every dungeon tile and every starting state (classification table and
`AutomapView` included), calling it twice on the same tile leaves exactly the
state that calling it once leaves. -/
theorem SetAutomapView_idempotent (lv : Level) (tile : Point) (s : AutomapState) :
    SetAutomapView lv tile (SetAutomapView lv tile s) = SetAutomapView lv tile s := by
  rw [SetAutomapView_eq_addMask lv tile (SetAutomapView lv tile s)]
  rw [SetAutomapView_eq_addMask lv tile s, addMask_with_view, addMask_addMask]
  congr 1
  funext i j
  simp

/-- C2. Cross propagation: when the dungeon tile maps to the in-range macro-tile
`(x, y)` whose `GetAutomapType` has base shape `Cross` with the `Dirt` flag, and
`GetAutomapType` of `(x, y+1)` and of `(x+1, y)` is exactly `Dirt | Corner`,
`SetAutomapView` sets `AutomapView` true at `(x, y)`, `(x, y+1)` and `(x+1, y)`
and changes no other cell (nor any other part of the state). -/
theorem SetAutomapView_cross_solid (lv : Level) (tile : Point) (s : AutomapState) (x y : Int)
    (hmx : Int.tdiv (tile.x - 16) 2 = x) (hmy : Int.tdiv (tile.y - 16) 2 = y)
    (hx : 0 ≤ x ∧ x < lv.DMAXX) (hy : 0 ≤ y ∧ y < lv.DMAXY)
    (hshape : GetAutomapType lv s.AutomapTypeData ⟨x, y⟩ &&& MapTypes = AutomapTypeCross)
    (hdirt : GetAutomapType lv s.AutomapTypeData ⟨x, y⟩ &&& AutomapTypeDirt ≠ 0)
    (hsouth : GetAutomapType lv s.AutomapTypeData ⟨x, y + 1⟩
      = AutomapTypeDirt ||| AutomapTypeCorner)
    (heast : GetAutomapType lv s.AutomapTypeData ⟨x + 1, y⟩
      = AutomapTypeDirt ||| AutomapTypeCorner) :
    SetAutomapView lv tile s =
      { s with AutomapView := fun i j =>
          if (i = x ∧ j = y) ∨ (i = x ∧ j = y + 1) ∨ (i = x + 1 ∧ j = y) then true
          else s.AutomapView i j } := by
  have hr : ¬ (x < 0 ∨ x ≥ lv.DMAXX ∨ y < 0 ∨ y ≥ lv.DMAXY) := by omega
  have hV : ¬ (AutomapTypeCross = AutomapTypeVertical) := by decide
  have hH : ¬ (AutomapTypeCross = AutomapTypeHorizontal) := by decide
  unfold SetAutomapView
  simp only [hmx, hmy, hr, if_false, reveal, hshape, hV, hH, hsouth, heast, if_true,
    bne_iff_ne, ne_eq, hdirt, not_false_eq_true]
  congr 1
  funext i j
  by_cases h1 : i = x + 1 ∧ j = y
  · simp [h1]
  · by_cases h2 : i = x ∧ j = y + 1
    · simp [h2]
    · simp [h1, h2]

/-- Witness for C2: dungeon tile (18,18) of the sample level maps to the solid
cross at macro-tile (1,1), whose south and east neighbours are solid corners. -/
theorem SetAutomapView_cross_solid_witness :
    SetAutomapView sampleLevel ⟨18, 18⟩ sampleState =
      { sampleState with AutomapView := fun i j =>
          if (i = 1 ∧ j = 1) ∨ (i = 1 ∧ j = 1 + 1) ∨ (i = 1 + 1 ∧ j = 1) then true
          else sampleState.AutomapView i j } :=
  SetAutomapView_cross_solid sampleLevel ⟨18, 18⟩ sampleState 1 1 (by decide) (by decide)
    (by decide) (by decide)
    (by show GetAutomapType sampleLevel sampleTable ⟨1, 1⟩ &&& MapTypes = AutomapTypeCross
        rw [sample_cross]; decide)
    (by show GetAutomapType sampleLevel sampleTable ⟨1, 1⟩ &&& AutomapTypeDirt ≠ 0
        rw [sample_cross]; decide)
    (by show GetAutomapType sampleLevel sampleTable ⟨1, 2⟩ = _
        rw [sample_south]; decide)
    (by show GetAutomapType sampleLevel sampleTable ⟨2, 1⟩ = _
        rw [sample_east]; decide)

/-- C3. Corner-merge rule: for an in-range coordinate `(x, y)` whose table
classification is exactly `Corner`, if the west neighbour `(x-1, y)` has the
`HorizontalArch` flag and the north neighbour `(x, y-1)` has the `VerticalArch`
flag, `GetAutomapType` returns `Diamond`. -/
theorem GetAutomapType_corner_merge (lv : Level) (tbl : Nat → Nat) (x y : Int)
    (hx : 0 ≤ x ∧ x < lv.DMAXX) (_hy : 0 ≤ y ∧ y < lv.DMAXY)
    (hcorner : tbl (lv.dungeon x y) = AutomapTypeCorner)
    (hwest : HasAutomapType lv tbl ⟨x - 1, y⟩ AutomapTypeHorizontalArch = true)
    (hnorth : HasAutomapType lv tbl ⟨x, y - 1⟩ AutomapTypeVerticalArch = true) :
    GetAutomapType lv tbl ⟨x, y⟩ = AutomapTypeDiamond := by
  have hw := GetAutomapType_ne_none_range lv tbl ⟨x - 1, y⟩
    (HasAutomapType_ne_none lv tbl _ _ hwest)
  simp only at hw
  have hx' : ¬ (x < 0 ∨ x ≥ lv.DMAXX) := by omega
  have hy' : ¬ (y < 0 ∨ y ≥ lv.DMAXX) := by omega
  rw [GetAutomapType]
  simp only [hx', hy', dite_false, hcorner, hwest, hnorth, if_true]

/-- Witness for C3: the plain corner at (5,5) of the sample level, with an
arched horizontal wall to the west and an arched vertical wall to the north. -/
theorem GetAutomapType_corner_merge_witness :
    GetAutomapType sampleLevel sampleTable ⟨5, 5⟩ = AutomapTypeDiamond :=
  GetAutomapType_corner_merge sampleLevel sampleTable 5 5 (by decide) (by decide) (by decide)
    sample_west_arch sample_north_arch

/-- The value component of the lookup with reads is the plain lookup, at every
coordinate within a given bound on the recursion measure. -/
theorem GetAutomapTypeReads_value_aux (lv : Level) (tbl : Nat → Nat) :
    ∀ n : Nat, ∀ map : Point, 2 * ((map.x + 1).toNat + (map.y + 1).toNat) ≤ n →
      (GetAutomapTypeReads lv tbl map).1 = GetAutomapType lv tbl map := by
  intro n
  induction n using Nat.strong_induction_on with
  | _ n ih =>
    intro map hn
    rw [GetAutomapTypeReads, GetAutomapType]
    by_cases hx : map.x < 0 ∨ map.x ≥ lv.DMAXX
    · simp only [hx, if_true, dite_true]
    · by_cases hy : map.y < 0 ∨ map.y ≥ lv.DMAXX
      · simp only [hx, hy, if_false, if_true, dite_false, dite_true]
      · have hW : (HasAutomapTypeReads lv tbl ⟨map.x - 1, map.y⟩ AutomapTypeHorizontalArch).1
            = HasAutomapType lv tbl ⟨map.x - 1, map.y⟩ AutomapTypeHorizontalArch := by
          rw [HasAutomapTypeReads, HasAutomapType]
          simp only
          rw [ih (2 * (((map.x - 1) + 1).toNat + (map.y + 1).toNat)) (by omega)
            ⟨map.x - 1, map.y⟩ (le_refl _)]
        have hN : (HasAutomapTypeReads lv tbl ⟨map.x, map.y - 1⟩ AutomapTypeVerticalArch).1
            = HasAutomapType lv tbl ⟨map.x, map.y - 1⟩ AutomapTypeVerticalArch := by
          rw [HasAutomapTypeReads, HasAutomapType]
          simp only
          rw [ih (2 * ((map.x + 1).toNat + ((map.y - 1) + 1).toNat)) (by omega)
            ⟨map.x, map.y - 1⟩ (le_refl _)]
        simp only [hx, hy, if_false, dite_false, hW, hN]
        split_ifs <;> rfl

/-- The lookup with reads returns the value of `GetAutomapType`. -/
theorem GetAutomapTypeReads_value (lv : Level) (tbl : Nat → Nat) (map : Point) :
    (GetAutomapTypeReads lv tbl map).1 = GetAutomapType lv tbl map :=
  GetAutomapTypeReads_value_aux lv tbl _ map (le_refl _)

/-- Inside the grid the lookup does read: at the cross wall (1,1) of the sample
level it reads `dungeon[1][1]` and then the table entry of that tile id. -/
theorem GetAutomapTypeReads_sample_cross :
    GetAutomapTypeReads sampleLevel sampleTable ⟨1, 1⟩
      = (AutomapTypeDirt ||| AutomapTypeCross,
          [MemRead.dungeon 1 1, MemRead.AutomapTypeData 1]) := by
  rw [GetAutomapTypeReads]
  decide

/-- C4. Out-of-range queries: for every coordinate with `x` outside `[0, DMAXX)`
or `y` outside `[0, DMAXY)`, `GetAutomapType` returns `AutomapTypeNone` without
reading the dungeon grid or the classification table: the call performs no read
of `dungeon` and none of `AutomapTypeData` (its list of reads is empty), and
the value is `AutomapTypeNone` whatever the two arrays hold. The code compares
`y` against `DMAXX`; the statement rests on `DMAXX ≤ DMAXY` (both are 40 in
gendung.h). -/
theorem GetAutomapType_out_of_range (lv : Level) (tbl : Nat → Nat) (map : Point)
    (hdim : lv.DMAXX ≤ lv.DMAXY)
    (hout : map.x < 0 ∨ map.x ≥ lv.DMAXX ∨ map.y < 0 ∨ map.y ≥ lv.DMAXY) :
    GetAutomapType lv tbl map = AutomapTypeNone
    ∧ GetAutomapTypeReads lv tbl map = (AutomapTypeNone, [])
    ∧ (GetAutomapTypeReads lv tbl map).1 = GetAutomapType lv tbl map := by
  have hreads : GetAutomapTypeReads lv tbl map = (AutomapTypeNone, []) := by
    rw [GetAutomapTypeReads]
    by_cases hx : map.x < 0 ∨ map.x ≥ lv.DMAXX
    · simp only [hx, if_true]
    · have hy : map.y < 0 ∨ map.y ≥ lv.DMAXX := by omega
      simp only [hx, hy, if_false, if_true]
  have hval := GetAutomapTypeReads_value lv tbl map
  refine ⟨?_, hreads, hval⟩
  rw [← hval, hreads]

/-- Witness for C4: the coordinate (3,40) lies just below the 40 × 40 sample
level: the lookup returns `AutomapTypeNone` there and reads nothing, while at
(1,1), inside the grid, it reads both arrays. -/
theorem GetAutomapType_out_of_range_witness :
    GetAutomapType sampleLevel sampleTable ⟨3, 40⟩ = AutomapTypeNone
    ∧ GetAutomapTypeReads sampleLevel sampleTable ⟨3, 40⟩ = (AutomapTypeNone, [])
    ∧ (GetAutomapTypeReads sampleLevel sampleTable ⟨1, 1⟩).2
        = [MemRead.dungeon 1 1, MemRead.AutomapTypeData 1] :=
  ⟨(GetAutomapType_out_of_range sampleLevel sampleTable ⟨3, 40⟩ (by decide) (by decide)).1,
    (GetAutomapType_out_of_range sampleLevel sampleTable ⟨3, 40⟩ (by decide) (by decide)).2.1,
    congrArg Prod.snd GetAutomapTypeReads_sample_cross⟩

/-- C5. Zoom is monotone-clamped: from the `InitAutomapOnce` state (scale 50),
`n` calls of `AutomapZoomIn` give scale `min (50 + 5 n) 200`, the scale is
exactly 200 after 30 calls and every further call leaves the whole state
unchanged; symmetrically, from any state `s` of scale 200, `n` calls of
`AutomapZoomOut` give `max (200 - 5 n) 50`, exactly 50 after 30 calls, and
every further call leaves the whole state unchanged. -/
theorem zoom_monotone_clamped (s0 s : AutomapState) (hs : s.AutoMapScale = 200) :
    (InitAutomapOnce s0).AutoMapScale = 50
    ∧ (∀ n : Nat, (AutomapZoomIn^[n] (InitAutomapOnce s0)).AutoMapScale
        = min (50 + 5 * (n : Int)) 200)
    ∧ (AutomapZoomIn^[30] (InitAutomapOnce s0)).AutoMapScale = 200
    ∧ (∀ k : Nat, AutomapZoomIn (AutomapZoomIn^[30 + k] (InitAutomapOnce s0))
        = AutomapZoomIn^[30 + k] (InitAutomapOnce s0))
    ∧ (∀ n : Nat, (AutomapZoomOut^[n] s).AutoMapScale = max (200 - 5 * (n : Int)) 50)
    ∧ (AutomapZoomOut^[30] s).AutoMapScale = 50
    ∧ (∀ k : Nat, AutomapZoomOut (AutomapZoomOut^[30 + k] s) = AutomapZoomOut^[30 + k] s) := by
  have hi : (InitAutomapOnce s0).AutoMapScale = 50 := rfl
  refine ⟨hi, fun n => iterate_AutomapZoomIn_scale _ n hi, ?_, ?_,
    fun n => iterate_AutomapZoomOut_scale _ n hs, ?_, ?_⟩
  · rw [iterate_AutomapZoomIn_scale _ 30 hi]; decide
  · intro k
    apply AutomapZoomIn_at_max
    rw [iterate_AutomapZoomIn_scale _ _ hi]
    push_cast
    omega
  · rw [iterate_AutomapZoomOut_scale _ 30 hs]; decide
  · intro k
    apply AutomapZoomOut_at_min
    rw [iterate_AutomapZoomOut_scale _ _ hs]
    push_cast
    omega

/-- Witness for C5: zooming in from the sample state, and zooming out from the
fully zoomed sample state. -/
theorem zoom_monotone_clamped_witness :
    sampleStateZoomed.AutoMapScale = 200
    ∧ (AutomapZoomIn^[30] (InitAutomapOnce sampleState)).AutoMapScale = 200
    ∧ (AutomapZoomOut^[30] sampleStateZoomed).AutoMapScale = 50 :=
  ⟨rfl, (zoom_monotone_clamped sampleState sampleStateZoomed rfl).2.2.1,
    (zoom_monotone_clamped sampleState sampleStateZoomed rfl).2.2.2.2.2.1⟩

/-- C6. Zoom reset: for every state, after `AutomapZoomReset` the pan offset is
`(0,0)`, `AutoMapScale` is unchanged, `AmLine64` is `scale * 64 / 100` and each
further line length is half of the previous one (C++ integer division); the
classification table, the exploration grid and the active flag are untouched. -/
theorem AutomapZoomReset_spec (s : AutomapState) :
    (AutomapZoomReset s).AutomapOffset = ⟨0, 0⟩
    ∧ (AutomapZoomReset s).AutoMapScale = s.AutoMapScale
    ∧ (AutomapZoomReset s).AmLine64 = Int.tdiv (s.AutoMapScale * 64) 100
    ∧ (AutomapZoomReset s).AmLine32 = Int.tdiv (AutomapZoomReset s).AmLine64 2
    ∧ (AutomapZoomReset s).AmLine16 = Int.tdiv (AutomapZoomReset s).AmLine32 2
    ∧ (AutomapZoomReset s).AmLine8 = Int.tdiv (AutomapZoomReset s).AmLine16 2
    ∧ (AutomapZoomReset s).AmLine4 = Int.tdiv (AutomapZoomReset s).AmLine8 2
    ∧ (AutomapZoomReset s).AutomapTypeData = s.AutomapTypeData
    ∧ (AutomapZoomReset s).AutomapView = s.AutomapView
    ∧ (AutomapZoomReset s).AutomapActive = s.AutomapActive :=
  ⟨rfl, rfl, rfl, rfl, rfl, rfl, rfl, rfl, rfl, rfl⟩

/-- On the right-facing path a code with `VerticalGrate` issues the half-length
connector followed by the call of `DrawDiamond` for the arch. -/
theorem DrawAutomapTile_grate_block (pal : Palette) (s : AutomapState) (center : Point)
    (automapType : Nat)
    (hshape : automapType &&& MapTypes = AutomapTypeVertical
      ∨ automapType &&& MapTypes = AutomapTypeFenceVertical
      ∨ automapType &&& MapTypes = AutomapTypeCross
      ∨ automapType &&& MapTypes = AutomapTypeCaveHorizontalCross)
    (hgrate : automapType &&& AutomapTypeVerticalGrate ≠ 0)
    (_harch : automapType &&& AutomapTypeVerticalArch = 0) :
    ∃ before after : List DrawOp,
      DrawAutomapTile pal s center automapType =
        before
        ++ (DrawOp.DrawMapLineNE ⟨center.x - s.AmLine32, center.y⟩ s.AmLine8 (MapColorsDim pal)
            :: DrawDiamond s ⟨center.x, center.y - s.AmLine8⟩ (MapColorsDim pal))
        ++ after := by
  have hne : automapType ≠ AutomapTypeNone := by
    intro h0
    rw [h0] at hgrate
    simp [AutomapTypeNone] at hgrate
  have hdraw : (decide (automapType &&& MapTypes = AutomapTypeVertical
      ∨ automapType &&& MapTypes = AutomapTypeFenceVertical
      ∨ automapType &&& MapTypes = AutomapTypeCross
      ∨ automapType &&& MapTypes = AutomapTypeCaveHorizontalCross)) = true := by
    simpa using hshape
  unfold DrawAutomapTile
  simp only [hne, if_false, hdraw, hgrate, ne_eq, not_false_eq_true, and_self, if_true,
    lor_VerticalArch_land, lor_VerticalArch_land_any]
  apply mid_append_right
  apply mid_append_right
  apply mid_append_right
  apply mid_append_left
  exact mid_base _ _ _

/-- C7. Grate implies arch: for every shape code on the right-facing obstacle
path (base shape `Vertical`, `FenceVertical`, `Cross` or `CaveHorizontalCross`)
with `VerticalGrate` set and `VerticalArch` clear, the primitives issued by
`DrawAutomapTile` contain, one after the other, the dim half-length NE connector
from `(cx - AmLine32, cy)` of length `AmLine8` and the four dim lines of the
arch diamond centred at `(cx, cy - AmLine8)`: the NE and the SE line of length
`AmLine8` from its left corner `(cx - AmLine16, cy - AmLine8)`, the SE line
from its top corner `(cx, cy - AmLine8 - AmLine8)` and the NE line from its
bottom corner `(cx, cy - AmLine8 + AmLine8)`. -/
theorem DrawAutomapTile_grate_implies_arch (pal : Palette) (s : AutomapState) (center : Point)
    (automapType : Nat)
    (hshape : automapType &&& MapTypes = AutomapTypeVertical
      ∨ automapType &&& MapTypes = AutomapTypeFenceVertical
      ∨ automapType &&& MapTypes = AutomapTypeCross
      ∨ automapType &&& MapTypes = AutomapTypeCaveHorizontalCross)
    (hgrate : automapType &&& AutomapTypeVerticalGrate ≠ 0)
    (harch : automapType &&& AutomapTypeVerticalArch = 0) :
    ∃ before after : List DrawOp,
      DrawAutomapTile pal s center automapType =
        before
        ++ [ DrawOp.DrawMapLineNE ⟨center.x - s.AmLine32, center.y⟩ s.AmLine8 (MapColorsDim pal),
             DrawOp.DrawMapLineNE ⟨center.x - s.AmLine16, center.y - s.AmLine8⟩ s.AmLine8
               (MapColorsDim pal),
             DrawOp.DrawMapLineSE ⟨center.x - s.AmLine16, center.y - s.AmLine8⟩ s.AmLine8
               (MapColorsDim pal),
             DrawOp.DrawMapLineSE ⟨center.x, center.y - s.AmLine8 - s.AmLine8⟩ s.AmLine8
               (MapColorsDim pal),
             DrawOp.DrawMapLineNE ⟨center.x, center.y - s.AmLine8 + s.AmLine8⟩ s.AmLine8
               (MapColorsDim pal) ]
        ++ after :=
  DrawAutomapTile_grate_block pal s center automapType hshape hgrate harch

/-- Witness for C7: a vertical wall with a grate and no arch flag, drawn at
(100,100) with the start zoom and the palette of palette.h: the connector from
(84,100) and the four lines of the diamond around (100,96), all of length 4 in
colour 200. -/
theorem DrawAutomapTile_grate_implies_arch_witness :
    ∃ before after : List DrawOp,
      DrawAutomapTile samplePalette sampleState ⟨100, 100⟩
          (AutomapTypeVerticalGrate ||| AutomapTypeVertical) =
        before
        ++ [ DrawOp.DrawMapLineNE ⟨84, 100⟩ 4 200,
             DrawOp.DrawMapLineNE ⟨92, 96⟩ 4 200,
             DrawOp.DrawMapLineSE ⟨92, 96⟩ 4 200,
             DrawOp.DrawMapLineSE ⟨100, 92⟩ 4 200,
             DrawOp.DrawMapLineNE ⟨100, 100⟩ 4 200 ]
        ++ after :=
  DrawAutomapTile_grate_implies_arch samplePalette sampleState ⟨100, 100⟩
    (AutomapTypeVerticalGrate ||| AutomapTypeVertical) (by decide) (by decide) (by decide)

/-- C8. Player arrow colour cycles with period 16: for player indices
`i, j ≥ 0`, `playerColor (i + 16) = playerColor i`, in particular
`playerColor 0 = playerColor 16`, and the colours of two indices below 16 are
equal only if the indices are. -/
theorem playerColor_period (pal : Palette) (i j : Int) (hi : 0 ≤ i) (hj : 0 ≤ j) :
    playerColor pal (i + 16) = playerColor pal i
    ∧ playerColor pal 0 = playerColor pal 16
    ∧ (i < 16 → j < 16 → playerColor pal i = playerColor pal j → i = j) := by
  rw [playerColor_nonneg pal (i + 16) (by omega), playerColor_nonneg pal i hi,
    playerColor_nonneg pal j hj, playerColor_nonneg pal 0 (by decide),
    playerColor_nonneg pal 16 (by decide)]
  refine ⟨by omega, by omega, ?_⟩
  intro h1 h2 h
  omega

/-- Witness for C8: players 3 and 5 with the palette of palette.h. -/
theorem playerColor_period_witness :
    playerColor samplePalette (3 + 16) = playerColor samplePalette 3
    ∧ playerColor samplePalette 0 = playerColor samplePalette 16
    ∧ ((3 : Int) < 16 → (5 : Int) < 16 →
        playerColor samplePalette 3 = playerColor samplePalette 5 → (3 : Int) = 5) :=
  playerColor_period samplePalette 3 5 (by decide) (by decide)

/-- C9. Scale range invariant: in every state reached from `InitAutomapOnce` by
any sequence of zoom in, zoom out, zoom reset, `StartAutomap` and the four pan
operations, `50 ≤ AutoMapScale ≤ 200` and `AutoMapScale` is a multiple of 5. -/
theorem AutoMapScale_range (s : AutomapState) (ops : List Control) :
    50 ≤ (runControls s ops).AutoMapScale ∧ (runControls s ops).AutoMapScale ≤ 200
      ∧ (runControls s ops).AutoMapScale % 5 = 0 :=
  (ZoomInvariant_foldl ops _ (ZoomInvariant_init s)).1

/-- C10. Derived line constants follow the scale: in every state reached from
`InitAutomapOnce` by zoom, reset, start and pan operations, `AmLine_k` is the
floor of `AutoMapScale * k / 100` for `k = 64, 32, 16, 8, 4`, although the code
derives all but `AmLine64` by repeated halving. -/
theorem AmLine_follow_scale (s : AutomapState) (ops : List Control) :
    (runControls s ops).AmLine64 = (runControls s ops).AutoMapScale * 64 / 100
    ∧ (runControls s ops).AmLine32 = (runControls s ops).AutoMapScale * 32 / 100
    ∧ (runControls s ops).AmLine16 = (runControls s ops).AutoMapScale * 16 / 100
    ∧ (runControls s ops).AmLine8 = (runControls s ops).AutoMapScale * 8 / 100
    ∧ (runControls s ops).AmLine4 = (runControls s ops).AutoMapScale * 4 / 100 :=
  (ZoomInvariant_foldl ops _ (ZoomInvariant_init s)).2

/-! ## Pan, camera anchor and propagation rules -/

/-- C11. Pan operations change only the pan offset, by fixed diagonal deltas:
`AutomapUp` adds (-1,-1), `AutomapDown` (+1,+1), `AutomapLeft` (-1,+1) and
`AutomapRight` (+1,-1) to `AutomapOffset` and leave every other global
(scale, line lengths, exploration grid, table, active flag) unchanged; up and
down are mutual inverses, left and right are mutual inverses, and the four
operations commute pairwise. -/
theorem pan_operations (s : AutomapState) :
    (AutomapUp s = { s with AutomapOffset :=
        ⟨s.AutomapOffset.deltaX + -1, s.AutomapOffset.deltaY + -1⟩ }
      ∧ AutomapDown s = { s with AutomapOffset :=
        ⟨s.AutomapOffset.deltaX + 1, s.AutomapOffset.deltaY + 1⟩ }
      ∧ AutomapLeft s = { s with AutomapOffset :=
        ⟨s.AutomapOffset.deltaX + -1, s.AutomapOffset.deltaY + 1⟩ }
      ∧ AutomapRight s = { s with AutomapOffset :=
        ⟨s.AutomapOffset.deltaX + 1, s.AutomapOffset.deltaY + -1⟩ })
    ∧ (AutomapUp (AutomapDown s) = s ∧ AutomapDown (AutomapUp s) = s
      ∧ AutomapLeft (AutomapRight s) = s ∧ AutomapRight (AutomapLeft s) = s)
    ∧ (AutomapUp (AutomapLeft s) = AutomapLeft (AutomapUp s)
      ∧ AutomapUp (AutomapRight s) = AutomapRight (AutomapUp s)
      ∧ AutomapDown (AutomapLeft s) = AutomapLeft (AutomapDown s)
      ∧ AutomapDown (AutomapRight s) = AutomapRight (AutomapDown s)
      ∧ AutomapUp (AutomapDown s) = AutomapDown (AutomapUp s)
      ∧ AutomapLeft (AutomapRight s) = AutomapRight (AutomapLeft s)) := by
  obtain ⟨tbl, act, view, sc, ⟨dx, dy⟩, a64, a32, a16, a8, a4⟩ := s
  simp only [AutomapUp, AutomapDown, AutomapLeft, AutomapRight, AutomapState.mk.injEq,
    Displacement.mk.injEq, true_and, and_true]
  omega

/-- The incrementing loop exits with the offset raised just enough to make the
anchor non-negative. -/
theorem nudgeUp_eq (anchor delta : Int) : nudgeUp anchor delta = max delta (-anchor) := by
  rw [nudgeUp]
  split_ifs with h
  · rw [nudgeUp_eq anchor (delta + 1)]
    omega
  · omega
termination_by (-(anchor + delta)).toNat
decreasing_by
  simp_wf
  omega

/-- The decrementing loop exits with the offset lowered just enough to bring
the anchor below the bound. -/
theorem nudgeDown_eq (bound anchor delta : Int) :
    nudgeDown bound anchor delta = min delta (bound - 1 - anchor) := by
  rw [nudgeDown]
  split_ifs with h
  · rw [nudgeDown_eq bound anchor (delta - 1)]
    omega
  · omega
termination_by (anchor + delta - bound + 1).toNat
decreasing_by
  simp_wf
  omega

/-- C12. Camera clamp: for every `ViewX`, `ViewY` and starting pan offset, on a
grid of positive dimensions, the four nudge loops of `DrawAutomap` terminate
(`nudgeUp` and `nudgeDown` are total) and the resulting anchor
`(View - 16) / 2 + offset` satisfies `0 ≤ a.x < DMAXX` and `0 ≤ a.y < DMAXY`;
each coordinate is the requested anchor clamped to `[0, DMAX - 1]`, and an
offset coordinate whose anchor was already in range is left unchanged. -/
theorem DrawAutomapAnchor_clamp (lv : Level) (ViewX ViewY : Int) (s : AutomapState)
    (hX : 0 < lv.DMAXX) (hY : 0 < lv.DMAXY) :
    (0 ≤ (DrawAutomapAnchor lv ViewX ViewY s).2.x
        ∧ (DrawAutomapAnchor lv ViewX ViewY s).2.x < lv.DMAXX
        ∧ 0 ≤ (DrawAutomapAnchor lv ViewX ViewY s).2.y
        ∧ (DrawAutomapAnchor lv ViewX ViewY s).2.y < lv.DMAXY)
    ∧ (DrawAutomapAnchor lv ViewX ViewY s).2.x
        = min (max (Int.tdiv (ViewX - 16) 2 + s.AutomapOffset.deltaX) 0) (lv.DMAXX - 1)
    ∧ (DrawAutomapAnchor lv ViewX ViewY s).2.y
        = min (max (Int.tdiv (ViewY - 16) 2 + s.AutomapOffset.deltaY) 0) (lv.DMAXY - 1)
    ∧ (DrawAutomapAnchor lv ViewX ViewY s).2
        = ⟨Int.tdiv (ViewX - 16) 2 + (DrawAutomapAnchor lv ViewX ViewY s).1.AutomapOffset.deltaX,
           Int.tdiv (ViewY - 16) 2 + (DrawAutomapAnchor lv ViewX ViewY s).1.AutomapOffset.deltaY⟩
    ∧ ((0 ≤ Int.tdiv (ViewX - 16) 2 + s.AutomapOffset.deltaX
          ∧ Int.tdiv (ViewX - 16) 2 + s.AutomapOffset.deltaX < lv.DMAXX) →
        (DrawAutomapAnchor lv ViewX ViewY s).1.AutomapOffset.deltaX = s.AutomapOffset.deltaX)
    ∧ ((0 ≤ Int.tdiv (ViewY - 16) 2 + s.AutomapOffset.deltaY
          ∧ Int.tdiv (ViewY - 16) 2 + s.AutomapOffset.deltaY < lv.DMAXY) →
        (DrawAutomapAnchor lv ViewX ViewY s).1.AutomapOffset.deltaY = s.AutomapOffset.deltaY) := by
  simp only [DrawAutomapAnchor, nudgeUp_eq, nudgeDown_eq]
  generalize Int.tdiv (ViewX - 16) 2 = ax
  generalize Int.tdiv (ViewY - 16) 2 = ay
  refine ⟨⟨?_, ?_, ?_, ?_⟩, ?_, ?_, ?_, ?_, ?_⟩ <;> first | omega | trivial

/-- Witness for C12: the view tile (0,200) on the 40 × 40 sample level asks for
the anchor (-8,92), which is out of range on both axes. -/
theorem DrawAutomapAnchor_clamp_witness :
    0 ≤ (DrawAutomapAnchor sampleLevel 0 200 sampleState).2.x
    ∧ (DrawAutomapAnchor sampleLevel 0 200 sampleState).2.x < sampleLevel.DMAXX
    ∧ 0 ≤ (DrawAutomapAnchor sampleLevel 0 200 sampleState).2.y
    ∧ (DrawAutomapAnchor sampleLevel 0 200 sampleState).2.y < sampleLevel.DMAXY :=
  (DrawAutomapAnchor_clamp sampleLevel 0 200 sampleState (by decide) (by decide)).1

theorem reveal_AutomapTypeData (s : AutomapState) (x y : Int) :
    (reveal s x y).AutomapTypeData = s.AutomapTypeData := rfl

theorem sample_vertical : GetAutomapType sampleLevel sampleTable ⟨5, 4⟩ = 1026 := by
  rw [GetAutomapType]; decide

theorem sample_origin : GetAutomapType sampleLevel sampleTable ⟨0, 0⟩ = 0 := by
  rw [GetAutomapType]; decide

/-- C13. Vertical propagation rule: when the dungeon tile maps to the in-range
macro-tile `(x, y)` whose `GetAutomapType` has base shape `Vertical`,
`SetAutomapView` changes `AutomapView` exactly so: `(x, y)` becomes true; if
the code of `(x, y)` has `Dirt`, `(x, y+1)` becomes true iff its
`GetAutomapType` is exactly `Dirt | Corner`; if it lacks `Dirt`, `(x-1, y)`
becomes true iff it has the `Dirt` flag; every other cell keeps its value. -/
theorem SetAutomapView_vertical (lv : Level) (tile : Point) (s : AutomapState) (x y : Int)
    (hmx : Int.tdiv (tile.x - 16) 2 = x) (hmy : Int.tdiv (tile.y - 16) 2 = y)
    (hx : 0 ≤ x ∧ x < lv.DMAXX) (hy : 0 ≤ y ∧ y < lv.DMAXY)
    (hshape : GetAutomapType lv s.AutomapTypeData ⟨x, y⟩ &&& MapTypes = AutomapTypeVertical) :
    SetAutomapView lv tile s =
      { s with AutomapView := fun i j =>
          if i = x ∧ j = y then true
          else if GetAutomapType lv s.AutomapTypeData ⟨x, y⟩ &&& AutomapTypeDirt ≠ 0
              ∧ (i = x ∧ j = y + 1)
              ∧ GetAutomapType lv s.AutomapTypeData ⟨x, y + 1⟩
                = AutomapTypeDirt ||| AutomapTypeCorner then true
          else if GetAutomapType lv s.AutomapTypeData ⟨x, y⟩ &&& AutomapTypeDirt = 0
              ∧ (i = x - 1 ∧ j = y)
              ∧ HasAutomapType lv s.AutomapTypeData ⟨x - 1, y⟩ AutomapTypeDirt = true then true
          else s.AutomapView i j } := by
  have hr : ¬ (x < 0 ∨ x ≥ lv.DMAXX ∨ y < 0 ∨ y ≥ lv.DMAXY) := by omega
  unfold SetAutomapView
  simp only [hmx, hmy, hr, if_false, reveal_AutomapTypeData, hshape, if_true]
  by_cases hd : GetAutomapType lv s.AutomapTypeData ⟨x, y⟩ &&& AutomapTypeDirt = 0
  · by_cases hw : HasAutomapType lv s.AutomapTypeData ⟨x - 1, y⟩ AutomapTypeDirt = true
    · simp only [hd, hw, reveal, bne_self_eq_false, Bool.false_eq_true, if_false, if_true,
        ne_eq, not_true_eq_false, false_and, true_and, and_true]
      congr 1
      funext i j
      by_cases h1 : i = x - 1 ∧ j = y
      · simp [h1]
      · simp [h1]
    · simp only [hd, hw, reveal, bne_self_eq_false, Bool.false_eq_true, if_false, if_true,
        ne_eq, not_true_eq_false, false_and, true_and, and_true, and_false]
  · by_cases hs : GetAutomapType lv s.AutomapTypeData ⟨x, y + 1⟩
        = AutomapTypeDirt ||| AutomapTypeCorner
    · simp only [hd, hs, reveal, bne_iff_ne, ne_eq, not_false_eq_true, if_true, true_and,
        and_true, false_and, if_false]
      congr 1
      funext i j
      by_cases h1 : i = x ∧ j = y + 1
      · simp [h1]
      · simp [h1]
    · simp only [hd, hs, reveal, bne_iff_ne, ne_eq, not_false_eq_true, if_true, true_and,
        and_true, false_and, if_false, and_false]

/-- Witness for C13: dungeon tile (26,24) of the sample level maps to the
arched vertical wall at macro-tile (5,4). -/
theorem SetAutomapView_vertical_witness :
    SetAutomapView sampleLevel ⟨26, 24⟩ sampleState =
      { sampleState with AutomapView := fun i j =>
          if i = 5 ∧ j = 4 then true
          else if GetAutomapType sampleLevel sampleState.AutomapTypeData ⟨5, 4⟩
                &&& AutomapTypeDirt ≠ 0
              ∧ (i = 5 ∧ j = 4 + 1)
              ∧ GetAutomapType sampleLevel sampleState.AutomapTypeData ⟨5, 4 + 1⟩
                = AutomapTypeDirt ||| AutomapTypeCorner then true
          else if GetAutomapType sampleLevel sampleState.AutomapTypeData ⟨5, 4⟩
                &&& AutomapTypeDirt = 0
              ∧ (i = 5 - 1 ∧ j = 4)
              ∧ HasAutomapType sampleLevel sampleTable ⟨5 - 1, 4⟩ AutomapTypeDirt = true then true
          else sampleState.AutomapView i j } :=
  SetAutomapView_vertical sampleLevel ⟨26, 24⟩ sampleState 5 4 (by decide) (by decide)
    (by decide) (by decide)
    (by show GetAutomapType sampleLevel sampleTable ⟨5, 4⟩ &&& MapTypes = AutomapTypeVertical
        rw [sample_vertical]; decide)

/-- C14. No propagation for other shapes: when the dungeon tile maps to the
in-range macro-tile `(x, y)` whose `GetAutomapType` base shape is none of
`Vertical`, `Horizontal`, `Cross`, `FenceVertical`, `FenceHorizontal`,
`SetAutomapView` sets `AutomapView[x][y]` to true and changes no other cell. -/
theorem SetAutomapView_other_shapes (lv : Level) (tile : Point) (s : AutomapState) (x y : Int)
    (hmx : Int.tdiv (tile.x - 16) 2 = x) (hmy : Int.tdiv (tile.y - 16) 2 = y)
    (hx : 0 ≤ x ∧ x < lv.DMAXX) (hy : 0 ≤ y ∧ y < lv.DMAXY)
    (hV : GetAutomapType lv s.AutomapTypeData ⟨x, y⟩ &&& MapTypes ≠ AutomapTypeVertical)
    (hH : GetAutomapType lv s.AutomapTypeData ⟨x, y⟩ &&& MapTypes ≠ AutomapTypeHorizontal)
    (hC : GetAutomapType lv s.AutomapTypeData ⟨x, y⟩ &&& MapTypes ≠ AutomapTypeCross)
    (hFV : GetAutomapType lv s.AutomapTypeData ⟨x, y⟩ &&& MapTypes ≠ AutomapTypeFenceVertical)
    (hFH : GetAutomapType lv s.AutomapTypeData ⟨x, y⟩ &&& MapTypes
      ≠ AutomapTypeFenceHorizontal) :
    SetAutomapView lv tile s =
      { s with AutomapView := fun i j =>
          if i = x ∧ j = y then true else s.AutomapView i j } := by
  have hr : ¬ (x < 0 ∨ x ≥ lv.DMAXX ∨ y < 0 ∨ y ≥ lv.DMAXY) := by omega
  unfold SetAutomapView
  simp only [hmx, hmy, hr, if_false, reveal_AutomapTypeData, hV, hH, hC, hFV, hFH]
  rfl

/-- Witness for C14: dungeon tile (16,16) of the sample level maps to the
unclassified macro-tile (0,0). -/
theorem SetAutomapView_other_shapes_witness :
    SetAutomapView sampleLevel ⟨16, 16⟩ sampleState =
      { sampleState with AutomapView := fun i j =>
          if i = 0 ∧ j = 0 then true else sampleState.AutomapView i j } :=
  SetAutomapView_other_shapes sampleLevel ⟨16, 16⟩ sampleState 0 0 (by decide) (by decide)
    (by decide) (by decide)
    (by show GetAutomapType sampleLevel sampleTable ⟨0, 0⟩ &&& MapTypes ≠ _
        rw [sample_origin]; decide)
    (by show GetAutomapType sampleLevel sampleTable ⟨0, 0⟩ &&& MapTypes ≠ _
        rw [sample_origin]; decide)
    (by show GetAutomapType sampleLevel sampleTable ⟨0, 0⟩ &&& MapTypes ≠ _
        rw [sample_origin]; decide)
    (by show GetAutomapType sampleLevel sampleTable ⟨0, 0⟩ &&& MapTypes ≠ _
        rw [sample_origin]; decide)
    (by show GetAutomapType sampleLevel sampleTable ⟨0, 0⟩ &&& MapTypes ≠ _
        rw [sample_origin]; decide)

theorem SetAutomapView_outside (lv : Level) (tile : Point) (s : AutomapState)
    (hout : Int.tdiv (tile.x - 16) 2 < 0 ∨ Int.tdiv (tile.x - 16) 2 ≥ lv.DMAXX
      ∨ Int.tdiv (tile.y - 16) 2 < 0 ∨ Int.tdiv (tile.y - 16) 2 ≥ lv.DMAXY) :
    SetAutomapView lv tile s = s := by
  unfold SetAutomapView
  simp only [hout, if_true]

theorem addMask_view_of_mask (s : AutomapState) (M : Int → Int → Bool) (i j : Int)
    (h : M i j = true) : (addMask s M).AutomapView i j = true := by
  simp [addMask, h]

theorem mask_ite_apply (c : Prop) [Decidable c] (A B : Int → Int → Bool) (i j : Int)
    (hA : A i j = true) (hB : B i j = true) : (if c then A else B) i j = true := by
  split_ifs <;> assumption

theorem mask_or_right (a b : Bool) (h : b = true) : (a || b) = true := by
  simp [h]

theorem mask_base (i j : Int) : decide (i = i ∧ j = j) = true := by
  simp

/-- Whatever the shape, the macro-tile under an in-range dungeon tile is
explored after `SetAutomapView`. -/
theorem SetAutomapView_marks (lv : Level) (tile : Point) (s : AutomapState)
    (hin : ¬ (Int.tdiv (tile.x - 16) 2 < 0 ∨ Int.tdiv (tile.x - 16) 2 ≥ lv.DMAXX
      ∨ Int.tdiv (tile.y - 16) 2 < 0 ∨ Int.tdiv (tile.y - 16) 2 ≥ lv.DMAXY)) :
    (SetAutomapView lv tile s).AutomapView (Int.tdiv (tile.x - 16) 2)
      (Int.tdiv (tile.y - 16) 2) = true := by
  unfold SetAutomapView
  simp only [hin, if_false, reveal_eq_addMask, addMask_addMask, ite_addMask,
    addMask_AutomapTypeData]
  generalize Int.tdiv (tile.x - 16) 2 = mx
  generalize Int.tdiv (tile.y - 16) 2 = my
  apply addMask_view_of_mask
  repeat' first
    | exact mask_base mx my
    | apply mask_ite_apply
    | apply mask_or_right

/-- C15. Out-of-range reveal is a no-op: for every dungeon tile whose macro-tile
`((t.x-16)/2, (t.y-16)/2)` (truncating division) lies outside
`[0,DMAXX) × [0,DMAXY)`, `SetAutomapView` returns the state unchanged (so
`AutomapView` is entirely unchanged); for every tile whose macro-tile is in
range, `AutomapView` at that macro-tile is true afterwards. -/
theorem SetAutomapView_range_check (lv : Level) (tile : Point) (s : AutomapState) :
    ((Int.tdiv (tile.x - 16) 2 < 0 ∨ Int.tdiv (tile.x - 16) 2 ≥ lv.DMAXX
        ∨ Int.tdiv (tile.y - 16) 2 < 0 ∨ Int.tdiv (tile.y - 16) 2 ≥ lv.DMAXY) →
      SetAutomapView lv tile s = s)
    ∧ (((0 ≤ Int.tdiv (tile.x - 16) 2 ∧ Int.tdiv (tile.x - 16) 2 < lv.DMAXX)
        ∧ (0 ≤ Int.tdiv (tile.y - 16) 2 ∧ Int.tdiv (tile.y - 16) 2 < lv.DMAXY)) →
      (SetAutomapView lv tile s).AutomapView (Int.tdiv (tile.x - 16) 2)
        (Int.tdiv (tile.y - 16) 2) = true) := by
  constructor
  · intro hout
    exact SetAutomapView_outside lv tile s hout
  · intro hin
    apply SetAutomapView_marks
    omega

/-- Witness for C15: dungeon tile (0,0) maps to macro-tile (-8,-8), outside the
sample level; dungeon tile (18,18) maps to macro-tile (1,1), inside. -/
theorem SetAutomapView_range_check_witness :
    SetAutomapView sampleLevel ⟨0, 0⟩ sampleState = sampleState
    ∧ (SetAutomapView sampleLevel ⟨18, 18⟩ sampleState).AutomapView 1 1 = true :=
  ⟨(SetAutomapView_range_check sampleLevel ⟨0, 0⟩ sampleState).1 (by decide),
    (SetAutomapView_range_check sampleLevel ⟨18, 18⟩ sampleState).2 (by decide)⟩

/-! ## Gated lookup, level load and item markers -/

/-- C16. Exploration gating: for every coordinate inside
`[0,DMAXX) × [0,DMAXY)`, `GetAutomapTypeView` returns `AutomapTypeNone` when
`AutomapView` at that cell is false and exactly `GetAutomapType` of that cell
when it is true. -/
theorem GetAutomapTypeView_gating (lv : Level) (s : AutomapState) (map : Point)
    (hx : 0 ≤ map.x ∧ map.x < lv.DMAXX) (hy : 0 ≤ map.y ∧ map.y < lv.DMAXY) :
    (s.AutomapView map.x map.y = false → GetAutomapTypeView lv s map = AutomapTypeNone)
    ∧ (s.AutomapView map.x map.y = true →
        GetAutomapTypeView lv s map = GetAutomapType lv s.AutomapTypeData map) := by
  have h1 : ¬ (map.x = -1) := by omega
  have h2 : ¬ (map.y = -1) := by omega
  have h3 : ¬ (map.x < 0 ∨ map.x ≥ lv.DMAXX) := by omega
  unfold GetAutomapTypeView
  simp only [h1, h2, h3, false_and, if_false]
  by_cases h4 : map.y < 0 ∨ map.y ≥ lv.DMAXX
  · have hn : GetAutomapType lv s.AutomapTypeData map = AutomapTypeNone := by
      rw [GetAutomapType]
      simp only [h3, h4, dite_false, dite_true]
    simp only [h4, if_true, hn, implies_true, and_self]
  · simp only [h4, if_false]
    constructor
    · intro hv
      simp only [hv, Bool.false_eq_true, not_false_eq_true, if_true]
    · intro hv
      simp only [hv, not_true_eq_false, if_false]

/-- Witness for C16: the unexplored cell (1,1) of the sample state, and the
same cell after it has been revealed. -/
theorem GetAutomapTypeView_gating_witness :
    GetAutomapTypeView sampleLevel sampleState ⟨1, 1⟩ = AutomapTypeNone
    ∧ GetAutomapTypeView sampleLevel (reveal sampleState 1 1) ⟨1, 1⟩
        = GetAutomapType sampleLevel (reveal sampleState 1 1).AutomapTypeData ⟨1, 1⟩ :=
  ⟨(GetAutomapTypeView_gating sampleLevel sampleState ⟨1, 1⟩ (by decide) (by decide)).1
      (by decide),
    (GetAutomapTypeView_gating sampleLevel (reveal sampleState 1 1) ⟨1, 1⟩ (by decide)
      (by decide)).2 (by decide)⟩

/-- C17. Edge-of-map Dirt synthesis, on a square grid (`DMAXX = DMAXY`, as in
gendung.h; the code mixes the two constants in its bounds): for every `y` in
`[0,DMAXY)`, `GetAutomapTypeView (-1, y)` is `AutomapTypeDirt` when
`AutomapView[0][y]` is true and tile `(0, y)` lacks the `Dirt` flag, and
`AutomapTypeNone` otherwise; symmetrically for `(x, -1)` against cell `(x, 0)`;
for every other coordinate outside the grid, `(-1,-1)` included, it is
`AutomapTypeNone`. -/
theorem GetAutomapTypeView_edge (lv : Level) (s : AutomapState) (hdim : lv.DMAXX = lv.DMAXY) :
    (∀ y : Int, 0 ≤ y ∧ y < lv.DMAXY →
      GetAutomapTypeView lv s ⟨-1, y⟩
        = if s.AutomapView 0 y = true
              ∧ HasAutomapType lv s.AutomapTypeData ⟨0, y⟩ AutomapTypeDirt = false
          then AutomapTypeDirt else AutomapTypeNone)
    ∧ (∀ x : Int, 0 ≤ x ∧ x < lv.DMAXX →
      GetAutomapTypeView lv s ⟨x, -1⟩
        = if s.AutomapView x 0 = true
              ∧ HasAutomapType lv s.AutomapTypeData ⟨x, 0⟩ AutomapTypeDirt = false
          then AutomapTypeDirt else AutomapTypeNone)
    ∧ (∀ map : Point,
        (map.x < 0 ∨ map.x ≥ lv.DMAXX ∨ map.y < 0 ∨ map.y ≥ lv.DMAXY) →
        ¬ (map.x = -1 ∧ 0 ≤ map.y ∧ map.y < lv.DMAXY) →
        ¬ (map.y = -1 ∧ 0 ≤ map.x ∧ map.x < lv.DMAXX) →
        GetAutomapTypeView lv s map = AutomapTypeNone)
    ∧ GetAutomapTypeView lv s ⟨-1, -1⟩ = AutomapTypeNone := by
  have hother : ∀ map : Point,
      (map.x < 0 ∨ map.x ≥ lv.DMAXX ∨ map.y < 0 ∨ map.y ≥ lv.DMAXY) →
      ¬ (map.x = -1 ∧ 0 ≤ map.y ∧ map.y < lv.DMAXY) →
      ¬ (map.y = -1 ∧ 0 ≤ map.x ∧ map.x < lv.DMAXX) →
      GetAutomapTypeView lv s map = AutomapTypeNone := by
    intro map hout h1 h2
    unfold GetAutomapTypeView
    have c1 : ¬ (map.x = -1 ∧ map.y ≥ 0 ∧ map.y < lv.DMAXY
        ∧ s.AutomapView 0 map.y = true) := by
      intro h; exact h1 ⟨h.1, h.2.1, h.2.2.1⟩
    have c2 : ¬ (map.y = -1 ∧ map.x ≥ 0 ∧ map.x < lv.DMAXY
        ∧ s.AutomapView map.x 0 = true) := by
      intro h; exact h2 ⟨h.1, h.2.1, by omega⟩
    simp only [c1, c2, if_false]
    by_cases c3 : map.x < 0 ∨ map.x ≥ lv.DMAXX
    · simp only [c3, if_true]
    · have c4 : map.y < 0 ∨ map.y ≥ lv.DMAXX := by omega
      simp only [c3, c4, if_false, if_true]
  refine ⟨?_, ?_, hother, ?_⟩
  · intro y hy
    unfold GetAutomapTypeView
    have hge : y ≥ 0 := hy.1
    have hne : ¬ (y = -1) := by omega
    by_cases hv : s.AutomapView 0 y = true
    · by_cases hd : HasAutomapType lv s.AutomapTypeData ⟨0, y⟩ AutomapTypeDirt = true
      · simp [hge, hy.2, hv, hd]
      · simp [hge, hy.2, hv, hd]
    · simp [hge, hy.2, hv, hne]
  · intro x hx
    unfold GetAutomapTypeView
    have hge : x ≥ 0 := hx.1
    have hlt : x < lv.DMAXY := by omega
    have hne : ¬ (x = -1) := by omega
    by_cases hv : s.AutomapView x 0 = true
    · by_cases hd : HasAutomapType lv s.AutomapTypeData ⟨x, 0⟩ AutomapTypeDirt = true
      · simp [hge, hlt, hv, hd, hne]
      · simp [hge, hlt, hv, hd, hne]
    · simp [hge, hlt, hv, hne, hx.2]
  · apply hother
    · left
      show (-1 : Int) < 0
      decide
    · intro h
      have := h.2.1
      simp only at this
      omega
    · intro h
      have := h.2.1
      simp only at this
      omega

/-- Witness for C17: the sample level is square; with cell (0,3) revealed the
coordinate (-1,3) beside the unclassified tile (0,3) shows `Dirt`. -/
theorem GetAutomapTypeView_edge_witness :
    GetAutomapTypeView sampleLevel (reveal sampleState 0 3) ⟨-1, 3⟩
        = (if (reveal sampleState 0 3).AutomapView 0 3 = true
              ∧ HasAutomapType sampleLevel (reveal sampleState 0 3).AutomapTypeData ⟨0, 3⟩
                  AutomapTypeDirt = false
          then AutomapTypeDirt else AutomapTypeNone)
    ∧ GetAutomapTypeView sampleLevel (reveal sampleState 0 3) ⟨-1, -1⟩ = AutomapTypeNone :=
  ⟨(GetAutomapTypeView_edge sampleLevel (reveal sampleState 0 3) rfl).1 3 (by decide),
    (GetAutomapTypeView_edge sampleLevel (reveal sampleState 0 3) rfl).2.2.2⟩

/-- C18. Level load resets exploration: after `InitAutomap`, for every file
system, level type, level number and prior state, every cell of `AutomapView`
is false. -/
theorem InitAutomap_clears_view (LoadFileInMem : String → List Nat) (leveltype : dungeon_type)
    (currlevel : Nat) (s : AutomapState) (i j : Int) :
    (InitAutomap LoadFileInMem leveltype currlevel s).AutomapView i j = false := rfl

/-- C19, as amended. After `InitAutomap` on a level kind for which
`LoadAutomapData` provides no data, `AutomapTypeData` is exactly the table it
was before the call: a tile id classifies as `AutomapTypeNone` afterwards if and
only if it did before. -/
theorem InitAutomap_no_data_keeps_table (LoadFileInMem : String → List Nat)
    (leveltype : dungeon_type) (currlevel : Nat) (s : AutomapState)
    (hnone : LoadAutomapData LoadFileInMem leveltype currlevel = none) :
    (InitAutomap LoadFileInMem leveltype currlevel s).AutomapTypeData = s.AutomapTypeData
    ∧ (∀ id : Nat, (InitAutomap LoadFileInMem leveltype currlevel s).AutomapTypeData id
          = AutomapTypeNone ↔ s.AutomapTypeData id = AutomapTypeNone) := by
  have h : (InitAutomap LoadFileInMem leveltype currlevel s).AutomapTypeData
      = s.AutomapTypeData := by
    unfold InitAutomap
    simp only [hnone, copyTileTypes]
  exact ⟨h, fun id => by rw [h]⟩

/-- Witness for C19 as amended: entering town with the sample table loaded, at
tile id 1. -/
theorem InitAutomap_no_data_keeps_table_witness :
    (InitAutomap (fun _ => []) dungeon_type.DTYPE_TOWN 0 sampleState).AutomapTypeData
        = sampleState.AutomapTypeData
    ∧ ((InitAutomap (fun _ => []) dungeon_type.DTYPE_TOWN 0 sampleState).AutomapTypeData 1
          = AutomapTypeNone ↔ sampleState.AutomapTypeData 1 = AutomapTypeNone) :=
  ⟨(InitAutomap_no_data_keeps_table (fun _ => []) dungeon_type.DTYPE_TOWN 0 sampleState rfl).1,
    (InitAutomap_no_data_keeps_table (fun _ => []) dungeon_type.DTYPE_TOWN 0 sampleState rfl).2 1⟩

/-- Counterexample to C19 as stated: town has no automap data, yet after
`InitAutomap` on town with the sample table left by an earlier level, tile id 1
still classifies as a solid cross, not as `AutomapTypeNone`. -/
theorem InitAutomap_no_data_table_not_empty :
    LoadAutomapData (fun _ => []) dungeon_type.DTYPE_TOWN 0 = none
    ∧ (InitAutomap (fun _ => []) dungeon_type.DTYPE_TOWN 0 sampleState).AutomapTypeData 1
        = (AutomapTypeDirt ||| AutomapTypeCross)
    ∧ (InitAutomap (fun _ => []) dungeon_type.DTYPE_TOWN 0 sampleState).AutomapTypeData 1
        ≠ AutomapTypeNone := by
  decide

theorem mem_forRange (first last k : Int) :
    k ∈ forRange first last ↔ first ≤ k ∧ k < last := by
  unfold forRange
  constructor
  · intro h
    obtain ⟨n, hn, rfl⟩ := List.mem_map.1 h
    rw [List.mem_range] at hn
    omega
  · intro h
    exact List.mem_map.2 ⟨(k - first).toNat, List.mem_range.2 (by omega), by omega⟩

theorem mem_itemScanReads (v : ItemView) (myPlayer : PlayerView) (i j : Int) :
    (i, j) ∈ itemScanReads v myPlayer ↔
      (clamp ((itemScanCenter myPlayer).x - 8) 0 v.MAXDUNX ≤ i
        ∧ i < clamp ((itemScanCenter myPlayer).x + 8) 0 v.MAXDUNX)
      ∧ (clamp ((itemScanCenter myPlayer).y - 8) 0 v.MAXDUNY ≤ j
        ∧ j < clamp ((itemScanCenter myPlayer).y + 8) 0 v.MAXDUNY) := by
  unfold itemScanReads
  simp only [List.mem_flatMap, List.mem_map, Prod.mk.injEq, mem_forRange]
  constructor
  · rintro ⟨a, ha, b, hb, rfl, rfl⟩
    exact ⟨ha, hb⟩
  · rintro ⟨ha, hb⟩
    exact ⟨i, ha, j, hb, rfl, rfl⟩

/-- The clamped loop bounds select the indices inside the map that are at
least `c - 8` and below `c + 8`. -/
theorem clamp_window (c M k : Int) :
    (clamp (c - 8) 0 M ≤ k ∧ k < clamp (c + 8) 0 M)
      ↔ (0 ≤ k ∧ k < M) ∧ (c - 8 ≤ k ∧ k < c + 8) := by
  unfold clamp
  split_ifs <;> omega

/-- C20, as amended. With the player not in `PM_WALK3`, `SearchAutomapItem`
draws an item diamond exactly for the dungeon tiles `(i, j)` inside the map
with `-8 ≤ i - px ≤ 7` and `-8 ≤ j - py ≤ 7` whose `dItem` entry is non-zero
(the loops run up to, not including, `px + 8` and `py + 8`): its output is,
tile after tile, the four lines of the diamond in `MapColorsItem` around the
screen point of the tile (the NE and SE line of length `AmLine8` from the left
corner, the SE line from the top corner, the NE line from the bottom corner),
and nothing else; every `dItem` index it reads lies in
`[0,MAXDUNX) × [0,MAXDUNY)`. -/
theorem SearchAutomapItem_window (pal : Palette) (v : ItemView) (myPlayer : PlayerView)
    (myPlayerOffset : Displacement) (s : AutomapState)
    (hmode : myPlayer.isWalk3 = false) :
    (∀ i j : Int, (i, j) ∈ itemScanMarked v myPlayer ↔
        ((0 ≤ i ∧ i < v.MAXDUNX) ∧ (0 ≤ j ∧ j < v.MAXDUNY))
        ∧ ((-8 ≤ i - myPlayer.tile.x ∧ i - myPlayer.tile.x ≤ 7)
          ∧ (-8 ≤ j - myPlayer.tile.y ∧ j - myPlayer.tile.y ≤ 7))
        ∧ v.dItem i j ≠ 0)
    ∧ SearchAutomapItem pal v myPlayer myPlayerOffset s
        = (itemScanMarked v myPlayer).flatMap
            (fun t =>
              let px := t.1 - 2 * s.AutomapOffset.deltaX - v.ViewX
              let py := t.2 - 2 * s.AutomapOffset.deltaY - v.ViewY
              let x := Int.tdiv (Int.tdiv (myPlayerOffset.deltaX * s.AutoMapScale) 100) 2
                + (px - py) * s.AmLine16 + Int.tdiv v.gnScreenWidth 2
                + (if v.CanPanelsCoverView = true ∧ (v.invflag = true ∨ v.sbookflag = true)
                    then -160 else 0)
                + (if v.CanPanelsCoverView = true ∧ (v.chrflag = true ∨ v.QuestLogIsOpen = true)
                    then 160 else 0)
              let y := Int.tdiv (Int.tdiv (myPlayerOffset.deltaY * s.AutoMapScale) 100) 2
                + (px + py) * s.AmLine8 + Int.tdiv (v.gnScreenHeight - v.PANEL_HEIGHT) 2
                - s.AmLine8
              [ DrawOp.DrawMapLineNE ⟨x - s.AmLine16, y⟩ s.AmLine8 (MapColorsItem pal),
                DrawOp.DrawMapLineSE ⟨x - s.AmLine16, y⟩ s.AmLine8 (MapColorsItem pal),
                DrawOp.DrawMapLineSE ⟨x, y - s.AmLine8⟩ s.AmLine8 (MapColorsItem pal),
                DrawOp.DrawMapLineNE ⟨x, y + s.AmLine8⟩ s.AmLine8 (MapColorsItem pal) ])
    ∧ (∀ i j : Int, (i, j) ∈ itemScanReads v myPlayer →
        (0 ≤ i ∧ i < v.MAXDUNX) ∧ (0 ≤ j ∧ j < v.MAXDUNY)) := by
  have hc : itemScanCenter myPlayer = myPlayer.tile := by
    unfold itemScanCenter
    simp [hmode]
  refine ⟨?_, ?_, ?_⟩
  · intro i j
    unfold itemScanMarked
    simp only [List.mem_filter, mem_itemScanReads, hc, clamp_window, decide_eq_true_eq]
    constructor
    · rintro ⟨⟨⟨hi, hi2⟩, hj, hj2⟩, hd⟩
      exact ⟨⟨hi, hj⟩, ⟨by omega, by omega⟩, hd⟩
    · rintro ⟨⟨hi, hj⟩, ⟨hi2, hj2⟩, hd⟩
      exact ⟨⟨⟨hi, by omega⟩, hj, by omega⟩, hd⟩
  · unfold SearchAutomapItem
    congr 1
    funext t
    unfold drawItemMarker DrawDiamond
    cases hC : v.CanPanelsCoverView <;> cases hI : v.invflag <;> cases hS : v.sbookflag
      <;> cases hCh : v.chrflag <;> cases hQ : v.QuestLogIsOpen
      <;> simp
      <;> ring
  · intro i j h
    rw [mem_itemScanReads, hc, clamp_window, clamp_window] at h
    exact ⟨h.1.1, h.2.1⟩

/-- Witness for C20 as amended: the sample player one tile further east, at
(21,20), and the item at (28,20), at distance 7: the tile is marked and the
output is the four lines of its diamond around the screen point (384,204). -/
theorem SearchAutomapItem_window_witness :
    (((28 : Int), (20 : Int)) ∈ itemScanMarked sampleItemView samplePlayerEast ↔
      (((0 : Int) ≤ 28 ∧ (28 : Int) < sampleItemView.MAXDUNX)
        ∧ ((0 : Int) ≤ 20 ∧ (20 : Int) < sampleItemView.MAXDUNY))
      ∧ ((-8 ≤ (28 : Int) - samplePlayerEast.tile.x
          ∧ (28 : Int) - samplePlayerEast.tile.x ≤ 7)
        ∧ (-8 ≤ (20 : Int) - samplePlayerEast.tile.y
          ∧ (20 : Int) - samplePlayerEast.tile.y ≤ 7))
      ∧ sampleItemView.dItem 28 20 ≠ 0)
    ∧ ((28 : Int), (20 : Int)) ∈ itemScanMarked sampleItemView samplePlayerEast
    ∧ SearchAutomapItem samplePalette sampleItemView samplePlayerEast ⟨0, 0⟩ sampleState
      = [ DrawOp.DrawMapLineNE ⟨376, 204⟩ 4 129,
          DrawOp.DrawMapLineSE ⟨376, 204⟩ 4 129,
          DrawOp.DrawMapLineSE ⟨384, 200⟩ 4 129,
          DrawOp.DrawMapLineNE ⟨384, 208⟩ 4 129 ] :=
  ⟨(SearchAutomapItem_window samplePalette sampleItemView samplePlayerEast ⟨0, 0⟩ sampleState
      rfl).1 28 20,
    by decide,
    (SearchAutomapItem_window samplePalette sampleItemView samplePlayerEast ⟨0, 0⟩ sampleState
      rfl).2.1.trans (by decide)⟩

/-- Counterexample to C20 as stated: the player stands at (20,20) and the only
item lies at (28,20), inside the map and with `|28 - 20| ≤ 8`, yet the scan
does not mark that tile and `SearchAutomapItem` draws nothing; with the player
at (21,20) the same call draws the four lines of the item diamond. -/
theorem SearchAutomapItem_misses_plus_eight :
    samplePlayer.isWalk3 = false
    ∧ ((0 : Int) ≤ 28 ∧ (28 : Int) < sampleItemView.MAXDUNX
      ∧ (0 : Int) ≤ 20 ∧ (20 : Int) < sampleItemView.MAXDUNY)
    ∧ |(28 : Int) - samplePlayer.tile.x| ≤ 8 ∧ |(20 : Int) - samplePlayer.tile.y| ≤ 8
    ∧ sampleItemView.dItem 28 20 ≠ 0
    ∧ (28, 20) ∉ itemScanMarked sampleItemView samplePlayer
    ∧ SearchAutomapItem samplePalette sampleItemView samplePlayer ⟨0, 0⟩ sampleState = []
    ∧ SearchAutomapItem samplePalette sampleItemView samplePlayerEast ⟨0, 0⟩ sampleState
      = [ DrawOp.DrawMapLineNE ⟨376, 204⟩ 4 129,
          DrawOp.DrawMapLineSE ⟨376, 204⟩ 4 129,
          DrawOp.DrawMapLineSE ⟨384, 200⟩ 4 129,
          DrawOp.DrawMapLineNE ⟨384, 208⟩ 4 129 ] := by
  decide

/-! ## Corner merge on the exact `Corner` code -/

/-- C21, as amended. Corner merge applies to the exact `Corner` code: for every
in-range tile whose raw table entry has base shape `Corner` (low nibble 7),
whose west neighbour has `HorizontalArch` and whose north neighbour has
`VerticalArch`, `GetAutomapType` returns `Diamond` when the raw entry is
exactly `Corner` (no modifier flag set); when the raw entry carries any
modifier flag, `GetAutomapType` returns the raw entry unchanged, whose base
shape is still `Corner`. -/
theorem GetAutomapType_corner_merge_exact (lv : Level) (tbl : Nat → Nat) (x y : Int)
    (hx : 0 ≤ x ∧ x < lv.DMAXX) (hy : 0 ≤ y ∧ y < lv.DMAXY)
    (hbase : tbl (lv.dungeon x y) &&& MapTypes = AutomapTypeCorner)
    (hwest : HasAutomapType lv tbl ⟨x - 1, y⟩ AutomapTypeHorizontalArch = true)
    (hnorth : HasAutomapType lv tbl ⟨x, y - 1⟩ AutomapTypeVerticalArch = true) :
    (tbl (lv.dungeon x y) = AutomapTypeCorner →
      GetAutomapType lv tbl ⟨x, y⟩ = AutomapTypeDiamond
      ∧ GetAutomapType lv tbl ⟨x, y⟩ &&& MapTypes = AutomapTypeDiamond)
    ∧ (tbl (lv.dungeon x y) ≠ AutomapTypeCorner →
      GetAutomapType lv tbl ⟨x, y⟩ = tbl (lv.dungeon x y)
      ∧ GetAutomapType lv tbl ⟨x, y⟩ &&& MapTypes = AutomapTypeCorner) := by
  have hw := GetAutomapType_ne_none_range lv tbl ⟨x - 1, y⟩
    (HasAutomapType_ne_none lv tbl _ _ hwest)
  simp only at hw
  have hx' : ¬ (x < 0 ∨ x ≥ lv.DMAXX) := by omega
  have hy' : ¬ (y < 0 ∨ y ≥ lv.DMAXX) := by omega
  constructor
  · intro hc
    have h : GetAutomapType lv tbl ⟨x, y⟩ = AutomapTypeDiamond := by
      rw [GetAutomapType]
      simp only [hx', hy', dite_false, hc, hwest, hnorth, if_true]
    rw [h]
    exact ⟨rfl, by decide⟩
  · intro hc
    have h : GetAutomapType lv tbl ⟨x, y⟩ = tbl (lv.dungeon x y) := by
      rw [GetAutomapType]
      simp only [hx', hy', dite_false, hc, if_false]
    rw [h]
    exact ⟨rfl, hbase⟩

/-- Witness for C21 as amended: the plain corner at (5,5) of the sample level,
between the arches at (4,5) and (5,4), is merged into a diamond; the solid
corner at the same place of the second sample level is returned as it is. -/
theorem GetAutomapType_corner_merge_exact_witness :
    (GetAutomapType sampleLevel sampleTable ⟨5, 5⟩ = AutomapTypeDiamond
      ∧ GetAutomapType sampleLevel sampleTable ⟨5, 5⟩ &&& MapTypes = AutomapTypeDiamond)
    ∧ (GetAutomapType sampleLevelSolidCorner sampleTable ⟨5, 5⟩
        = sampleTable (sampleLevelSolidCorner.dungeon 5 5)
      ∧ GetAutomapType sampleLevelSolidCorner sampleTable ⟨5, 5⟩ &&& MapTypes
        = AutomapTypeCorner) :=
  ⟨(GetAutomapType_corner_merge_exact sampleLevel sampleTable 5 5 (by decide) (by decide)
      (by decide) (by rw [HasAutomapType, GetAutomapType]; decide)
      (by rw [HasAutomapType, GetAutomapType]; decide)).1 (by decide),
    (GetAutomapType_corner_merge_exact sampleLevelSolidCorner sampleTable 5 5 (by decide)
      (by decide) (by decide) (by rw [HasAutomapType, GetAutomapType]; decide)
      (by rw [HasAutomapType, GetAutomapType]; decide)).2 (by decide)⟩

/-- Counterexample to C21 as stated: tile (5,5) is in range, its raw entry
`Dirt | Corner` has base shape `Corner`, the west neighbour has
`HorizontalArch` and the north neighbour has `VerticalArch`, yet the code
returned has base shape `Corner`, not `Diamond`. -/
theorem GetAutomapType_solid_corner_not_merged :
    ((0 : Int) ≤ 5 ∧ (5 : Int) < sampleLevelSolidCorner.DMAXX
      ∧ (0 : Int) ≤ 5 ∧ (5 : Int) < sampleLevelSolidCorner.DMAXY)
    ∧ sampleTable (sampleLevelSolidCorner.dungeon 5 5) &&& MapTypes = AutomapTypeCorner
    ∧ HasAutomapType sampleLevelSolidCorner sampleTable ⟨4, 5⟩ AutomapTypeHorizontalArch = true
    ∧ HasAutomapType sampleLevelSolidCorner sampleTable ⟨5, 4⟩ AutomapTypeVerticalArch = true
    ∧ GetAutomapType sampleLevelSolidCorner sampleTable ⟨5, 5⟩
        = AutomapTypeDirt ||| AutomapTypeCorner
    ∧ GetAutomapType sampleLevelSolidCorner sampleTable ⟨5, 5⟩ &&& MapTypes
        ≠ AutomapTypeDiamond := by
  refine ⟨by decide, by decide, ?_, ?_, ?_, ?_⟩
  · rw [HasAutomapType, GetAutomapType]; decide
  · rw [HasAutomapType, GetAutomapType]; decide
  · rw [GetAutomapType]; decide
  · rw [GetAutomapType]; decide

/-! ## Blocks of the tile renderer: lemmas -/


theorem land_lor_disjoint (t a b : Nat) (h : a &&& b = 0) : (t ||| a) &&& b = t &&& b := by
  apply Nat.eq_of_testBit_eq
  intro i
  have hi := congrArg (fun n => Nat.testBit n i) h
  simp only [Nat.testBit_land, Nat.testBit_lor, Nat.zero_testBit] at hi ⊢
  revert hi
  cases t.testBit i <;> cases a.testBit i <;> cases b.testBit i <;> simp

theorem land_lor_eq_zero (t a b : Nat) : t &&& (a ||| b) = 0 ↔ t &&& a = 0 ∧ t &&& b = 0 := by
  constructor
  · intro h
    constructor
    · apply Nat.eq_of_testBit_eq
      intro i
      have hi := congrArg (fun n => Nat.testBit n i) h
      simp only [Nat.testBit_land, Nat.testBit_lor, Nat.zero_testBit] at hi ⊢
      revert hi
      cases t.testBit i <;> cases a.testBit i <;> cases b.testBit i <;> simp
    · apply Nat.eq_of_testBit_eq
      intro i
      have hi := congrArg (fun n => Nat.testBit n i) h
      simp only [Nat.testBit_land, Nat.testBit_lor, Nat.zero_testBit] at hi ⊢
      revert hi
      cases t.testBit i <;> cases a.testBit i <;> cases b.testBit i <;> simp
  · rintro ⟨h1, h2⟩
    rw [Nat.and_or_distrib_left, h1, h2]
    rfl

theorem lor_land_ne_zero (t a b : Nat) (h : a &&& b ≠ 0) : (t ||| a) &&& b ≠ 0 := by
  intro h0
  apply h
  apply Nat.eq_of_testBit_eq
  intro i
  have hi := congrArg (fun n => Nat.testBit n i) h0
  simp only [Nat.testBit_land, Nat.testBit_lor, Nat.zero_testBit] at hi ⊢
  revert hi
  cases t.testBit i <;> cases a.testBit i <;> cases b.testBit i <;> simp

/-- `DrawAutomapTile` is the dirt pattern, when the flag is set, followed by
the remaining blocks. The arch bit that a grate forces inside the right- or
left-facing block is not read by any later block. -/
theorem DrawAutomapTile_eq_blocks (pal : Palette) (s : AutomapState) (center : Point)
    (t : Nat) (hne : t ≠ AutomapTypeNone) :
    DrawAutomapTile pal s center t =
      (if (t &&& AutomapTypeDirt) ≠ 0 then dirtPattern pal s center else [])
        ++ afterDirt pal s center t := by
  have e1 : AutomapTypeVerticalArch &&& AutomapTypeHorizontalDoor = 0 := by decide
  have e2 : AutomapTypeVerticalArch &&& AutomapTypeHorizontalGrate = 0 := by decide
  have e3 : AutomapTypeVerticalArch &&& AutomapTypeHorizontalArch = 0 := by decide
  have e4 : AutomapTypeVerticalArch &&& (AutomapTypeHorizontalDoor
    ||| AutomapTypeHorizontalGrate ||| AutomapTypeHorizontalArch) = 0 := by decide
  have e5 : AutomapTypeVerticalArch &&& AutomapTypeVerticalDoor = 0 := by decide
  have e6 : AutomapTypeHorizontalArch &&& AutomapTypeVerticalDoor = 0 := by decide
  have e7 : AutomapTypeHorizontalArch &&& AutomapTypeHorizontalDoor = 0 := by decide
  have n1 : AutomapTypeVerticalArch &&& AutomapTypeVerticalArch ≠ 0 := by decide
  have n2 : AutomapTypeVerticalArch &&& (AutomapTypeVerticalDoor
    ||| AutomapTypeVerticalGrate ||| AutomapTypeVerticalArch) ≠ 0 := by decide
  have n3 : AutomapTypeHorizontalArch &&& AutomapTypeHorizontalArch ≠ 0 := by decide
  have n4 : AutomapTypeHorizontalArch &&& (AutomapTypeHorizontalDoor
    ||| AutomapTypeHorizontalGrate ||| AutomapTypeHorizontalArch) ≠ 0 := by decide
  unfold DrawAutomapTile afterDirt stairsBlock rightFacingBlock leftFacingBlock
    caveHorizontalBlock caveVerticalBlock dirtPattern
  simp only [hne, if_false, List.append_assoc]
  congr 3
  by_cases hV : (t &&& MapTypes = AutomapTypeVertical ∨ t &&& MapTypes = AutomapTypeFenceVertical
      ∨ t &&& MapTypes = AutomapTypeCross ∨ t &&& MapTypes = AutomapTypeCaveHorizontalCross)
  <;> by_cases hG : t &&& AutomapTypeVerticalGrate = 0
  <;> by_cases hH : (t &&& MapTypes = AutomapTypeHorizontal
      ∨ t &&& MapTypes = AutomapTypeFenceHorizontal
      ∨ t &&& MapTypes = AutomapTypeCross ∨ t &&& MapTypes = AutomapTypeCaveVerticalCross)
  <;> by_cases hHG : t &&& AutomapTypeHorizontalGrate = 0
  <;> simp only [hV, hG, hH, hHG, decide_True, decide_False, true_and, false_and, and_true,
      and_false, if_true, if_false, ne_eq, not_true_eq_false, not_false_eq_true,
      land_lor_disjoint _ _ _ e1, land_lor_disjoint _ _ _ e2, land_lor_disjoint _ _ _ e3,
      land_lor_disjoint _ _ _ e4, land_lor_disjoint _ _ _ e5, land_lor_disjoint _ _ _ e6,
      land_lor_disjoint _ _ _ e7, Bool.false_eq_true, decide_eq_true_eq,
      lor_land_ne_zero _ _ _ n1, lor_land_ne_zero _ _ _ n2, lor_land_ne_zero _ _ _ n3,
      lor_land_ne_zero _ _ _ n4]

/-- The right-facing block, with the forced arch bit written out as a test of
the grate flag. -/

theorem rightFacingBlock_eq (pal : Palette) (s : AutomapState) (center : Point) (t : Nat) :
    rightFacingBlock pal s center t =
      (if t &&& AutomapTypeVerticalDoor ≠ 0 then
        DrawMapVerticalDoor pal s ⟨center.x - s.AmLine16, center.y - s.AmLine8⟩ else [])
      ++ (if t &&& AutomapTypeVerticalGrate ≠ 0 then
        [DrawOp.DrawMapLineNE ⟨center.x - s.AmLine32, center.y⟩ s.AmLine8 (MapColorsDim pal)]
        else [])
      ++ (if t &&& AutomapTypeVerticalGrate ≠ 0 ∨ t &&& AutomapTypeVerticalArch ≠ 0 then
        DrawDiamond s ⟨center.x, center.y - s.AmLine8⟩ (MapColorsDim pal) else [])
      ++ (if t &&& AutomapTypeVerticalDoor = 0 ∧ t &&& AutomapTypeVerticalGrate = 0
            ∧ t &&& AutomapTypeVerticalArch = 0 then
        [DrawOp.DrawMapLineNE ⟨center.x - s.AmLine32, center.y⟩ s.AmLine16 (MapColorsDim pal)]
        else []) := by
  have n1 : AutomapTypeVerticalArch &&& AutomapTypeVerticalArch ≠ 0 := by decide
  have n2 : AutomapTypeVerticalArch &&& (AutomapTypeVerticalDoor
    ||| AutomapTypeVerticalGrate ||| AutomapTypeVerticalArch) ≠ 0 := by decide
  unfold rightFacingBlock
  by_cases hG : t &&& AutomapTypeVerticalGrate = 0
  · simp only [hG, ne_eq, not_true_eq_false, if_false, false_or, land_lor_eq_zero, true_and,
      and_true]
  · simp only [hG, ne_eq, not_false_eq_true, if_true, true_or, false_and, and_false,
      lor_land_ne_zero _ _ _ n1, lor_land_ne_zero _ _ _ n2, if_false]

theorem shape_ne_none (t k : Nat) (h : t &&& MapTypes = k) (hk : k ≠ 0) :
    t ≠ AutomapTypeNone := by
  intro h0
  rw [h0] at h
  simp [AutomapTypeNone] at h
  exact hk h.symm

/-! ## Right-facing path, dirt pattern and cave paths -/

/-- The output for a shape on the right-facing path, with the four tests of the
path written out and the glyphs as the calls of `DrawMapVerticalDoor` and
`DrawDiamond`. -/
theorem DrawAutomapTile_right_facing_blocks (pal : Palette) (s : AutomapState) (center : Point)
    (t : Nat)
    (hshape : t &&& MapTypes = AutomapTypeVertical
      ∨ t &&& MapTypes = AutomapTypeFenceVertical
      ∨ t &&& MapTypes = AutomapTypeCross
      ∨ t &&& MapTypes = AutomapTypeCaveHorizontalCross) :
    DrawAutomapTile pal s center t =
      (if t &&& AutomapTypeDirt ≠ 0 then dirtPattern pal s center else [])
      ++ stairsBlock pal s center t
      ++ ((if t &&& AutomapTypeVerticalDoor ≠ 0 then
            DrawMapVerticalDoor pal s ⟨center.x - s.AmLine16, center.y - s.AmLine8⟩ else [])
          ++ (if t &&& AutomapTypeVerticalGrate ≠ 0 then
            [DrawOp.DrawMapLineNE ⟨center.x - s.AmLine32, center.y⟩ s.AmLine8 (MapColorsDim pal)]
            else [])
          ++ (if t &&& AutomapTypeVerticalGrate ≠ 0 ∨ t &&& AutomapTypeVerticalArch ≠ 0 then
            DrawDiamond s ⟨center.x, center.y - s.AmLine8⟩ (MapColorsDim pal) else [])
          ++ (if t &&& AutomapTypeVerticalDoor = 0 ∧ t &&& AutomapTypeVerticalGrate = 0
                ∧ t &&& AutomapTypeVerticalArch = 0 then
            [DrawOp.DrawMapLineNE ⟨center.x - s.AmLine32, center.y⟩ s.AmLine16
              (MapColorsDim pal)]
            else []))
      ++ (if t &&& MapTypes = AutomapTypeCross then leftFacingBlock pal s center t else [])
      ++ (if t &&& MapTypes = AutomapTypeCaveHorizontalCross then
            caveHorizontalBlock pal s center t else []) := by
  have hne : t ≠ AutomapTypeNone := by
    rcases hshape with h | h | h | h <;> exact shape_ne_none t _ h (by decide)
  rw [DrawAutomapTile_eq_blocks pal s center t hne, ← rightFacingBlock_eq]
  unfold afterDirt
  rcases hshape with h | h | h | h <;>
    simp [h, AutomapTypeVertical, AutomapTypeFenceVertical, AutomapTypeCross,
      AutomapTypeCaveHorizontalCross, AutomapTypeDiamond, AutomapTypeHorizontal,
      AutomapTypeFenceHorizontal, AutomapTypeCaveVerticalCross, AutomapTypeCaveHorizontal,
      AutomapTypeCaveCross, AutomapTypeCaveVertical]

/-- C22, as amended. Right-facing obstacle path: for every shape code routed
through the right-facing path (base shape `Vertical`, `FenceVertical`, `Cross`
or `CaveHorizontalCross`) and every combination of the `VerticalDoor`,
`VerticalGrate` and `VerticalArch` flags, `DrawAutomapTile` emits for that
path, in this order, the door glyph exactly when `VerticalDoor` is set (two
dim NE segments of length `AmLine4` and the four bright lines of the diamond
centred at `(cx - AmLine16, cy - AmLine8)`), the half-length connector exactly
when `VerticalGrate` is set, the arch diamond exactly when `VerticalGrate` or
`VerticalArch` is set (the four dim lines of the diamond centred at
`(cx, cy - AmLine8)`), and the full-length connector exactly when none of the
three flags is set. The four tests are independent: a code with `VerticalDoor`
together with `VerticalGrate` or `VerticalArch` emits the door glyph and the
primitives of the grate or arch branch as well. -/
theorem DrawAutomapTile_right_facing (pal : Palette) (s : AutomapState) (center : Point)
    (t : Nat)
    (hshape : t &&& MapTypes = AutomapTypeVertical
      ∨ t &&& MapTypes = AutomapTypeFenceVertical
      ∨ t &&& MapTypes = AutomapTypeCross
      ∨ t &&& MapTypes = AutomapTypeCaveHorizontalCross) :
    DrawAutomapTile pal s center t =
      (if t &&& AutomapTypeDirt ≠ 0 then dirtPattern pal s center else [])
      ++ stairsBlock pal s center t
      ++ ((if t &&& AutomapTypeVerticalDoor ≠ 0 then
            [ DrawOp.DrawMapLineNE
                ⟨center.x - s.AmLine16 + s.AmLine8, center.y - s.AmLine8 - s.AmLine4⟩
                s.AmLine4 (MapColorsDim pal),
              DrawOp.DrawMapLineNE
                ⟨center.x - s.AmLine16 - s.AmLine16, center.y - s.AmLine8 + s.AmLine8⟩
                s.AmLine4 (MapColorsDim pal),
              DrawOp.DrawMapLineNE ⟨center.x - s.AmLine16 - s.AmLine16, center.y - s.AmLine8⟩
                s.AmLine8 (MapColorsBright pal),
              DrawOp.DrawMapLineSE ⟨center.x - s.AmLine16 - s.AmLine16, center.y - s.AmLine8⟩
                s.AmLine8 (MapColorsBright pal),
              DrawOp.DrawMapLineSE ⟨center.x - s.AmLine16, center.y - s.AmLine8 - s.AmLine8⟩
                s.AmLine8 (MapColorsBright pal),
              DrawOp.DrawMapLineNE ⟨center.x - s.AmLine16, center.y - s.AmLine8 + s.AmLine8⟩
                s.AmLine8 (MapColorsBright pal) ]
            else [])
          ++ (if t &&& AutomapTypeVerticalGrate ≠ 0 then
            [DrawOp.DrawMapLineNE ⟨center.x - s.AmLine32, center.y⟩ s.AmLine8 (MapColorsDim pal)]
            else [])
          ++ (if t &&& AutomapTypeVerticalGrate ≠ 0 ∨ t &&& AutomapTypeVerticalArch ≠ 0 then
            [ DrawOp.DrawMapLineNE ⟨center.x - s.AmLine16, center.y - s.AmLine8⟩ s.AmLine8
                (MapColorsDim pal),
              DrawOp.DrawMapLineSE ⟨center.x - s.AmLine16, center.y - s.AmLine8⟩ s.AmLine8
                (MapColorsDim pal),
              DrawOp.DrawMapLineSE ⟨center.x, center.y - s.AmLine8 - s.AmLine8⟩ s.AmLine8
                (MapColorsDim pal),
              DrawOp.DrawMapLineNE ⟨center.x, center.y - s.AmLine8 + s.AmLine8⟩ s.AmLine8
                (MapColorsDim pal) ]
            else [])
          ++ (if t &&& AutomapTypeVerticalDoor = 0 ∧ t &&& AutomapTypeVerticalGrate = 0
                ∧ t &&& AutomapTypeVerticalArch = 0 then
            [DrawOp.DrawMapLineNE ⟨center.x - s.AmLine32, center.y⟩ s.AmLine16
              (MapColorsDim pal)]
            else []))
      ++ (if t &&& MapTypes = AutomapTypeCross then leftFacingBlock pal s center t else [])
      ++ (if t &&& MapTypes = AutomapTypeCaveHorizontalCross then
            caveHorizontalBlock pal s center t else []) :=
  DrawAutomapTile_right_facing_blocks pal s center t hshape

/-- Witness for C22 as amended: at (100,100) at the start zoom, a vertical wall
with an arch is the four dim lines of the arch diamond and nothing else, and a
vertical wall with a door is the six primitives of the door glyph and nothing
else. -/
theorem DrawAutomapTile_right_facing_witness :
    DrawAutomapTile samplePalette sampleState ⟨100, 100⟩
        (AutomapTypeVerticalArch ||| AutomapTypeVertical)
      = [ DrawOp.DrawMapLineNE ⟨92, 96⟩ 4 200,
          DrawOp.DrawMapLineSE ⟨92, 96⟩ 4 200,
          DrawOp.DrawMapLineSE ⟨100, 92⟩ 4 200,
          DrawOp.DrawMapLineNE ⟨100, 100⟩ 4 200 ]
    ∧ DrawAutomapTile samplePalette sampleState ⟨100, 100⟩
        (AutomapTypeVerticalDoor ||| AutomapTypeVertical)
      = [ DrawOp.DrawMapLineNE ⟨96, 94⟩ 2 200,
          DrawOp.DrawMapLineNE ⟨84, 100⟩ 2 200,
          DrawOp.DrawMapLineNE ⟨84, 96⟩ 4 144,
          DrawOp.DrawMapLineSE ⟨84, 96⟩ 4 144,
          DrawOp.DrawMapLineSE ⟨92, 92⟩ 4 144,
          DrawOp.DrawMapLineNE ⟨92, 100⟩ 4 144 ] :=
  ⟨(DrawAutomapTile_right_facing samplePalette sampleState ⟨100, 100⟩
      (AutomapTypeVerticalArch ||| AutomapTypeVertical) (Or.inl (by decide))).trans (by decide),
    (DrawAutomapTile_right_facing samplePalette sampleState ⟨100, 100⟩
      (AutomapTypeVerticalDoor ||| AutomapTypeVertical) (Or.inl (by decide))).trans
        (by decide)⟩

/-- Counterexample to C22 as stated: for the code
`VerticalDoor | VerticalGrate | Vertical`, routed through the right-facing
path, `DrawAutomapTile` at (100,100) at the start zoom emits the six
primitives of the door glyph followed by the half-length connector and the
four lines of the arch diamond, which is none of the four branches alone. -/
theorem DrawAutomapTile_door_and_grate :
    (AutomapTypeVerticalDoor ||| AutomapTypeVerticalGrate ||| AutomapTypeVertical) &&& MapTypes
      = AutomapTypeVertical
    ∧ DrawAutomapTile samplePalette sampleState ⟨100, 100⟩
        (AutomapTypeVerticalDoor ||| AutomapTypeVerticalGrate ||| AutomapTypeVertical)
      = [ DrawOp.DrawMapLineNE ⟨96, 94⟩ 2 200,
          DrawOp.DrawMapLineNE ⟨84, 100⟩ 2 200,
          DrawOp.DrawMapLineNE ⟨84, 96⟩ 4 144,
          DrawOp.DrawMapLineSE ⟨84, 96⟩ 4 144,
          DrawOp.DrawMapLineSE ⟨92, 92⟩ 4 144,
          DrawOp.DrawMapLineNE ⟨92, 100⟩ 4 144,
          DrawOp.DrawMapLineNE ⟨84, 100⟩ 4 200,
          DrawOp.DrawMapLineNE ⟨92, 96⟩ 4 200,
          DrawOp.DrawMapLineSE ⟨92, 96⟩ 4 200,
          DrawOp.DrawMapLineSE ⟨100, 92⟩ 4 200,
          DrawOp.DrawMapLineNE ⟨100, 100⟩ 4 200 ]
    ∧ DrawAutomapTile samplePalette sampleState ⟨100, 100⟩
        (AutomapTypeVerticalDoor ||| AutomapTypeVerticalGrate ||| AutomapTypeVertical)
      ≠ [ DrawOp.DrawMapLineNE ⟨96, 94⟩ 2 200,
          DrawOp.DrawMapLineNE ⟨84, 100⟩ 2 200,
          DrawOp.DrawMapLineNE ⟨84, 96⟩ 4 144,
          DrawOp.DrawMapLineSE ⟨84, 96⟩ 4 144,
          DrawOp.DrawMapLineSE ⟨92, 92⟩ 4 144,
          DrawOp.DrawMapLineNE ⟨92, 100⟩ 4 144 ]
    ∧ DrawAutomapTile samplePalette sampleState ⟨100, 100⟩
        (AutomapTypeVerticalDoor ||| AutomapTypeVerticalGrate ||| AutomapTypeVertical)
      ≠ [ DrawOp.DrawMapLineNE ⟨84, 100⟩ 4 200,
          DrawOp.DrawMapLineNE ⟨92, 96⟩ 4 200,
          DrawOp.DrawMapLineSE ⟨92, 96⟩ 4 200,
          DrawOp.DrawMapLineSE ⟨100, 92⟩ 4 200,
          DrawOp.DrawMapLineNE ⟨100, 100⟩ 4 200 ]
    ∧ DrawAutomapTile samplePalette sampleState ⟨100, 100⟩
        (AutomapTypeVerticalDoor ||| AutomapTypeVerticalGrate ||| AutomapTypeVertical)
      ≠ [ DrawOp.DrawMapLineNE ⟨92, 96⟩ 4 200,
          DrawOp.DrawMapLineSE ⟨92, 96⟩ 4 200,
          DrawOp.DrawMapLineSE ⟨100, 92⟩ 4 200,
          DrawOp.DrawMapLineNE ⟨100, 100⟩ 4 200 ]
    ∧ DrawAutomapTile samplePalette sampleState ⟨100, 100⟩
        (AutomapTypeVerticalDoor ||| AutomapTypeVerticalGrate ||| AutomapTypeVertical)
      ≠ [ DrawOp.DrawMapLineNE ⟨84, 100⟩ 8 200 ] := by
  decide

/-- None of the line primitives of a diamond is a `SetPixel` call. -/
theorem DrawDiamond_noPixel (s : AutomapState) (c : Point) (color : Nat) :
    ∀ op ∈ DrawDiamond s c color, op.isSetPixel = false := by
  intro op h
  simp only [DrawDiamond, List.mem_cons, List.mem_singleton, List.not_mem_nil, or_false] at h
  rcases h with h | h | h | h <;> rw [h] <;> rfl

theorem noPixel_append (l₁ l₂ : List DrawOp)
    (h₁ : ∀ op ∈ l₁, op.isSetPixel = false) (h₂ : ∀ op ∈ l₂, op.isSetPixel = false) :
    ∀ op ∈ l₁ ++ l₂, op.isSetPixel = false := by
  intro op h
  rcases List.mem_append.1 h with h | h
  · exact h₁ op h
  · exact h₂ op h

theorem noPixel_ite (c : Prop) [Decidable c] (l₁ l₂ : List DrawOp)
    (h₁ : ∀ op ∈ l₁, op.isSetPixel = false) (h₂ : ∀ op ∈ l₂, op.isSetPixel = false) :
    ∀ op ∈ (if c then l₁ else l₂), op.isSetPixel = false := by
  split_ifs
  · exact h₁
  · exact h₂

theorem noPixel_nil : ∀ op ∈ ([] : List DrawOp), op.isSetPixel = false := by
  intro op h
  cases h

theorem noPixel_NE (p : Point) (n : Int) (color : Nat) :
    ∀ op ∈ [DrawOp.DrawMapLineNE p n color], op.isSetPixel = false := by
  intro op h
  rw [List.mem_singleton.1 h]
  rfl

theorem noPixel_SE (p : Point) (n : Int) (color : Nat) :
    ∀ op ∈ [DrawOp.DrawMapLineSE p n color], op.isSetPixel = false := by
  intro op h
  rw [List.mem_singleton.1 h]
  rfl

theorem DrawMapVerticalDoor_noPixel (pal : Palette) (s : AutomapState) (c : Point) :
    ∀ op ∈ DrawMapVerticalDoor pal s c, op.isSetPixel = false := by
  unfold DrawMapVerticalDoor
  apply noPixel_append
  · intro op h
    simp only [List.mem_cons, List.mem_singleton, List.not_mem_nil, or_false] at h
    rcases h with h | h <;> rw [h] <;> rfl
  · exact DrawDiamond_noPixel s c _

theorem DrawMapHorizontalDoor_noPixel (pal : Palette) (s : AutomapState) (c : Point) :
    ∀ op ∈ DrawMapHorizontalDoor pal s c, op.isSetPixel = false := by
  unfold DrawMapHorizontalDoor
  apply noPixel_append
  · intro op h
    simp only [List.mem_cons, List.mem_singleton, List.not_mem_nil, or_false] at h
    rcases h with h | h <;> rw [h] <;> rfl
  · exact DrawDiamond_noPixel s c _

theorem drawStairSteps_noPixel (pal : Palette) (s : AutomapState) (n : Nat) :
    ∀ p : Point, ∀ op ∈ drawStairSteps pal s n p, op.isSetPixel = false := by
  induction n with
  | zero => intro p op h; cases h
  | succ k ih =>
    intro p op h
    rcases List.mem_cons.1 h with h | h
    · rw [h]; rfl
    · exact ih _ op h

/-- The blocks after the dirt pattern emit no `SetPixel` call. -/
theorem afterDirt_noPixel (pal : Palette) (s : AutomapState) (center : Point) (t : Nat) :
    ∀ op ∈ afterDirt pal s center t, op.isSetPixel = false := by
  unfold afterDirt stairsBlock rightFacingBlock leftFacingBlock caveHorizontalBlock
    caveVerticalBlock
  repeat' first
    | exact noPixel_nil
    | exact noPixel_NE _ _ _
    | exact noPixel_SE _ _ _
    | exact DrawDiamond_noPixel _ _ _
    | exact DrawMapVerticalDoor_noPixel _ _ _
    | exact DrawMapHorizontalDoor_noPixel _ _ _
    | exact drawStairSteps_noPixel _ _ _ _
    | apply noPixel_ite
    | apply noPixel_append

/-- C23, as amended. Dirt texture: for every shape code with the `Dirt` flag
set, the output of `DrawAutomapTile` is the dirt pattern followed by the
stairs and wall blocks; the dirt pattern is exactly 16 `SetPixel` calls, all
in `MapColorsDim` and at the fixed offsets of `dirtPattern` from the anchor
(sums of the `AmLine` lengths), and no later block emits a `SetPixel` call, so
the whole output holds exactly 16 of them. -/
theorem DrawAutomapTile_dirt (pal : Palette) (s : AutomapState) (center : Point) (t : Nat)
    (hdirt : t &&& AutomapTypeDirt ≠ 0) :
    DrawAutomapTile pal s center t = dirtPattern pal s center ++ afterDirt pal s center t
    ∧ (dirtPattern pal s center).length = 16
    ∧ (∀ op ∈ dirtPattern pal s center, ∃ p : Point, op = DrawOp.SetPixel p (MapColorsDim pal))
    ∧ (∀ op ∈ afterDirt pal s center t, op.isSetPixel = false)
    ∧ (DrawAutomapTile pal s center t).countP DrawOp.isSetPixel = 16 := by
  have hne : t ≠ AutomapTypeNone := by
    intro h0
    rw [h0] at hdirt
    simp [AutomapTypeNone] at hdirt
  have hsplit : DrawAutomapTile pal s center t
      = dirtPattern pal s center ++ afterDirt pal s center t := by
    rw [DrawAutomapTile_eq_blocks pal s center t hne]
    simp only [hdirt, ne_eq, not_false_eq_true, if_true]
  have hno := afterDirt_noPixel pal s center t
  refine ⟨hsplit, rfl, ?_, hno, ?_⟩
  · intro op h
    simp only [dirtPattern, List.mem_cons, List.mem_singleton, List.not_mem_nil, or_false] at h
    rcases h with h | h | h | h | h | h | h | h | h | h | h | h | h | h | h | h <;>
      exact ⟨_, h⟩
  · rw [hsplit, List.countP_append]
    have h0 : (afterDirt pal s center t).countP DrawOp.isSetPixel = 0 := by
      rw [List.countP_eq_zero]
      intro op h
      simp [hno op h]
    rw [h0]
    rfl

/-- Witness for C23 as amended: a solid cross wall drawn at (100,100) at the
start zoom holds 16 `SetPixel` calls. -/
theorem DrawAutomapTile_dirt_witness :
    (DrawAutomapTile samplePalette sampleState ⟨100, 100⟩
      (AutomapTypeDirt ||| AutomapTypeCross)).countP DrawOp.isSetPixel = 16 :=
  (DrawAutomapTile_dirt samplePalette sampleState ⟨100, 100⟩
    (AutomapTypeDirt ||| AutomapTypeCross) (by decide)).2.2.2.2

/-- Counterexample to C23 as stated: for the code `Dirt | Vertical` the output
of `DrawAutomapTile` holds 16 `SetPixel` calls, not 17: they are its first 16
primitives, and the only primitive after them is the wall connector. -/
theorem DrawAutomapTile_dirt_sixteen :
    (AutomapTypeDirt ||| AutomapTypeVertical) &&& AutomapTypeDirt ≠ 0
    ∧ (DrawAutomapTile samplePalette sampleState ⟨100, 100⟩
        (AutomapTypeDirt ||| AutomapTypeVertical)).countP DrawOp.isSetPixel = 16
    ∧ (DrawAutomapTile samplePalette sampleState ⟨100, 100⟩
        (AutomapTypeDirt ||| AutomapTypeVertical)).countP DrawOp.isSetPixel ≠ 17
    ∧ ((DrawAutomapTile samplePalette sampleState ⟨100, 100⟩
        (AutomapTypeDirt ||| AutomapTypeVertical)).take 16).all DrawOp.isSetPixel = true
    ∧ (DrawAutomapTile samplePalette sampleState ⟨100, 100⟩
        (AutomapTypeDirt ||| AutomapTypeVertical)).drop 16
      = [DrawOp.DrawMapLineNE ⟨84, 100⟩ 8 (MapColorsDim samplePalette)] := by
  decide

/-- The output for a shape on a cave path, with the test of the path written
out and the door glyphs as the calls of `DrawMapHorizontalDoor` and
`DrawMapVerticalDoor`. -/
theorem DrawAutomapTile_cave_blocks (pal : Palette) (s : AutomapState) (center : Point) (t : Nat) :
    ((t &&& MapTypes = AutomapTypeCaveHorizontalCross
        ∨ t &&& MapTypes = AutomapTypeCaveHorizontal
        ∨ t &&& MapTypes = AutomapTypeCaveCross) →
      DrawAutomapTile pal s center t =
        (if t &&& AutomapTypeDirt ≠ 0 then dirtPattern pal s center else [])
        ++ stairsBlock pal s center t
        ++ (if t &&& MapTypes = AutomapTypeCaveHorizontalCross then
              rightFacingBlock pal s center t else [])
        ++ (if t &&& AutomapTypeVerticalDoor ≠ 0 then
              DrawMapHorizontalDoor pal s ⟨center.x - s.AmLine16, center.y + s.AmLine8⟩
            else
              [DrawOp.DrawMapLineSE ⟨center.x - s.AmLine32, center.y⟩ s.AmLine16
                (MapColorsDim pal)])
        ++ (if t &&& MapTypes = AutomapTypeCaveCross then
              caveVerticalBlock pal s center t else []))
    ∧ ((t &&& MapTypes = AutomapTypeCaveVerticalCross
        ∨ t &&& MapTypes = AutomapTypeCaveVertical
        ∨ t &&& MapTypes = AutomapTypeCaveCross) →
      DrawAutomapTile pal s center t =
        (if t &&& AutomapTypeDirt ≠ 0 then dirtPattern pal s center else [])
        ++ stairsBlock pal s center t
        ++ (if t &&& MapTypes = AutomapTypeCaveVerticalCross then
              leftFacingBlock pal s center t else [])
        ++ (if t &&& MapTypes = AutomapTypeCaveCross then
              caveHorizontalBlock pal s center t else [])
        ++ (if t &&& AutomapTypeHorizontalDoor ≠ 0 then
              DrawMapVerticalDoor pal s ⟨center.x + s.AmLine16, center.y + s.AmLine8⟩
            else
              [DrawOp.DrawMapLineNE ⟨center.x, center.y + s.AmLine16⟩ s.AmLine16
                (MapColorsDim pal)])) := by
  constructor
  · intro hshape
    have hne : t ≠ AutomapTypeNone := by
      rcases hshape with h | h | h <;> exact shape_ne_none t _ h (by decide)
    rw [DrawAutomapTile_eq_blocks pal s center t hne]
    unfold afterDirt caveHorizontalBlock
    rcases hshape with h | h | h <;>
      simp [h, AutomapTypeVertical, AutomapTypeFenceVertical, AutomapTypeCross,
        AutomapTypeCaveHorizontalCross, AutomapTypeDiamond, AutomapTypeHorizontal,
        AutomapTypeFenceHorizontal, AutomapTypeCaveVerticalCross, AutomapTypeCaveHorizontal,
        AutomapTypeCaveCross, AutomapTypeCaveVertical]
  · intro hshape
    have hne : t ≠ AutomapTypeNone := by
      rcases hshape with h | h | h <;> exact shape_ne_none t _ h (by decide)
    rw [DrawAutomapTile_eq_blocks pal s center t hne]
    unfold afterDirt caveVerticalBlock
    rcases hshape with h | h | h <;>
      simp [h, AutomapTypeVertical, AutomapTypeFenceVertical, AutomapTypeCross,
        AutomapTypeCaveHorizontalCross, AutomapTypeDiamond, AutomapTypeHorizontal,
        AutomapTypeFenceHorizontal, AutomapTypeCaveVerticalCross, AutomapTypeCaveHorizontal,
        AutomapTypeCaveCross, AutomapTypeCaveVertical]

/-- C24. Cave axis swap: for every shape code routed through the
cave-horizontal path (base shape `CaveHorizontalCross`, `CaveHorizontal` or
`CaveCross`), `DrawAutomapTile` emits for that path either the horizontal door
glyph at `(cx - AmLine16, cy + AmLine8)` when `VerticalDoor` is set (two dim SE
segments of length `AmLine4` and the four bright lines of the diamond centred
there), or otherwise exactly one dim SE connector from `(cx - AmLine32, cy)` of
length `AmLine16`, never both, whatever the `HorizontalDoor` flag;
symmetrically the cave-vertical path (base shape `CaveVerticalCross`,
`CaveVertical` or `CaveCross`) emits either the vertical door glyph at
`(cx + AmLine16, cy + AmLine8)` when `HorizontalDoor` is set (two dim NE
segments of length `AmLine4` and the four bright lines of the diamond centred
there), or otherwise exactly one dim NE connector from `(cx, cy + AmLine16)` of
length `AmLine16`. -/
theorem DrawAutomapTile_cave_axis_swap (pal : Palette) (s : AutomapState) (center : Point)
    (t : Nat) :
    ((t &&& MapTypes = AutomapTypeCaveHorizontalCross
        ∨ t &&& MapTypes = AutomapTypeCaveHorizontal
        ∨ t &&& MapTypes = AutomapTypeCaveCross) →
      DrawAutomapTile pal s center t =
        (if t &&& AutomapTypeDirt ≠ 0 then dirtPattern pal s center else [])
        ++ stairsBlock pal s center t
        ++ (if t &&& MapTypes = AutomapTypeCaveHorizontalCross then
              rightFacingBlock pal s center t else [])
        ++ (if t &&& AutomapTypeVerticalDoor ≠ 0 then
              [ DrawOp.DrawMapLineSE
                  ⟨center.x - s.AmLine16 - s.AmLine16, center.y + s.AmLine8 - s.AmLine8⟩
                  s.AmLine4 (MapColorsDim pal),
                DrawOp.DrawMapLineSE
                  ⟨center.x - s.AmLine16 + s.AmLine8, center.y + s.AmLine8 + s.AmLine4⟩
                  s.AmLine4 (MapColorsDim pal),
                DrawOp.DrawMapLineNE ⟨center.x - s.AmLine16 - s.AmLine16, center.y + s.AmLine8⟩
                  s.AmLine8 (MapColorsBright pal),
                DrawOp.DrawMapLineSE ⟨center.x - s.AmLine16 - s.AmLine16, center.y + s.AmLine8⟩
                  s.AmLine8 (MapColorsBright pal),
                DrawOp.DrawMapLineSE ⟨center.x - s.AmLine16, center.y + s.AmLine8 - s.AmLine8⟩
                  s.AmLine8 (MapColorsBright pal),
                DrawOp.DrawMapLineNE ⟨center.x - s.AmLine16, center.y + s.AmLine8 + s.AmLine8⟩
                  s.AmLine8 (MapColorsBright pal) ]
            else
              [DrawOp.DrawMapLineSE ⟨center.x - s.AmLine32, center.y⟩ s.AmLine16
                (MapColorsDim pal)])
        ++ (if t &&& MapTypes = AutomapTypeCaveCross then
              caveVerticalBlock pal s center t else []))
    ∧ ((t &&& MapTypes = AutomapTypeCaveVerticalCross
        ∨ t &&& MapTypes = AutomapTypeCaveVertical
        ∨ t &&& MapTypes = AutomapTypeCaveCross) →
      DrawAutomapTile pal s center t =
        (if t &&& AutomapTypeDirt ≠ 0 then dirtPattern pal s center else [])
        ++ stairsBlock pal s center t
        ++ (if t &&& MapTypes = AutomapTypeCaveVerticalCross then
              leftFacingBlock pal s center t else [])
        ++ (if t &&& MapTypes = AutomapTypeCaveCross then
              caveHorizontalBlock pal s center t else [])
        ++ (if t &&& AutomapTypeHorizontalDoor ≠ 0 then
              [ DrawOp.DrawMapLineNE
                  ⟨center.x + s.AmLine16 + s.AmLine8, center.y + s.AmLine8 - s.AmLine4⟩
                  s.AmLine4 (MapColorsDim pal),
                DrawOp.DrawMapLineNE
                  ⟨center.x + s.AmLine16 - s.AmLine16, center.y + s.AmLine8 + s.AmLine8⟩
                  s.AmLine4 (MapColorsDim pal),
                DrawOp.DrawMapLineNE ⟨center.x + s.AmLine16 - s.AmLine16, center.y + s.AmLine8⟩
                  s.AmLine8 (MapColorsBright pal),
                DrawOp.DrawMapLineSE ⟨center.x + s.AmLine16 - s.AmLine16, center.y + s.AmLine8⟩
                  s.AmLine8 (MapColorsBright pal),
                DrawOp.DrawMapLineSE ⟨center.x + s.AmLine16, center.y + s.AmLine8 - s.AmLine8⟩
                  s.AmLine8 (MapColorsBright pal),
                DrawOp.DrawMapLineNE ⟨center.x + s.AmLine16, center.y + s.AmLine8 + s.AmLine8⟩
                  s.AmLine8 (MapColorsBright pal) ]
            else
              [DrawOp.DrawMapLineNE ⟨center.x, center.y + s.AmLine16⟩ s.AmLine16
                (MapColorsDim pal)])) :=
  DrawAutomapTile_cave_blocks pal s center t

/-- Witness for C24: at (100,100) at the start zoom, a cave-horizontal wall
with `VerticalDoor` is the six primitives of the horizontal door glyph around
(92,104), and one with `HorizontalDoor` is the single SE connector; a
cave-vertical wall with `HorizontalDoor` is the six primitives of the vertical
door glyph around (108,104). -/
theorem DrawAutomapTile_cave_axis_swap_witness :
    DrawAutomapTile samplePalette sampleState ⟨100, 100⟩
        (AutomapTypeVerticalDoor ||| AutomapTypeCaveHorizontal)
      = [ DrawOp.DrawMapLineSE ⟨84, 100⟩ 2 200,
          DrawOp.DrawMapLineSE ⟨96, 106⟩ 2 200,
          DrawOp.DrawMapLineNE ⟨84, 104⟩ 4 144,
          DrawOp.DrawMapLineSE ⟨84, 104⟩ 4 144,
          DrawOp.DrawMapLineSE ⟨92, 100⟩ 4 144,
          DrawOp.DrawMapLineNE ⟨92, 108⟩ 4 144 ]
    ∧ DrawAutomapTile samplePalette sampleState ⟨100, 100⟩
        (AutomapTypeHorizontalDoor ||| AutomapTypeCaveHorizontal)
      = [ DrawOp.DrawMapLineSE ⟨84, 100⟩ 8 200 ]
    ∧ DrawAutomapTile samplePalette sampleState ⟨100, 100⟩
        (AutomapTypeHorizontalDoor ||| AutomapTypeCaveVertical)
      = [ DrawOp.DrawMapLineNE ⟨112, 102⟩ 2 200,
          DrawOp.DrawMapLineNE ⟨100, 108⟩ 2 200,
          DrawOp.DrawMapLineNE ⟨100, 104⟩ 4 144,
          DrawOp.DrawMapLineSE ⟨100, 104⟩ 4 144,
          DrawOp.DrawMapLineSE ⟨108, 100⟩ 4 144,
          DrawOp.DrawMapLineNE ⟨108, 108⟩ 4 144 ] :=
  ⟨((DrawAutomapTile_cave_axis_swap samplePalette sampleState ⟨100, 100⟩
      (AutomapTypeVerticalDoor ||| AutomapTypeCaveHorizontal)).1
        (Or.inr (Or.inl (by decide)))).trans (by decide),
    ((DrawAutomapTile_cave_axis_swap samplePalette sampleState ⟨100, 100⟩
      (AutomapTypeHorizontalDoor ||| AutomapTypeCaveHorizontal)).1
        (Or.inr (Or.inl (by decide)))).trans (by decide),
    ((DrawAutomapTile_cave_axis_swap samplePalette sampleState ⟨100, 100⟩
      (AutomapTypeHorizontalDoor ||| AutomapTypeCaveVertical)).2
        (Or.inr (Or.inl (by decide)))).trans (by decide)⟩

/-! ## Visible window -/

/-- C25, as amended. Visible-window size: with `d = AutoMapScale*64/100` and
`h = gnScreenWidth/2`, `DrawAutomap` computes `cells = 2*(h/d) + 1`, plus 1
when `h` is not an exact multiple of `d`, plus 1 when the remainder `h % d` is
at least `AutoMapScale*32/100`, plus 1 when the sum `deltaX + deltaY` of the
local player's walking offset is non-zero; `d` is at least 32, so non-zero,
for every scale in `[50,200]`, and the divisions are defined. -/
theorem DrawAutomapCells_formula (gnScreenWidth : Int) (myPlayerOffset : Displacement) (s : AutomapState)
    (hscale : 50 ≤ s.AutoMapScale ∧ s.AutoMapScale ≤ 200) :
    DrawAutomapCells gnScreenWidth myPlayerOffset s
      = 2 * Int.tdiv (Int.tdiv gnScreenWidth 2) (Int.tdiv (s.AutoMapScale * 64) 100) + 1
        + (if Int.tmod (Int.tdiv gnScreenWidth 2) (Int.tdiv (s.AutoMapScale * 64) 100) ≠ 0
            then 1 else 0)
        + (if Int.tmod (Int.tdiv gnScreenWidth 2) (Int.tdiv (s.AutoMapScale * 64) 100)
              ≥ Int.tdiv (s.AutoMapScale * 32) 100 then 1 else 0)
        + (if myPlayerOffset.deltaX + myPlayerOffset.deltaY ≠ 0 then 1 else 0)
    ∧ 32 ≤ Int.tdiv (s.AutoMapScale * 64) 100
    ∧ Int.tdiv (s.AutoMapScale * 64) 100 ≠ 0 := by
  have hd : Int.tdiv (s.AutoMapScale * 64) 100 = s.AutoMapScale * 64 / 100 :=
    Int.tdiv_eq_ediv (by omega) (by decide)
  refine ⟨?_, ?_, ?_⟩
  · unfold DrawAutomapCells
    simp only
    split_ifs <;> omega
  · rw [hd]; omega
  · rw [hd]; omega

/-- Witness for C25 as amended: the start zoom on an 800 pixel wide screen with
no walking offset. -/
theorem DrawAutomapCells_formula_witness :
    DrawAutomapCells 800 ⟨0, 0⟩ sampleState = 27
    ∧ 32 ≤ Int.tdiv (sampleState.AutoMapScale * 64) 100 :=
  ⟨(DrawAutomapCells_formula 800 ⟨0, 0⟩ sampleState (by decide)).1.trans (by decide),
    (DrawAutomapCells_formula 800 ⟨0, 0⟩ sampleState (by decide)).2.1⟩

/-- Counterexample to C25 as stated, at the start zoom (`d = 32`). On an 800
pixel wide screen with no walking offset the code computes 27 cells, the
claimed formula 26: the remainder `400 % 32 = 16` reaches `AutoMapScale*32/100
= 16`. On a 640 pixel wide screen with walking offset `(4, -4)` the code
computes 21 cells, the claimed formula 22: the offset is not `(0,0)` but its
sum is zero. -/
theorem DrawAutomapCells_extra_cell :
    (50 ≤ sampleState.AutoMapScale ∧ sampleState.AutoMapScale ≤ 200)
    ∧ DrawAutomapCells 800 ⟨0, 0⟩ sampleState = 27
    ∧ 2 * Int.tdiv (Int.tdiv 800 2) (Int.tdiv (sampleState.AutoMapScale * 64) 100) + 1
        + (if Int.tmod (Int.tdiv 800 2) (Int.tdiv (sampleState.AutoMapScale * 64) 100) ≠ 0
            then 1 else 0)
        + (if ((0 : Int), (0 : Int)) ≠ (0, 0) then 1 else 0) = (26 : Int)
    ∧ DrawAutomapCells 640 ⟨4, -4⟩ sampleState = 21
    ∧ 2 * Int.tdiv (Int.tdiv 640 2) (Int.tdiv (sampleState.AutoMapScale * 64) 100) + 1
        + (if Int.tmod (Int.tdiv 640 2) (Int.tdiv (sampleState.AutoMapScale * 64) 100) ≠ 0
            then 1 else 0)
        + (if ((4 : Int), (-4 : Int)) ≠ (0, 0) then 1 else 0) = (22 : Int) := by
  decide

/-! ## Bounds of the exploration grid writes -/

theorem RevealedInGrid_refl (lv : Level) (s0 : AutomapState) : RevealedInGrid lv s0 s0 :=
  ⟨rfl, fun _ _ h => Or.inl h⟩

theorem RevealedInGrid_reveal (lv : Level) (s0 s : AutomapState) (a b : Int)
    (hs : RevealedInGrid lv s0 s)
    (hab : (0 ≤ a ∧ a < lv.DMAXX) ∧ (0 ≤ b ∧ b < lv.DMAXY)) :
    RevealedInGrid lv s0 (reveal s a b) := by
  refine ⟨hs.1, ?_⟩
  intro i j h
  by_cases hij : i = a ∧ j = b
  · right
    rw [hij.1, hij.2]
    exact hab
  · simp only [reveal, hij, if_false] at h
    exact hs.2 i j h

theorem RevealedInGrid_ite (lv : Level) (s0 A B : AutomapState) (c : Prop) [Decidable c]
    (hA : c → RevealedInGrid lv s0 A) (hB : ¬ c → RevealedInGrid lv s0 B) :
    RevealedInGrid lv s0 (if c then A else B) := by
  split_ifs with h
  · exact hA h
  · exact hB h

theorem inGrid_of_exact (lv : Level) (tbl : Nat → Nat) (a b : Int)
    (hdim : lv.DMAXX ≤ lv.DMAXY)
    (h : GetAutomapType lv tbl ⟨a, b⟩ = AutomapTypeDirt ||| AutomapTypeCorner) :
    (0 ≤ a ∧ a < lv.DMAXX) ∧ (0 ≤ b ∧ b < lv.DMAXY) := by
  have hr := GetAutomapType_ne_none_range lv tbl ⟨a, b⟩ (by rw [h]; decide)
  simp only at hr
  omega

theorem inGrid_of_flag (lv : Level) (tbl : Nat → Nat) (a b : Int) (type : Nat)
    (hdim : lv.DMAXX ≤ lv.DMAXY)
    (h : HasAutomapType lv tbl ⟨a, b⟩ type = true) :
    (0 ≤ a ∧ a < lv.DMAXX) ∧ (0 ≤ b ∧ b < lv.DMAXY) := by
  have hr := GetAutomapType_ne_none_range lv tbl ⟨a, b⟩ (HasAutomapType_ne_none lv _ _ _ h)
  simp only at hr
  omega

/-- Every `reveal` of `SetAutomapView` is at the macro-tile, which passed the
range check, or at a neighbour on which `GetAutomapType` or `HasAutomapType`
returned a shape other than `None`. -/
theorem SetAutomapView_RevealedInGrid (lv : Level) (tile : Point) (s : AutomapState)
    (hdim : lv.DMAXX ≤ lv.DMAXY) : RevealedInGrid lv s (SetAutomapView lv tile s) := by
  by_cases hr : (tile.x - 16).tdiv 2 < 0 ∨ (tile.x - 16).tdiv 2 ≥ lv.DMAXX
      ∨ (tile.y - 16).tdiv 2 < 0 ∨ (tile.y - 16).tdiv 2 ≥ lv.DMAXY
  · rw [SetAutomapView_outside lv tile s hr]
    exact RevealedInGrid_refl lv s
  · unfold SetAutomapView
    simp only [hr, if_false, apply_ite AutomapState.AutomapTypeData, reveal_AutomapTypeData,
      ite_self]
    have hin : (0 ≤ (tile.x - 16).tdiv 2 ∧ (tile.x - 16).tdiv 2 < lv.DMAXX)
        ∧ (0 ≤ (tile.y - 16).tdiv 2 ∧ (tile.y - 16).tdiv 2 < lv.DMAXY) := by omega
    generalize (tile.x - 16).tdiv 2 = mx at hin ⊢
    generalize (tile.y - 16).tdiv 2 = my at hin ⊢
    repeat' first
      | exact RevealedInGrid_refl lv s
      | exact hin
      | (apply inGrid_of_exact lv s.AutomapTypeData _ _ hdim; assumption)
      | (apply inGrid_of_flag lv s.AutomapTypeData _ _ AutomapTypeDirt hdim; assumption)
      | (apply RevealedInGrid_ite <;> intro _)
      | apply RevealedInGrid_reveal

/-- C26. `SetAutomapView` stays in bounds, provided `DMAXX ≤ DMAXY` (the
lookup checks both coordinates against `DMAXX`): for every dungeon tile, every
dungeon grid and every classification table, the cells that `SetAutomapView`
writes, which are the cells explored after a run on the blank grid, have
indices inside `[0,DMAXX) × [0,DMAXY)`; no cell outside that rectangle changes;
and the grid after a run is the grid before with the written cells set. -/
theorem SetAutomapView_in_bounds (lv : Level) (tile : Point) (s : AutomapState)
    (hdim : lv.DMAXX ≤ lv.DMAXY) :
    (∀ i j : Int,
        (SetAutomapView lv tile { s with AutomapView := fun _ _ => false }).AutomapView i j
          = true →
        (0 ≤ i ∧ i < lv.DMAXX) ∧ (0 ≤ j ∧ j < lv.DMAXY))
    ∧ (∀ i j : Int, ¬ ((0 ≤ i ∧ i < lv.DMAXX) ∧ (0 ≤ j ∧ j < lv.DMAXY)) →
        (SetAutomapView lv tile s).AutomapView i j = s.AutomapView i j)
    ∧ SetAutomapView lv tile s = addMask s
        (SetAutomapView lv tile { s with AutomapView := fun _ _ => false }).AutomapView := by
  have h1 : ∀ i j : Int,
      (SetAutomapView lv tile { s with AutomapView := fun _ _ => false }).AutomapView i j
        = true →
      (0 ≤ i ∧ i < lv.DMAXX) ∧ (0 ≤ j ∧ j < lv.DMAXY) := by
    intro i j h
    rcases (SetAutomapView_RevealedInGrid lv tile
      { s with AutomapView := fun _ _ => false } hdim).2 i j h with hf | hin
    · exact absurd hf (by simp)
    · exact hin
  refine ⟨h1, ?_, SetAutomapView_eq_addMask lv tile s⟩
  intro i j hout
  rw [SetAutomapView_eq_addMask lv tile s]
  have hm : (SetAutomapView lv tile { s with AutomapView := fun _ _ => false }).AutomapView
      i j = false := by
    by_contra hne
    exact hout (h1 i j (by simpa using hne))
  simp only [addMask, hm, Bool.false_or]

/-- Witness for C26: revealing dungeon tile (18,18) of the sample level writes
the macro-tile (1,1), which lies inside the 40 × 40 grid. -/
theorem SetAutomapView_in_bounds_witness :
    (SetAutomapView sampleLevel ⟨18, 18⟩
        { sampleState with AutomapView := fun _ _ => false }).AutomapView 1 1 = true
    ∧ (((0 : Int) ≤ 1 ∧ (1 : Int) < sampleLevel.DMAXX)
      ∧ ((0 : Int) ≤ 1 ∧ (1 : Int) < sampleLevel.DMAXY)) :=
  ⟨SetAutomapView_marks sampleLevel ⟨18, 18⟩ _ (by decide),
    (SetAutomapView_in_bounds sampleLevel ⟨18, 18⟩ sampleState (by decide)).1 1 1
      (SetAutomapView_marks sampleLevel ⟨18, 18⟩ _ (by decide))⟩

/-! ## Non-recursive form of the lookup -/

/-- Inside the window the code checks, a flag outside the low nibble is read
from the raw table entry: the corner merge only swaps `Corner` for `Diamond`,
and neither carries a flag. -/
theorem GetAutomapType_land_flag (lv : Level) (tbl : Nat → Nat) (map : Point) (flag : Nat)
    (hC : AutomapTypeCorner &&& flag = 0) (hD : AutomapTypeDiamond &&& flag = 0)
    (hx : 0 ≤ map.x ∧ map.x < lv.DMAXX) (hy : 0 ≤ map.y ∧ map.y < lv.DMAXX) :
    GetAutomapType lv tbl map &&& flag = tbl (lv.dungeon map.x map.y) &&& flag := by
  have hx' : ¬ (map.x < 0 ∨ map.x ≥ lv.DMAXX) := by omega
  have hy' : ¬ (map.y < 0 ∨ map.y ≥ lv.DMAXX) := by omega
  rw [GetAutomapType]
  simp only [hx', hy', dite_false]
  by_cases hc : tbl (lv.dungeon map.x map.y) = AutomapTypeCorner
  · simp only [hc, if_true]
    split_ifs <;> simp only [hC, hD]
  · simp only [hc, if_false]

/-- `HasAutomapType` for an arch flag reads the raw table entry of a tile inside
the window the code checks. -/
theorem HasAutomapType_eq_raw (lv : Level) (tbl : Nat → Nat) (map : Point) (flag : Nat)
    (hC : AutomapTypeCorner &&& flag = 0) (hD : AutomapTypeDiamond &&& flag = 0) :
    HasAutomapType lv tbl map flag = true ↔
      ((0 ≤ map.x ∧ map.x < lv.DMAXX) ∧ (0 ≤ map.y ∧ map.y < lv.DMAXX))
        ∧ tbl (lv.dungeon map.x map.y) &&& flag ≠ 0 := by
  constructor
  · intro h
    have hr := GetAutomapType_ne_none_range lv tbl map (HasAutomapType_ne_none lv _ _ _ h)
    refine ⟨hr, ?_⟩
    rw [HasAutomapType, GetAutomapType_land_flag lv tbl map flag hC hD hr.1 hr.2] at h
    simpa using h
  · rintro ⟨hr, h⟩
    rw [HasAutomapType, GetAutomapType_land_flag lv tbl map flag hC hD hr.1 hr.2]
    simpa using h

/-- C27. `GetAutomapType` equals a non-recursive definition, provided
`DMAXY ≤ DMAXX` (the code checks both coordinates against `DMAXX`): for every
in-range coordinate, the result is the raw table entry
`AutomapTypeData[dungeon[x][y]]` unless that entry is exactly `Corner`, the raw
entry of `(x-1,y)` (if in range) has `HorizontalArch` and the raw entry of
`(x,y-1)` (if in range) has `VerticalArch`, in which case it is `Diamond`; the
mutual recursion with `HasAutomapType` terminates (both are total functions
here, by a decreasing measure), and the modifier flags (high byte) of
`GetAutomapType` equal those of the raw entry. -/
theorem GetAutomapType_eq_nonrecursive (lv : Level) (tbl : Nat → Nat) (map : Point) (hdim : lv.DMAXY ≤ lv.DMAXX)
    (hx : 0 ≤ map.x ∧ map.x < lv.DMAXX) (hy : 0 ≤ map.y ∧ map.y < lv.DMAXY) :
    GetAutomapType lv tbl map = GetAutomapTypeNonRecursive lv tbl map
    ∧ GetAutomapType lv tbl map &&& 0xFF00 = tbl (lv.dungeon map.x map.y) &&& 0xFF00 := by
  have hx' : ¬ (map.x < 0 ∨ map.x ≥ lv.DMAXX) := by omega
  have hy' : ¬ (map.y < 0 ∨ map.y ≥ lv.DMAXX) := by omega
  have a1 : map.y < lv.DMAXX := by omega
  have a2 : map.x - 1 < lv.DMAXX := by omega
  have a3 : map.y - 1 < lv.DMAXX := by omega
  have a4 : map.y - 1 < lv.DMAXY := by omega
  constructor
  · have hW := HasAutomapType_eq_raw lv tbl ⟨map.x - 1, map.y⟩ AutomapTypeHorizontalArch
      (by decide) (by decide)
    have hN := HasAutomapType_eq_raw lv tbl ⟨map.x, map.y - 1⟩ AutomapTypeVerticalArch
      (by decide) (by decide)
    simp only at hW hN
    rw [GetAutomapType]
    unfold GetAutomapTypeNonRecursive
    simp only [hx', hy', dite_false, hW, hN, hx.1, hx.2, hy.1, hy.2, a1, a2, a3, a4, true_and,
      and_true]
    by_cases hc : tbl (lv.dungeon map.x map.y) = AutomapTypeCorner
    · simp only [hc, if_true, true_and]
      simp only [and_assoc, ite_and]
    · simp only [hc, if_false, false_and]
  · have c1 : AutomapTypeCorner &&& 0xFF00 = 0 := by decide
    have c2 : AutomapTypeDiamond &&& 0xFF00 = 0 := by decide
    exact GetAutomapType_land_flag lv tbl map 0xFF00 c1 c2 hx (by omega)

/-- Witness for C27: the plain corner at (5,5) of the sample level. -/
theorem GetAutomapType_eq_nonrecursive_witness :
    GetAutomapType sampleLevel sampleTable ⟨5, 5⟩
      = GetAutomapTypeNonRecursive sampleLevel sampleTable ⟨5, 5⟩
    ∧ GetAutomapType sampleLevel sampleTable ⟨5, 5⟩ &&& 0xFF00
      = sampleTable (sampleLevel.dungeon 5 5) &&& 0xFF00 :=
  GetAutomapType_eq_nonrecursive sampleLevel sampleTable ⟨5, 5⟩ (by decide) (by decide)
    (by decide)

/-! ## Quest log -/

/-- `calculateLayout` leaves the quest list and its two counters alone. -/
theorem calculateLayout_list (q : QuestBookPimpl) :
    (QuestBookPimpl.calculateLayout q).qlist = q.qlist
    ∧ (QuestBookPimpl.calculateLayout q).qlistCnt = q.qlistCnt
    ∧ (QuestBookPimpl.calculateLayout q).firstFinishedEntry = q.firstFinishedEntry := by
  unfold QuestBookPimpl.calculateLayout
  simp only
  split_ifs <;> exact ⟨rfl, rfl, rfl⟩

/-- The invariant holds after `open()`. -/
theorem open_QuestLogInvariant (questBookOrder : Int → Int) (Quests : List Quest)
    (q : QuestBookPimpl) :
    QuestLogInvariant Quests (QuestBookPimpl.open_ questBookOrder Quests q) := by
  obtain ⟨h1, h2, h3⟩ := calculateLayout_list
    (QuestBookPimpl.selectQuestsToDislay questBookOrder Quests q)
  have e1 : (QuestBookPimpl.open_ questBookOrder Quests q).qlist
      = (QuestBookPimpl.calculateLayout
          (QuestBookPimpl.selectQuestsToDislay questBookOrder Quests q)).qlist := rfl
  have e2 : (QuestBookPimpl.open_ questBookOrder Quests q).qlistCnt
      = (QuestBookPimpl.calculateLayout
          (QuestBookPimpl.selectQuestsToDislay questBookOrder Quests q)).qlistCnt := rfl
  have e3 : (QuestBookPimpl.open_ questBookOrder Quests q).firstFinishedEntry
      = (QuestBookPimpl.calculateLayout
          (QuestBookPimpl.selectQuestsToDislay questBookOrder Quests q)).firstFinishedEntry :=
    rfl
  have e4 : (QuestBookPimpl.open_ questBookOrder Quests q).selectedEntry
      = if (QuestBookPimpl.calculateLayout
          (QuestBookPimpl.selectQuestsToDislay questBookOrder Quests q)).firstFinishedEntry = 0
        then (QuestBookPimpl.calculateLayout
          (QuestBookPimpl.selectQuestsToDislay questBookOrder Quests q)).qlistCnt
        else 0 := rfl
  rw [h1] at e1
  rw [h2] at e2 e4
  rw [h3] at e3 e4
  unfold QuestBookPimpl.selectQuestsToDislay QuestBookPimpl.sort at e1 e2 e3 e4
  simp only at e1 e2 e3 e4
  constructor
  · refine ⟨_, _, ?_, e1, ?_, ?_⟩
    · intro a ha
      rw [(List.perm_insertionSort _ _).mem_iff] at ha
      obtain ⟨quest, hq, rfl⟩ := List.mem_map.1 ha
      rw [List.mem_filter] at hq
      have h2 := hq.2
      simp only [decide_eq_true_eq] at h2
      exact ⟨quest, hq.1, h2.1, h2.2, rfl⟩
    · rw [e2]
      simp only [List.length_insertionSort]
    · rw [e3]
      simp only [List.length_insertionSort]
  · rw [e4, e3, e2]
    split_ifs <;> omega

theorem selectionUp_QuestLogInvariant (Quests : List Quest) (q : QuestBookPimpl)
    (h : QuestLogInvariant Quests q) :
    QuestLogInvariant Quests (QuestBookPimpl.selectionUp q) := by
  obtain ⟨⟨active, finished, hact, hl, hc, hf⟩, hsel⟩ := h
  unfold QuestBookPimpl.selectionUp
  split_ifs
  all_goals refine ⟨⟨active, finished, hact, hl, hc, hf⟩, ?_⟩
  all_goals try simp only
  all_goals rcases hsel with hs | hs <;> first | (left; omega) | (right; omega) | (right; trivial)

theorem selectionDown_QuestLogInvariant (Quests : List Quest) (q : QuestBookPimpl)
    (h : QuestLogInvariant Quests q) :
    QuestLogInvariant Quests (QuestBookPimpl.selectionDown q) := by
  obtain ⟨⟨active, finished, hact, hl, hc, hf⟩, hsel⟩ := h
  unfold QuestBookPimpl.selectionDown
  by_cases h0 : q.qlistCnt ≠ 0
  · by_cases h1 : q.selectedEntry = q.qlistCnt
    · simp only [h0, h1, if_true]
      split_ifs
      all_goals refine ⟨⟨active, finished, hact, hl, hc, hf⟩, ?_⟩
      all_goals try simp only
      all_goals rcases hsel with hs | hs <;> first | (left; omega) | (right; omega) | (right; trivial)
    · simp only [h0, h1, if_true, if_false]
      split_ifs
      all_goals refine ⟨⟨active, finished, hact, hl, hc, hf⟩, ?_⟩
      all_goals try simp only
      all_goals rcases hsel with hs | hs <;> first | (left; omega) | (right; omega) | (right; trivial)
  · simp only [h0, if_false]
    exact ⟨⟨active, finished, hact, hl, hc, hf⟩, hsel⟩

/-- Each selection key keeps the invariant. -/
theorem step_QuestLogInvariant (Quests : List Quest) (k : QuestLogKey) (q : QuestBookPimpl)
    (h : QuestLogInvariant Quests q) : QuestLogInvariant Quests (k.step q) := by
  cases k
  · exact selectionUp_QuestLogInvariant Quests q h
  · exact selectionDown_QuestLogInvariant Quests q h

theorem foldl_QuestLogInvariant (Quests : List Quest) (keys : List QuestLogKey) :
    ∀ q : QuestBookPimpl, QuestLogInvariant Quests q →
      QuestLogInvariant Quests (keys.foldl (fun st k => k.step st) q) := by
  induction keys with
  | nil => intro q h; exact h
  | cons k ks ih =>
    intro q h
    exact ih _ (step_QuestLogInvariant Quests k q h)

/-- What the invariant says about the selection and about the read of
`playEntry`. -/
theorem QuestLogInvariant_playEntry (Quests : List Quest) (r : QuestBookPimpl)
    (h : QuestLogInvariant Quests r) :
    ((0 ≤ r.selectedEntry ∧ r.selectedEntry < r.firstFinishedEntry)
        ∨ r.selectedEntry = r.qlistCnt)
    ∧ ¬ (r.firstFinishedEntry ≤ r.selectedEntry ∧ r.selectedEntry < r.qlistCnt)
    ∧ (0 ≤ r.firstFinishedEntry ∧ r.firstFinishedEntry ≤ r.qlistCnt
        ∧ r.qlistCnt = (r.qlist.length : Int))
    ∧ ∀ i : Int, (QuestBookPimpl.playEntry r).1 = some i →
        (0 ≤ i ∧ i < r.firstFinishedEntry)
        ∧ ∃ quest ∈ Quests, quest._qactive = quest_state.QUEST_ACTIVE ∧ quest._qlog = true
            ∧ r.qlist[i.toNat]? = some quest._qidx := by
  obtain ⟨⟨active, finished, hact, hl, hc, hf⟩, hsel⟩ := h
  refine ⟨hsel, by omega, ⟨by omega, by omega, ?_⟩, ?_⟩
  · rw [hl, List.length_append, hc]
    push_cast
    rfl
  · intro i hi
    unfold QuestBookPimpl.playEntry at hi
    simp only at hi
    split_ifs at hi with hcond
    have hi' : r.selectedEntry = i := Option.some.inj hi
    have hr : 0 ≤ i ∧ i < r.firstFinishedEntry := by omega
    refine ⟨hr, ?_⟩
    have hlt : i.toNat < active.length := by omega
    obtain ⟨quest, hq, ha, hlog, hidx⟩ := hact (active.get ⟨i.toNat, hlt⟩) (List.get_mem _ _ _)
    refine ⟨quest, hq, ha, hlog, ?_⟩
    rw [hl, List.getElem?_append_left hlt, hidx, List.getElem?_eq_getElem hlt]
    rfl

/-- C28. Quest-log selection invariant: after `QuestBookPimpl::open`, and after
any sequence of `selectionUp` and `selectionDown`, `selectedEntry` is either an
index of an active quest (`0 ≤ selectedEntry < firstFinishedEntry`) or equals
`qlistCnt` (the line that closes the log); it never points at a finished quest
(an index in `[firstFinishedEntry, qlistCnt)`), so `playEntry` indexes `qlist`
only at an index in `[0, firstFinishedEntry)`, inside the written part of the
list, where the entry is the index of an active logged quest. -/
theorem runQuestLog_selection (questBookOrder : Int → Int) (Quests : List Quest) (q : QuestBookPimpl)
    (keys : List QuestLogKey) :
    ((0 ≤ (runQuestLog questBookOrder Quests q keys).selectedEntry
        ∧ (runQuestLog questBookOrder Quests q keys).selectedEntry
          < (runQuestLog questBookOrder Quests q keys).firstFinishedEntry)
      ∨ (runQuestLog questBookOrder Quests q keys).selectedEntry
          = (runQuestLog questBookOrder Quests q keys).qlistCnt)
    ∧ ¬ ((runQuestLog questBookOrder Quests q keys).firstFinishedEntry
          ≤ (runQuestLog questBookOrder Quests q keys).selectedEntry
        ∧ (runQuestLog questBookOrder Quests q keys).selectedEntry
          < (runQuestLog questBookOrder Quests q keys).qlistCnt)
    ∧ (0 ≤ (runQuestLog questBookOrder Quests q keys).firstFinishedEntry
        ∧ (runQuestLog questBookOrder Quests q keys).firstFinishedEntry
          ≤ (runQuestLog questBookOrder Quests q keys).qlistCnt
        ∧ (runQuestLog questBookOrder Quests q keys).qlistCnt
          = ((runQuestLog questBookOrder Quests q keys).qlist.length : Int))
    ∧ ∀ i : Int,
        (QuestBookPimpl.playEntry (runQuestLog questBookOrder Quests q keys)).1 = some i →
        (0 ≤ i ∧ i < (runQuestLog questBookOrder Quests q keys).firstFinishedEntry)
        ∧ ∃ quest ∈ Quests, quest._qactive = quest_state.QUEST_ACTIVE ∧ quest._qlog = true
            ∧ (runQuestLog questBookOrder Quests q keys).qlist[i.toNat]? = some quest._qidx :=
  QuestLogInvariant_playEntry Quests _
    (foldl_QuestLogInvariant Quests keys _ (open_QuestLogInvariant questBookOrder Quests q))

/-- Witness for C28: the sample quests, opened and moved down, down, up; the
selection is then the second active quest, which `playEntry` reads. -/
theorem runQuestLog_selection_witness :
    (QuestBookPimpl.playEntry (runQuestLog sampleQuestBookOrder sampleQuests sampleQuestBook
        [QuestLogKey.Down, QuestLogKey.Down, QuestLogKey.Up])).1 = some 1
    ∧ ((0 : Int) ≤ 1 ∧ (1 : Int) < (runQuestLog sampleQuestBookOrder sampleQuests sampleQuestBook
        [QuestLogKey.Down, QuestLogKey.Down, QuestLogKey.Up]).firstFinishedEntry)
    ∧ ∃ quest ∈ sampleQuests, quest._qactive = quest_state.QUEST_ACTIVE ∧ quest._qlog = true
        ∧ (runQuestLog sampleQuestBookOrder sampleQuests sampleQuestBook
            [QuestLogKey.Down, QuestLogKey.Down, QuestLogKey.Up]).qlist[(1 : Int).toNat]?
          = some quest._qidx :=
  ⟨by decide, (runQuestLog_selection sampleQuestBookOrder sampleQuests sampleQuestBook
      [QuestLogKey.Down, QuestLogKey.Down, QuestLogKey.Up]).2.2.2 1 (by decide)⟩

/-- C29. Quest-log layout fits the panel: for every `qlistCnt` from 1 to 24
(`MAXQUESTS`), `calculateLayout` yields `topY ≥ 0` and `lineSpacing ≥ 11` (and
`lineHeight ≤ lineSpacing ≤ maxSpacing` when `qlistCnt < 21`) such that the
bottom of the last quest line,
`topY + (qlistCnt-1)*lineSpacing + act2finSpacing + lineHeight`, does not
exceed `closeY`, which is `defaultCloseY`: the list never overlaps the line
that closes the log. -/
theorem calculateLayout_fits (q : QuestBookPimpl) (hn : 1 ≤ q.qlistCnt ∧ q.qlistCnt ≤ 24) :
    (QuestBookPimpl.calculateLayout q).topY ≥ 0
    ∧ (QuestBookPimpl.calculateLayout q).lineSpacing ≥ 11
    ∧ (q.qlistCnt < 21 →
        QuestBookPimpl.lineHeight ≤ (QuestBookPimpl.calculateLayout q).lineSpacing
        ∧ (QuestBookPimpl.calculateLayout q).lineSpacing ≤ QuestBookPimpl.maxSpacing)
    ∧ (QuestBookPimpl.calculateLayout q).topY
        + (q.qlistCnt - 1) * (QuestBookPimpl.calculateLayout q).lineSpacing
        + (QuestBookPimpl.calculateLayout q).act2finSpacing + QuestBookPimpl.lineHeight
      ≤ (QuestBookPimpl.calculateLayout q).closeY
    ∧ (QuestBookPimpl.calculateLayout q).closeY = QuestBookPimpl.defaultCloseY
    ∧ (QuestBookPimpl.calculateLayout q).qlistCnt = q.qlistCnt := by
  obtain ⟨h1, h2⟩ := hn
  unfold QuestBookPimpl.calculateLayout
  interval_cases h : q.qlistCnt <;> norm_num [h] <;> decide

/-- Witness for C29: with 24 entries the list starts at `topY = 3` and its last
line ends above `closeY`. -/
theorem calculateLayout_fits_witness :
    (QuestBookPimpl.calculateLayout { sampleQuestBook with qlistCnt := 24 }).topY = 3
    ∧ (QuestBookPimpl.calculateLayout { sampleQuestBook with qlistCnt := 24 }).topY
        + (24 - 1) * (QuestBookPimpl.calculateLayout { sampleQuestBook with qlistCnt := 24 }).lineSpacing
        + (QuestBookPimpl.calculateLayout { sampleQuestBook with qlistCnt := 24 }).act2finSpacing
        + QuestBookPimpl.lineHeight
      ≤ (QuestBookPimpl.calculateLayout { sampleQuestBook with qlistCnt := 24 }).closeY :=
  ⟨by decide, (calculateLayout_fits { sampleQuestBook with qlistCnt := 24 } (by decide)).2.2.2.1⟩

/-! ## Text rendering -/

/-- The quotient `(o + k - 1) / k` of the code is the ceiling of `o / k`: it is
the least `r` with `o ≤ r * k`. -/
theorem spacingRedux_bounds (o k : Int) (ho : 0 < o) (hk : 0 < k) :
    (Int.tdiv (o + k - 1) k - 1) * k < o ∧ o ≤ Int.tdiv (o + k - 1) k * k := by
  rw [Int.tdiv_eq_ediv (by omega) (by omega)]
  have h1 := Int.ediv_add_emod (o + k - 1) k
  have h2 := Int.emod_nonneg (o + k - 1) (by omega : k ≠ 0)
  have h3 := Int.emod_lt_of_pos (o + k - 1) hk
  have h4 : (o + k - 1) / k * k = k * ((o + k - 1) / k) := Int.mul_comm _ _
  have h5 : ((o + k - 1) / k - 1) * k = k * ((o + k - 1) / k) - k := by ring
  rw [h5, h4]
  generalize k * ((o + k - 1) / k) = P at *
  omega

/-- C30. Kerning fit: for every `lineWidth`, `maxSpacing`, `availableWidth` and
`charactersInLine ≥ 2` with `lineWidth > availableWidth`,
`AdjustSpacingToFitHorizontally` reduces the spacing by
`r = ceil((lineWidth - availableWidth)/(charactersInLine - 1))` (the ceiling of
the rational quotient): it returns `maxSpacing - r` and updates `lineWidth` to
`lineWidth - r*(charactersInLine - 1)`, which is `≤ availableWidth`, with `r`
the least reduction achieving that; when `lineWidth ≤ availableWidth` or
`charactersInLine < 2` it returns `maxSpacing` and leaves `lineWidth`
unchanged. -/
theorem AdjustSpacingToFitHorizontally_fit (lineWidth maxSpacing charactersInLine availableWidth : Int) :
    ((2 ≤ charactersInLine ∧ availableWidth < lineWidth) →
      maxSpacing
          - (AdjustSpacingToFitHorizontally lineWidth maxSpacing charactersInLine
              availableWidth).1
        = ⌈((lineWidth - availableWidth : Int) : ℚ) / ((charactersInLine - 1 : Int) : ℚ)⌉
      ∧ (AdjustSpacingToFitHorizontally lineWidth maxSpacing charactersInLine
            availableWidth).2
        = lineWidth
          - (maxSpacing - (AdjustSpacingToFitHorizontally lineWidth maxSpacing
              charactersInLine availableWidth).1) * (charactersInLine - 1)
      ∧ (AdjustSpacingToFitHorizontally lineWidth maxSpacing charactersInLine
            availableWidth).2 ≤ availableWidth
      ∧ ∀ r : Int, lineWidth - r * (charactersInLine - 1) ≤ availableWidth →
          maxSpacing - (AdjustSpacingToFitHorizontally lineWidth maxSpacing charactersInLine
            availableWidth).1 ≤ r)
    ∧ ((lineWidth ≤ availableWidth ∨ charactersInLine < 2) →
        AdjustSpacingToFitHorizontally lineWidth maxSpacing charactersInLine availableWidth
          = (maxSpacing, lineWidth)) := by
  constructor
  · rintro ⟨hc, hw⟩
    have hk : 0 < charactersInLine - 1 := by omega
    have ho : 0 < lineWidth - availableWidth := by omega
    obtain ⟨hlo, hhi⟩ := spacingRedux_bounds (lineWidth - availableWidth)
      (charactersInLine - 1) ho hk
    have he : lineWidth - availableWidth + (charactersInLine - 1) - 1
        = lineWidth - availableWidth + charactersInLine - 2 := by ring
    rw [he] at hlo hhi
    have hcond : ¬ (lineWidth ≤ availableWidth ∨ charactersInLine < 2) := by omega
    have hres : AdjustSpacingToFitHorizontally lineWidth maxSpacing charactersInLine
        availableWidth
        = (maxSpacing - Int.tdiv (lineWidth - availableWidth + charactersInLine - 2)
              (charactersInLine - 1),
            lineWidth - Int.tdiv (lineWidth - availableWidth + charactersInLine - 2)
              (charactersInLine - 1) * (charactersInLine - 1)) := by
      unfold AdjustSpacingToFitHorizontally
      simp only [hcond, if_false]
    rw [hres]
    simp only [sub_sub_cancel]
    generalize Int.tdiv (lineWidth - availableWidth + charactersInLine - 2)
      (charactersInLine - 1) = R at hlo hhi
    refine ⟨?_, trivial, by omega, ?_⟩
    · symm
      rw [Int.ceil_eq_iff]
      have hkq : (0 : ℚ) < ((charactersInLine - 1 : Int) : ℚ) := by exact_mod_cast hk
      constructor
      · rw [lt_div_iff₀ hkq]
        exact_mod_cast hlo
      · rw [div_le_iff₀ hkq]
        exact_mod_cast hhi
    · intro r hr
      by_contra hlt
      have h1 : r ≤ R - 1 := by omega
      have h2 := Int.mul_le_mul_of_nonneg_right h1 (le_of_lt hk)
      omega
  · intro h
    unfold AdjustSpacingToFitHorizontally
    simp only [h, if_true]

/-- Witness for C30: six characters, 110 wide, in 100 available: the spacing
drops by 2 and the line becomes 100 wide; the same line 90 wide is left
alone. -/
theorem AdjustSpacingToFitHorizontally_fit_witness :
    AdjustSpacingToFitHorizontally 110 2 6 100 = (0, 100)
    ∧ (AdjustSpacingToFitHorizontally 110 2 6 100).2 ≤ 100
    ∧ AdjustSpacingToFitHorizontally 90 2 6 100 = (2, 90) :=
  ⟨by decide,
    ((AdjustSpacingToFitHorizontally_fit 110 2 6 100).1 (by decide)).2.2.1,
    (AdjustSpacingToFitHorizontally_fit 90 2 6 100).2 (by decide)⟩

/-! ## Word wrap -/

/-- On a text of short words the model wraps at the spaces and returns: with
glyphs 10 wide, spacing 1 and width 30, "to be or it" becomes four lines. -/
theorem WordWrapGameString_short_words :
    WordWrapGameString sampleFontWidth 12 textToBe 30 1
      = WrapResult.done [116, 111, 10, 98, 101, 10, 111, 114, 10, 105, 116] := by
  decide

/-- Once the line of "to Tristram" is broken after "to", the loop is back at
the start of the word "Tristram" after three characters, with the same text:
whatever the budget, it does not leave. -/
theorem wordWrapLoop_cycle (fuel : Nat) :
    wordWrapLoop sampleFontWidth 30 1 11 fuel (textToTristram.set 2 10) 3 3 0
      = WrapResult.outOfFuel := by
  induction fuel using Nat.strong_induction_on with
  | _ n ih =>
    by_cases h : n < 7
    · interval_cases n <;> decide
    · obtain ⟨m, rfl⟩ : ∃ m, n = m + 7 := ⟨n - 7, by omega⟩
      have step : wordWrapLoop sampleFontWidth 30 1 11 (m + 7) (textToTristram.set 2 10) 3 3 0
          = wordWrapLoop sampleFontWidth 30 1 11 (m + 4) (textToTristram.set 2 10) 3 3 0 := rfl
      rw [step]
      exact ih (m + 4) (by omega)

/-- C31, at two failing inputs, with glyphs 10 wide, spacing 1 and width 30.
On "Tristram", a single word wider than `width` at offset 0, the backtracking
loop finds no space, steps `j` from 0 to `SIZE_MODULUS - 1` and reads `text[j]`
there, outside the string (the byte in front of it), whenever the budget
reaches that step. On "to Tristram" the line is broken after "to"; the word
then starts a line right after a line break, the backtracking loop leaves
with `j = lineStart - 1`, and the outer loop resumes at `lineStart` with the
same text: for every budget the run is still going when the budget is used
up, so `WordWrapGameString` does not terminate. -/
theorem WordWrapGameString_long_word_fails :
    (∀ fuel : Nat, WordWrapGameString sampleFontWidth (fuel + 7) textTristram 30 1
        = WrapResult.outOfBounds (SIZE_MODULUS - 1))
    ∧ (∀ fuel : Nat, WordWrapGameString sampleFontWidth fuel textToTristram 30 1
        = WrapResult.outOfFuel) := by
  constructor
  · intro fuel
    rfl
  · intro fuel
    by_cases h : fuel < 4
    · interval_cases fuel <;> decide
    · obtain ⟨m, rfl⟩ : ∃ m, fuel = m + 4 := ⟨fuel - 4, by omega⟩
      have step : WordWrapGameString sampleFontWidth (m + 4) textToTristram 30 1
          = wordWrapLoop sampleFontWidth 30 1 11 (m + 1) (textToTristram.set 2 10) 3 3 0 := rfl
      rw [step]
      exact wordWrapLoop_cycle (m + 1)

end devilution
